import Mathlib

/-!
# libmce-glib: battery, charger and inactivity monitors

A shallow embedding of `src/mce_battery.c`, `src/mce_charger.c` and
`src/mce_inactivity.c`.

Conventions of the embedding

* A C function that mutates `self` becomes a Lean function from the instance
  to the updated instance.
* `priv->proxy` points to the shared `MceProxy`.  The embedding stores the
  current contents of the pointee in `priv.proxy`; a change made by the
  connection layer is the environment step `set_proxy`.
* Effects that leave the instance (signal emissions, handler attachment, pull
  queries, failed debug assertions, handler removal) are appended, in program
  order, to the ghost log `world.trace`.  Handlers run by `g_signal_emit` are
  application code and are not part of the embedding.
* `gboolean` fields that are only ever assigned the result of a logical
  operator or `TRUE`/`FALSE` are `Bool`; `gint` is `Int`, `guint` and `gulong`
  are `Nat`, the conversion from `gint` to `guint` is `% 2 ^ 32`.
* `GDEBUG` and `GWARN` only write to the log and are left out.
* The static slot `mce_<kind>_instance`, the weak pointer that clears it, and
  the ownership of references are the subject of `Registry`; the three
  monitors enter it through `Kind`.
-/

namespace MceGlib

/-! ## External collaborators: glib, the generated D-Bus proxies, mce headers -/

/-- The C function `strcmp` on the characters of two strings: the sign of the
first difference, a proper prefix sorting first. -/
def strcmp : List Char → List Char → Int
  | [], [] => 0
  | [], _ :: _ => -1
  | _ :: _, [] => 1
  | a :: as, b :: bs =>
    if a = b then strcmp as bs else if a.toNat < b.toNat then -1 else 1

/-- The glib function `g_strcmp0 (a, b)`: `strcmp` that tolerates NULL, with
NULL sorting before every string. -/
def g_strcmp0 : Option String → Option String → Int
  | none, none => 0
  | none, some _ => -1
  | some _, none => 1
  | some a, some b => strcmp a.data b.data

/-- Wire value `MCE_BATTERY_STATUS_UNKNOWN` of `mce/mode-names.h`. -/
def MCE_BATTERY_STATUS_UNKNOWN : String := "unknown"
/-- Wire value `MCE_BATTERY_STATUS_FULL` of `mce/mode-names.h`. -/
def MCE_BATTERY_STATUS_FULL : String := "full"
/-- Wire value `MCE_BATTERY_STATUS_OK` of `mce/mode-names.h`. -/
def MCE_BATTERY_STATUS_OK : String := "ok"
/-- Wire value `MCE_BATTERY_STATUS_LOW` of `mce/mode-names.h`. -/
def MCE_BATTERY_STATUS_LOW : String := "low"
/-- Wire value `MCE_BATTERY_STATUS_EMPTY` of `mce/mode-names.h`. -/
def MCE_BATTERY_STATUS_EMPTY : String := "empty"

/-- Wire value `MCE_CHARGER_STATE_UNKNOWN` of `mce/mode-names.h`. -/
def MCE_CHARGER_STATE_UNKNOWN : String := "unknown"
/-- Wire value `MCE_CHARGER_STATE_ON` of `mce/mode-names.h`. -/
def MCE_CHARGER_STATE_ON : String := "on"
/-- Wire value `MCE_CHARGER_STATE_OFF` of `mce/mode-names.h`. -/
def MCE_CHARGER_STATE_OFF : String := "off"
/-- Signal name `MCE_CHARGER_STATE_SIG` of `mce/dbus-names.h`. -/
def MCE_CHARGER_STATE_SIG : String := "charger_state_ind"
/-- Signal name `MCE_INACTIVITY_SIG` of `mce/dbus-names.h`. -/
def MCE_INACTIVITY_SIG : String := "system_inactivity_ind"

/-- The generated push-notification proxy `ComNokiaMceSignal`; the monitors
only test the pointer for NULL. -/
structure ComNokiaMceSignal where
  deriving DecidableEq, Repr

/-- The generated pull-request proxy `ComNokiaMceRequest`; the monitors only
test the pointer for NULL. -/
structure ComNokiaMceRequest where
  deriving DecidableEq, Repr

/-- The fields of `MceProxy` (`mce_proxy.h`) that the monitors read. -/
structure MceProxy where
  valid : Bool
  signal : Option ComNokiaMceSignal
  request : Option ComNokiaMceRequest
  deriving DecidableEq, Repr

/-- A non-NULL function pointer, as `G_CALLBACK (fn)` hands it to glib. -/
structure GCallback where
  address : Nat
  deriving DecidableEq, Repr

/-- What an instance does to the world outside of itself; `σ` is the signal
enumeration of the instance. -/
inductive Effect (σ : Type) where
  /-- The call `g_signal_emit (self, signals[sig], 0)`. -/
  | emit (sig : σ)
  /-- The call `g_signal_connect (proxy->signal, name, ...)`, returning `id`. -/
  | signal_connect (detailed_signal : String) (id : Nat)
  /-- The call `com_nokia_mce_request_call_<method> (proxy->request, ...)`. -/
  | request_call (method : String)
  /-- A `GASSERT` whose condition is false. -/
  | gassert_failed
  /-- The call `g_signal_handler_disconnect (proxy->signal, id)`. -/
  | signal_handler_disconnect (id : Nat)
  /-- The call `mce_proxy_remove_handler (proxy, id)`. -/
  | proxy_remove_handler (id : Nat)
  /-- The call `mce_proxy_unref (proxy)`. -/
  | proxy_unref
  /-- The call `mce_proxy_add_valid_changed_handler (proxy, ...)`, returning `id`. -/
  | proxy_add_handler (id : Nat)
  /-- The call `g_signal_connect (self, name, G_CALLBACK (fn), arg)` on the
  object itself, returning `id`. -/
  | handler_connect (detailed_signal : String) (fn : GCallback) (arg : Nat) (id : Nat)
  /-- The call `g_signal_handler_disconnect (self, id)` on the object itself. -/
  | handler_disconnect (id : Nat)
  deriving DecidableEq, Repr

/-- Ghost state: the log of effects in program order, and the number of handler
ids glib has handed out (glib numbers handlers 1, 2, 3, ...). -/
structure World (σ : Type) where
  trace : List (Effect σ)
  handler_seq : Nat
  deriving DecidableEq, Repr

/-- Append one effect to the log. -/
def World.log {σ : Type} (w : World σ) (e : Effect σ) : World σ :=
  { w with trace := w.trace ++ [e] }

/-- The base `GObject`: only the reference count matters here. -/
structure GObject where
  ref_count : Nat
  deriving DecidableEq, Repr

/-! ## mce_battery.h / mce_battery.c -/

/-- The enumeration `MCE_BATTERY_STATUS` of `mce_battery.h`. -/
inductive MCE_BATTERY_STATUS where
  | MCE_BATTERY_UNKNOWN
  | MCE_BATTERY_EMPTY
  | MCE_BATTERY_LOW
  | MCE_BATTERY_OK
  | MCE_BATTERY_FULL
  deriving DecidableEq, Repr

/-- The enumeration `mce_battery_signal` (without `SIGNAL_COUNT`). -/
inductive mce_battery_signal where
  | SIGNAL_VALID_CHANGED
  | SIGNAL_LEVEL_CHANGED
  | SIGNAL_STATUS_CHANGED
  deriving DecidableEq, Repr

/-- Flag `BATTERY_HAVE_NONE`. -/
def BATTERY_HAVE_NONE : Nat := 0x00
/-- Flag `BATTERY_HAVE_LEVEL`. -/
def BATTERY_HAVE_LEVEL : Nat := 0x01
/-- Flag `BATTERY_HAVE_STATUS`. -/
def BATTERY_HAVE_STATUS : Nat := 0x02
/-- The macro `BATTERY_HAVE_ALL`. -/
def BATTERY_HAVE_ALL : Nat := BATTERY_HAVE_LEVEL ||| BATTERY_HAVE_STATUS

/-- The structure `mce_battery_priv`; the array `battery_ind_id` of
`BATTERY_IND_COUNT = 2` handler ids is split into its two elements. -/
structure MceBatteryPriv where
  proxy : MceProxy
  flags : Nat
  proxy_valid_id : Nat
  battery_ind_id_LEVEL : Nat
  battery_ind_id_STATUS : Nat
  deriving DecidableEq, Repr

/-- The structure `mce_battery`, with the ghost `world`. -/
structure MceBattery where
  object : GObject
  priv : MceBatteryPriv
  valid : Bool
  level : Nat
  status : MCE_BATTERY_STATUS
  world : World mce_battery_signal
  deriving DecidableEq, Repr

namespace MceBattery

/-- The call `g_signal_emit (self, mce_battery_signals[sig], 0)`. -/
def g_signal_emit (self : MceBattery) (sig : mce_battery_signal) : MceBattery :=
  { self with world := self.world.log (Effect.emit sig) }

/-- The macro `GASSERT (cond)` of libglibutil: in a build with assertions a
false condition is reported and execution continues. -/
def GASSERT (self : MceBattery) (cond : Bool) : MceBattery :=
  if cond then self else { self with world := self.world.log Effect.gassert_failed }

/-- Number of emissions of `sig` recorded so far. -/
def emissions (self : MceBattery) (sig : mce_battery_signal) : Nat :=
  self.world.trace.count (Effect.emit sig)

/-- Number of pull queries `method` issued so far. -/
def queries (self : MceBattery) (method : String) : Nat :=
  self.world.trace.count (Effect.request_call method)

/-- Number of push handlers attached so far. -/
def attachments (self : MceBattery) : Nat :=
  (self.world.trace.filter fun e =>
    match e with
    | Effect.signal_connect _ _ => true
    | _ => false).length

/-- Number of failed debug assertions recorded so far. -/
def assert_failures (self : MceBattery) : Nat :=
  self.world.trace.count Effect.gassert_failed

/-- Environment step: the connection layer changes the shared proxy. -/
def set_proxy (self : MceBattery) (proxy : MceProxy) : MceBattery :=
  { self with priv := { self.priv with proxy := proxy } }

end MceBattery

open MceBattery MCE_BATTERY_STATUS mce_battery_signal

/-- Embeds `mce_battery_check_valid`, mce_battery.c lines 95-108. -/
def mce_battery_check_valid (self : MceBattery) : MceBattery :=
  let priv := self.priv
  let valid : Bool := priv.proxy.valid &&
    decide ((priv.flags &&& BATTERY_HAVE_ALL) = BATTERY_HAVE_ALL)
  if valid ≠ self.valid then
    g_signal_emit { self with valid := valid } SIGNAL_VALID_CHANGED
  else self

/-- Embeds `mce_battery_level_update`, mce_battery.c lines 110-125. -/
def mce_battery_level_update (self : MceBattery) (level : Int) : MceBattery :=
  let new_level : Nat :=
    ((if level < 0 then 0 else if level > 100 then 100 else level) % 2 ^ 32).toNat
  let self1 :=
    if self.level ≠ new_level then
      g_signal_emit { self with level := new_level } SIGNAL_LEVEL_CHANGED
    else self
  let self2 :=
    { self1 with priv := { self1.priv with flags := self1.priv.flags ||| BATTERY_HAVE_LEVEL } }
  mce_battery_check_valid self2

/-- Embeds `mce_battery_status_update`, mce_battery.c lines 127-154. -/
def mce_battery_status_update (self : MceBattery) (status : Option String) : MceBattery :=
  let decoded : MceBattery × MCE_BATTERY_STATUS :=
    if g_strcmp0 status (some MCE_BATTERY_STATUS_FULL) = 0 then
      (self, MCE_BATTERY_FULL)
    else if g_strcmp0 status (some MCE_BATTERY_STATUS_OK) = 0 then
      (self, MCE_BATTERY_OK)
    else if g_strcmp0 status (some MCE_BATTERY_STATUS_LOW) = 0 then
      (self, MCE_BATTERY_LOW)
    else if g_strcmp0 status (some MCE_BATTERY_STATUS_EMPTY) = 0 then
      (self, MCE_BATTERY_EMPTY)
    else
      (GASSERT self (g_strcmp0 status (some MCE_BATTERY_STATUS_UNKNOWN) = 0),
        MCE_BATTERY_UNKNOWN)
  let self0 := decoded.1
  let new_status := decoded.2
  let self1 :=
    if self0.status ≠ new_status then
      g_signal_emit { self0 with status := new_status } SIGNAL_STATUS_CHANGED
    else self0
  let self2 :=
    { self1 with priv := { self1.priv with flags := self1.priv.flags ||| BATTERY_HAVE_STATUS } }
  mce_battery_check_valid self2

/-- The call `g_object_ref (self)`. -/
def MceBattery.g_object_ref (self : MceBattery) : MceBattery :=
  { self with object := { ref_count := self.object.ref_count + 1 } }

/-- The function `gutil_disconnect_handlers (priv->proxy->signal,
priv->battery_ind_id, 2)` of libglibutil: with a non-NULL instance every
non-zero id is disconnected and zeroed. -/
def MceBattery.gutil_disconnect_handlers (self : MceBattery) : MceBattery :=
  if self.priv.proxy.signal.isSome then
    let self1 :=
      if self.priv.battery_ind_id_LEVEL ≠ 0 then
        { self with
          world := self.world.log (Effect.signal_handler_disconnect self.priv.battery_ind_id_LEVEL),
          priv := { self.priv with battery_ind_id_LEVEL := 0 } }
      else self
    if self1.priv.battery_ind_id_STATUS ≠ 0 then
      { self1 with
        world := self1.world.log (Effect.signal_handler_disconnect self1.priv.battery_ind_id_STATUS),
        priv := { self1.priv with battery_ind_id_STATUS := 0 } }
    else self1
  else self

/-- Embeds `mce_battery_finalize`, mce_battery.c lines 384-397; the parent
finalizer frees the instance. -/
def mce_battery_finalize (self : MceBattery) : MceBattery :=
  let self1 := self.gutil_disconnect_handlers
  let self2 :=
    { self1 with world := self1.world.log (Effect.proxy_remove_handler self1.priv.proxy_valid_id) }
  { self2 with world := self2.world.log Effect.proxy_unref }

/-- The call `g_object_unref (self)`: drops one reference, and when it was
the last one finalizes the instance (`ref_count = 0` marks a freed instance). -/
def MceBattery.g_object_unref (self : MceBattery) : MceBattery :=
  if self.object.ref_count > 1 then
    { self with object := { ref_count := self.object.ref_count - 1 } }
  else
    mce_battery_finalize { self with object := { ref_count := 0 } }

/-- Embeds `mce_battery_ref`, mce_battery.c lines 298-306; the result is the
pointer passed in, here with the updated pointee. -/
def mce_battery_ref (self : Option MceBattery) : Option MceBattery :=
  match self with
  | some s => some s.g_object_ref
  | none => none

/-- Embeds `mce_battery_unref`, mce_battery.c lines 308-315; returns the
updated pointee. -/
def mce_battery_unref (self : Option MceBattery) : Option MceBattery :=
  match self with
  | some s => some s.g_object_unref
  | none => none

/-- Embeds `mce_battery_level_query_done`, mce_battery.c lines 156-177;
`result` is what `com_nokia_mce_request_call_get_battery_level_finish` yields:
`some level` on success, `none` on failure. -/
def mce_battery_level_query_done (self : MceBattery) (result : Option Int) : MceBattery :=
  let self1 :=
    match result with
    | some level => mce_battery_level_update self level
    | none => self
  (mce_battery_unref (some self1)).getD self1

/-- Embeds `mce_battery_status_query_done`, mce_battery.c lines 179-201;
`result` is what `com_nokia_mce_request_call_get_battery_status_finish`
yields: `some status` on success, `none` on failure. -/
def mce_battery_status_query_done (self : MceBattery) (result : Option String) : MceBattery :=
  let self1 :=
    match result with
    | some status => mce_battery_status_update self (some status)
    | none => self
  (mce_battery_unref (some self1)).getD self1

/-- Embeds `mce_battery_level_ind`, mce_battery.c lines 203-212. -/
def mce_battery_level_ind (level : Int) (arg : MceBattery) : MceBattery :=
  mce_battery_level_update arg level

/-- Embeds `mce_battery_status_ind`, mce_battery.c lines 214-223. -/
def mce_battery_status_ind (status : Option String) (arg : MceBattery) : MceBattery :=
  mce_battery_status_update arg status

/-- The call `g_signal_connect (proxy->signal, detailed_signal, ...)`: glib
hands out the next handler id, which is never zero. -/
def MceBattery.g_signal_connect (self : MceBattery) (detailed_signal : String) :
    Nat × MceBattery :=
  let id := self.world.handler_seq + 1
  (id, { self with
    world := { trace := self.world.trace ++ [Effect.signal_connect detailed_signal id],
               handler_seq := id } })

/-- The call `com_nokia_mce_request_call_<method> (proxy->request, NULL,
callback, self)`: the asynchronous pull query is submitted. -/
def MceBattery.request_call (self : MceBattery) (method : String) : MceBattery :=
  { self with world := self.world.log (Effect.request_call method) }

/-- Embeds `mce_battery_query`, mce_battery.c lines 225-258. -/
def mce_battery_query (self : MceBattery) : MceBattery :=
  let proxy := self.priv.proxy
  let self2 :=
    if proxy.signal.isSome then
      let self1 :=
        if self.priv.battery_ind_id_LEVEL = 0 then
          let r := self.g_signal_connect "battery-level-ind"
          { r.2 with priv := { r.2.priv with battery_ind_id_LEVEL := r.1 } }
        else self
      if self1.priv.battery_ind_id_STATUS = 0 then
        let r := self1.g_signal_connect "battery-status-ind"
        { r.2 with priv := { r.2.priv with battery_ind_id_STATUS := r.1 } }
      else self1
    else self
  if proxy.request.isSome && proxy.valid then
    let self3 := ((mce_battery_ref (some self2)).getD self2).request_call "get_battery_level"
    ((mce_battery_ref (some self3)).getD self3).request_call "get_battery_status"
  else self2

/-- Embeds `mce_battery_valid_changed`, mce_battery.c lines 260-275; `proxy`
is the pointee of the first argument, the same object as `priv->proxy`. -/
def mce_battery_valid_changed (proxy : MceProxy) (arg : MceBattery) : MceBattery :=
  let self := arg
  let self1 :=
    if proxy.valid then
      mce_battery_query self
    else
      { self with priv := { self.priv with flags := BATTERY_HAVE_NONE } }
  mce_battery_check_valid self1

/-- Embeds `mce_battery_init`, mce_battery.c lines 370-382; `proxy` is the
pointee of the result of `mce_proxy_new ()`. -/
def mce_battery_init (self : MceBattery) (proxy : MceProxy) : MceBattery :=
  let id := self.world.handler_seq + 1
  { self with
    priv := { self.priv with proxy := proxy, proxy_valid_id := id },
    world := { trace := self.world.trace ++ [Effect.proxy_add_handler id],
               handler_seq := id } }

/-- The call `g_object_new (MCE_BATTERY_TYPE, NULL)`: a zero-filled instance
holding one reference, passed through `mce_battery_init`. -/
def MceBattery.g_object_new (proxy : MceProxy) (world : World mce_battery_signal) :
    MceBattery :=
  mce_battery_init
    { object := { ref_count := 1 },
      priv := { proxy := proxy, flags := 0, proxy_valid_id := 0,
                battery_ind_id_LEVEL := 0, battery_ind_id_STATUS := 0 },
      valid := false, level := 0, status := MCE_BATTERY_UNKNOWN, world := world }
    proxy

/-- Embeds `mce_battery_new`, mce_battery.c lines 281-296; the static
`mce_battery_instance` is passed in (`none` when NULL) and afterwards points to
the result. -/
def mce_battery_new (mce_battery_instance : Option MceBattery) (proxy : MceProxy)
    (world : World mce_battery_signal) : MceBattery :=
  match mce_battery_instance with
  | some inst => (mce_battery_ref (some inst)).getD inst
  | none => mce_battery_query (MceBattery.g_object_new proxy world)

/-- The callbacks the event loop can dispatch to a battery instance. -/
inductive BatteryEvent where
  /-- Push notification `battery-level-ind`. -/
  | level_ind (level : Int)
  /-- Push notification `battery-status-ind`. -/
  | status_ind (status : Option String)
  /-- Completion of a `get_battery_level` pull query. -/
  | level_query_done (result : Option Int)
  /-- Completion of a `get_battery_status` pull query. -/
  | status_query_done (result : Option String)
  /-- The proxy changed to `proxy` and ran its valid-changed handlers. -/
  | valid_changed (proxy : MceProxy)
  deriving DecidableEq, Repr

/-- Dispatch of one callback. -/
def MceBattery.step (self : MceBattery) : BatteryEvent → MceBattery
  | BatteryEvent.level_ind level => mce_battery_level_ind level self
  | BatteryEvent.status_ind status => mce_battery_status_ind status self
  | BatteryEvent.level_query_done result => mce_battery_level_query_done self result
  | BatteryEvent.status_query_done result => mce_battery_status_query_done self result
  | BatteryEvent.valid_changed proxy => mce_battery_valid_changed proxy (self.set_proxy proxy)

/-- Dispatch of a sequence of callbacks, in order. -/
def MceBattery.run (self : MceBattery) (events : List BatteryEvent) : MceBattery :=
  events.foldl MceBattery.step self

/-- The macro `SIGNAL_VALID_CHANGED_NAME` of mce_battery.c. -/
def MceBattery.SIGNAL_VALID_CHANGED_NAME : String := "mce-battery-valid-changed"
/-- The macro `SIGNAL_LEVEL_CHANGED_NAME` of mce_battery.c. -/
def MceBattery.SIGNAL_LEVEL_CHANGED_NAME : String := "mce-battery-level-changed"
/-- The macro `SIGNAL_STATUS_CHANGED_NAME` of mce_battery.c. -/
def MceBattery.SIGNAL_STATUS_CHANGED_NAME : String := "mce-battery-status-changed"

/-- The type `MceBatteryFunc` of mce_battery.h, for a non-NULL pointer; a
parameter of this type that may be NULL is an `Option`. -/
abbrev MceBatteryFunc : Type := GCallback

/-- The call `g_signal_connect (self, detailed_signal, G_CALLBACK (fn), arg)`
on the battery itself: glib hands out the next handler id, which is never
zero. -/
def MceBattery.g_signal_connect_self (self : MceBattery) (detailed_signal : String)
    (fn : GCallback) (arg : Nat) : Nat × MceBattery :=
  let id := self.world.handler_seq + 1
  (id, { self with
    world := { trace := self.world.trace ++ [Effect.handler_connect detailed_signal fn arg id],
               handler_seq := id } })

/-- The call `g_signal_handler_disconnect (self, id)` on the battery itself. -/
def MceBattery.g_signal_handler_disconnect (self : MceBattery) (id : Nat) : MceBattery :=
  { self with world := self.world.log (Effect.handler_disconnect id) }

/-- Embeds `mce_battery_add_valid_changed_handler`, mce_battery.c lines
317-325; `self` and `fn` are `none` when NULL, `arg` is the address passed
along; the result is the returned id and the updated pointee. -/
def mce_battery_add_valid_changed_handler (self : Option MceBattery)
    (fn : Option MceBatteryFunc) (arg : Nat) : Nat × Option MceBattery :=
  match self, fn with
  | some s, some f =>
    let r := s.g_signal_connect_self MceBattery.SIGNAL_VALID_CHANGED_NAME f arg
    (r.1, some r.2)
  | _, _ => (0, self)

/-- Embeds `mce_battery_add_level_changed_handler`, mce_battery.c lines
327-335. -/
def mce_battery_add_level_changed_handler (self : Option MceBattery)
    (fn : Option MceBatteryFunc) (arg : Nat) : Nat × Option MceBattery :=
  match self, fn with
  | some s, some f =>
    let r := s.g_signal_connect_self MceBattery.SIGNAL_LEVEL_CHANGED_NAME f arg
    (r.1, some r.2)
  | _, _ => (0, self)

/-- Embeds `mce_battery_add_status_changed_handler`, mce_battery.c lines
337-345. -/
def mce_battery_add_status_changed_handler (self : Option MceBattery)
    (fn : Option MceBatteryFunc) (arg : Nat) : Nat × Option MceBattery :=
  match self, fn with
  | some s, some f =>
    let r := s.g_signal_connect_self MceBattery.SIGNAL_STATUS_CHANGED_NAME f arg
    (r.1, some r.2)
  | _, _ => (0, self)

/-- Embeds `mce_battery_remove_handler`, mce_battery.c lines 347-355; returns
the updated pointee. -/
def mce_battery_remove_handler (self : Option MceBattery) (id : Nat) : Option MceBattery :=
  match self with
  | some s => if id ≠ 0 then some (s.g_signal_handler_disconnect id) else some s
  | none => none

/-! ## mce_charger.h / mce_charger.c -/

/-- The enumeration `MCE_CHARGER_STATE` of `mce_charger.h`. -/
inductive MCE_CHARGER_STATE where
  | MCE_CHARGER_UNKNOWN
  | MCE_CHARGER_ON
  | MCE_CHARGER_OFF
  deriving DecidableEq, Repr

/-- The enumeration `mce_charger_signal` (without `SIGNAL_COUNT`). -/
inductive mce_charger_signal where
  | SIGNAL_VALID_CHANGED
  | SIGNAL_STATE_CHANGED
  deriving DecidableEq, Repr

/-- The structure `mce_charger_priv`. -/
structure MceChargerPriv where
  proxy : MceProxy
  proxy_valid_id : Nat
  charger_state_ind_id : Nat
  deriving DecidableEq, Repr

/-- The structure `mce_charger`, with the ghost `world`. -/
structure MceCharger where
  object : GObject
  priv : MceChargerPriv
  valid : Bool
  state : MCE_CHARGER_STATE
  world : World mce_charger_signal
  deriving DecidableEq, Repr

namespace MceCharger

/-- The call `g_signal_emit (self, mce_charger_signals[sig], 0)`. -/
def g_signal_emit (self : MceCharger) (sig : mce_charger_signal) : MceCharger :=
  { self with world := self.world.log (Effect.emit sig) }

/-- The macro `GASSERT (cond)` of libglibutil: in a build with assertions a
false condition is reported and execution continues. -/
def GASSERT (self : MceCharger) (cond : Bool) : MceCharger :=
  if cond then self else { self with world := self.world.log Effect.gassert_failed }

/-- Number of emissions of `sig` recorded so far. -/
def emissions (self : MceCharger) (sig : mce_charger_signal) : Nat :=
  self.world.trace.count (Effect.emit sig)

/-- Environment step: the connection layer changes the shared proxy. -/
def set_proxy (self : MceCharger) (proxy : MceProxy) : MceCharger :=
  { self with priv := { self.priv with proxy := proxy } }

/-- The call `g_object_ref (self)`. -/
def g_object_ref (self : MceCharger) : MceCharger :=
  { self with object := { ref_count := self.object.ref_count + 1 } }

/-- The call `g_signal_connect (proxy->signal, detailed_signal, ...)`: glib
hands out the next handler id, which is never zero. -/
def g_signal_connect (self : MceCharger) (detailed_signal : String) : Nat × MceCharger :=
  let id := self.world.handler_seq + 1
  (id, { self with
    world := { trace := self.world.trace ++ [Effect.signal_connect detailed_signal id],
               handler_seq := id } })

/-- The call `com_nokia_mce_request_call_<method> (proxy->request, NULL,
callback, self)`: the asynchronous pull query is submitted. -/
def request_call (self : MceCharger) (method : String) : MceCharger :=
  { self with world := self.world.log (Effect.request_call method) }

end MceCharger

/-- Embeds `mce_charger_state_update`, mce_charger.c lines 78-103. -/
def mce_charger_state_update (self : MceCharger) (value : Option String) : MceCharger :=
  let decoded : MceCharger × MCE_CHARGER_STATE :=
    if g_strcmp0 value (some MCE_CHARGER_STATE_ON) = 0 then
      (self, MCE_CHARGER_STATE.MCE_CHARGER_ON)
    else if g_strcmp0 value (some MCE_CHARGER_STATE_OFF) = 0 then
      (self, MCE_CHARGER_STATE.MCE_CHARGER_OFF)
    else
      (self.GASSERT (g_strcmp0 value (some MCE_CHARGER_STATE_UNKNOWN) = 0),
        MCE_CHARGER_STATE.MCE_CHARGER_UNKNOWN)
  let self0 := decoded.1
  let state := decoded.2
  let self1 :=
    if self0.state ≠ state then
      { self0 with state := state }.g_signal_emit mce_charger_signal.SIGNAL_STATE_CHANGED
    else self0
  if self1.priv.proxy.valid && !self1.valid then
    { self1 with valid := true }.g_signal_emit mce_charger_signal.SIGNAL_VALID_CHANGED
  else self1

/-- Embeds `mce_charger_finalize`, mce_charger.c lines 284-299; the parent
finalizer frees the instance. -/
def mce_charger_finalize (self : MceCharger) : MceCharger :=
  let self1 :=
    if self.priv.charger_state_ind_id ≠ 0 then
      { self with
        world := self.world.log (Effect.signal_handler_disconnect self.priv.charger_state_ind_id) }
    else self
  let self2 :=
    { self1 with world := self1.world.log (Effect.proxy_remove_handler self1.priv.proxy_valid_id) }
  { self2 with world := self2.world.log Effect.proxy_unref }

/-- The call `g_object_unref (self)`: drops one reference, and when it was
the last one finalizes the instance (`ref_count = 0` marks a freed instance). -/
def MceCharger.g_object_unref (self : MceCharger) : MceCharger :=
  if self.object.ref_count > 1 then
    { self with object := { ref_count := self.object.ref_count - 1 } }
  else
    mce_charger_finalize { self with object := { ref_count := 0 } }

/-- Embeds `mce_charger_ref`, mce_charger.c lines 208-216. -/
def mce_charger_ref (self : Option MceCharger) : Option MceCharger :=
  match self with
  | some s => some s.g_object_ref
  | none => none

/-- Embeds `mce_charger_unref`, mce_charger.c lines 218-225; returns the
updated pointee. -/
def mce_charger_unref (self : Option MceCharger) : Option MceCharger :=
  match self with
  | some s => some s.g_object_unref
  | none => none

/-- Embeds `mce_charger_state_query_done`, mce_charger.c lines 105-132;
`result` is what `com_nokia_mce_request_call_get_charger_state_finish` yields:
`some state` on success, `none` on failure. -/
def mce_charger_state_query_done (self : MceCharger) (result : Option String) : MceCharger :=
  let self1 :=
    match result with
    | some state => mce_charger_state_update self (some state)
    | none => self
  (mce_charger_unref (some self1)).getD self1

/-- Embeds `mce_charger_state_ind`, mce_charger.c lines 134-143. -/
def mce_charger_state_ind (state : Option String) (arg : MceCharger) : MceCharger :=
  mce_charger_state_update arg state

/-- Embeds `mce_charger_state_query`, mce_charger.c lines 145-167. -/
def mce_charger_state_query (self : MceCharger) : MceCharger :=
  let proxy := self.priv.proxy
  let self1 :=
    if proxy.signal.isSome && self.priv.charger_state_ind_id = 0 then
      let r := self.g_signal_connect MCE_CHARGER_STATE_SIG
      { r.2 with priv := { r.2.priv with charger_state_ind_id := r.1 } }
    else self
  if proxy.request.isSome && proxy.valid then
    ((mce_charger_ref (some self1)).getD self1).request_call "get_charger_state"
  else self1

/-- Embeds `mce_charger_valid_changed`, mce_charger.c lines 169-185; `proxy`
is the pointee of the first argument, the same object as `priv->proxy`. -/
def mce_charger_valid_changed (proxy : MceProxy) (arg : MceCharger) : MceCharger :=
  let self := arg
  if proxy.valid then
    mce_charger_state_query self
  else if self.valid then
    { self with valid := false }.g_signal_emit mce_charger_signal.SIGNAL_VALID_CHANGED
  else self

/-- Embeds `mce_charger_init`, mce_charger.c lines 270-282; `proxy` is the
pointee of the result of `mce_proxy_new ()`. -/
def mce_charger_init (self : MceCharger) (proxy : MceProxy) : MceCharger :=
  let id := self.world.handler_seq + 1
  { self with
    priv := { self.priv with proxy := proxy, proxy_valid_id := id },
    world := { trace := self.world.trace ++ [Effect.proxy_add_handler id],
               handler_seq := id } }

/-- The call `g_object_new (MCE_CHARGER_TYPE, NULL)`: a zero-filled instance
holding one reference, passed through `mce_charger_init`. -/
def MceCharger.g_object_new (proxy : MceProxy) (world : World mce_charger_signal) :
    MceCharger :=
  mce_charger_init
    { object := { ref_count := 1 },
      priv := { proxy := proxy, proxy_valid_id := 0, charger_state_ind_id := 0 },
      valid := false, state := MCE_CHARGER_STATE.MCE_CHARGER_UNKNOWN, world := world }
    proxy

/-- Embeds `mce_charger_new`, mce_charger.c lines 191-206; the static
`mce_charger_instance` is passed in (`none` when NULL) and afterwards points to
the result. -/
def mce_charger_new (mce_charger_instance : Option MceCharger) (proxy : MceProxy)
    (world : World mce_charger_signal) : MceCharger :=
  match mce_charger_instance with
  | some inst => (mce_charger_ref (some inst)).getD inst
  | none => mce_charger_state_query (MceCharger.g_object_new proxy world)

/-- The callbacks the event loop can dispatch to a charger instance. -/
inductive ChargerEvent where
  /-- Push notification `charger_state_ind`. -/
  | state_ind (state : Option String)
  /-- Completion of a `get_charger_state` pull query. -/
  | state_query_done (result : Option String)
  /-- The proxy changed to `proxy` and ran its valid-changed handlers. -/
  | valid_changed (proxy : MceProxy)
  deriving DecidableEq, Repr

/-- Dispatch of one callback. -/
def MceCharger.step (self : MceCharger) : ChargerEvent → MceCharger
  | ChargerEvent.state_ind state => mce_charger_state_ind state self
  | ChargerEvent.state_query_done result => mce_charger_state_query_done self result
  | ChargerEvent.valid_changed proxy => mce_charger_valid_changed proxy (self.set_proxy proxy)

/-- Dispatch of a sequence of callbacks, in order. -/
def MceCharger.run (self : MceCharger) (events : List ChargerEvent) : MceCharger :=
  events.foldl MceCharger.step self

/-- The macro `SIGNAL_VALID_CHANGED_NAME` of mce_charger.c. -/
def MceCharger.SIGNAL_VALID_CHANGED_NAME : String := "mce-charger-valid-changed"
/-- The macro `SIGNAL_STATE_CHANGED_NAME` of mce_charger.c. -/
def MceCharger.SIGNAL_STATE_CHANGED_NAME : String := "mce-charger-state-changed"

/-- The type `MceChargerFunc` of mce_charger.h, for a non-NULL pointer. -/
abbrev MceChargerFunc : Type := GCallback

/-- The call `g_signal_connect (self, detailed_signal, G_CALLBACK (fn), arg)`
on the charger itself. -/
def MceCharger.g_signal_connect_self (self : MceCharger) (detailed_signal : String)
    (fn : GCallback) (arg : Nat) : Nat × MceCharger :=
  let id := self.world.handler_seq + 1
  (id, { self with
    world := { trace := self.world.trace ++ [Effect.handler_connect detailed_signal fn arg id],
               handler_seq := id } })

/-- The call `g_signal_handler_disconnect (self, id)` on the charger itself. -/
def MceCharger.g_signal_handler_disconnect (self : MceCharger) (id : Nat) : MceCharger :=
  { self with world := self.world.log (Effect.handler_disconnect id) }

/-- Embeds `mce_charger_add_valid_changed_handler`, mce_charger.c lines
227-235. -/
def mce_charger_add_valid_changed_handler (self : Option MceCharger)
    (fn : Option MceChargerFunc) (arg : Nat) : Nat × Option MceCharger :=
  match self, fn with
  | some s, some f =>
    let r := s.g_signal_connect_self MceCharger.SIGNAL_VALID_CHANGED_NAME f arg
    (r.1, some r.2)
  | _, _ => (0, self)

/-- Embeds `mce_charger_add_state_changed_handler`, mce_charger.c lines
237-245. -/
def mce_charger_add_state_changed_handler (self : Option MceCharger)
    (fn : Option MceChargerFunc) (arg : Nat) : Nat × Option MceCharger :=
  match self, fn with
  | some s, some f =>
    let r := s.g_signal_connect_self MceCharger.SIGNAL_STATE_CHANGED_NAME f arg
    (r.1, some r.2)
  | _, _ => (0, self)

/-- Embeds `mce_charger_remove_handler`, mce_charger.c lines 247-255; returns
the updated pointee. -/
def mce_charger_remove_handler (self : Option MceCharger) (id : Nat) : Option MceCharger :=
  match self with
  | some s => if id ≠ 0 then some (s.g_signal_handler_disconnect id) else some s
  | none => none

/-! ## mce_inactivity.h / mce_inactivity.c -/

/-- The enumeration `mce_inactivity_signal` (without `SIGNAL_COUNT`). -/
inductive mce_inactivity_signal where
  | SIGNAL_VALID_CHANGED
  | SIGNAL_STATUS_CHANGED
  deriving DecidableEq, Repr

/-- The structure `mce_inactivity_priv`. -/
structure MceInactivityPriv where
  proxy : MceProxy
  proxy_valid_id : Nat
  inactivity_status_ind_id : Nat
  deriving DecidableEq, Repr

/-- The structure `mce_inactivity`, with the ghost `world`; `status` is a
`gboolean` that stores whatever integer is delivered. -/
structure MceInactivity where
  object : GObject
  priv : MceInactivityPriv
  valid : Bool
  status : Int
  world : World mce_inactivity_signal
  deriving DecidableEq, Repr

namespace MceInactivity

/-- The call `g_signal_emit (self, mce_inactivity_signals[sig], 0)`. -/
def g_signal_emit (self : MceInactivity) (sig : mce_inactivity_signal) : MceInactivity :=
  { self with world := self.world.log (Effect.emit sig) }

/-- Number of emissions of `sig` recorded so far. -/
def emissions (self : MceInactivity) (sig : mce_inactivity_signal) : Nat :=
  self.world.trace.count (Effect.emit sig)

/-- Environment step: the connection layer changes the shared proxy. -/
def set_proxy (self : MceInactivity) (proxy : MceProxy) : MceInactivity :=
  { self with priv := { self.priv with proxy := proxy } }

end MceInactivity

/-- Embeds `mce_inactivity_status_update`, mce_inactivity.c lines 77-93. -/
def mce_inactivity_status_update (self : MceInactivity) (status : Int) : MceInactivity :=
  let prev_status := self.status
  let self1 := { self with status := status }
  let self2 :=
    if self1.status ≠ prev_status then
      self1.g_signal_emit mce_inactivity_signal.SIGNAL_STATUS_CHANGED
    else self1
  if self2.priv.proxy.valid && !self2.valid then
    { self2 with valid := true }.g_signal_emit mce_inactivity_signal.SIGNAL_VALID_CHANGED
  else self2

/-- The call `g_object_ref (self)`. -/
def MceInactivity.g_object_ref (self : MceInactivity) : MceInactivity :=
  { self with object := { ref_count := self.object.ref_count + 1 } }

/-- The call `g_signal_connect (proxy->signal, detailed_signal, ...)`: glib
hands out the next handler id, which is never zero. -/
def MceInactivity.g_signal_connect (self : MceInactivity) (detailed_signal : String) :
    Nat × MceInactivity :=
  let id := self.world.handler_seq + 1
  (id, { self with
    world := { trace := self.world.trace ++ [Effect.signal_connect detailed_signal id],
               handler_seq := id } })

/-- The call `com_nokia_mce_request_call_<method> (proxy->request, NULL,
callback, self)`: the asynchronous pull query is submitted. -/
def MceInactivity.request_call (self : MceInactivity) (method : String) : MceInactivity :=
  { self with world := self.world.log (Effect.request_call method) }

/-- Embeds `mce_inactivity_finalize`, mce_inactivity.c lines 273-288; the
parent finalizer frees the instance. -/
def mce_inactivity_finalize (self : MceInactivity) : MceInactivity :=
  let self1 :=
    if self.priv.inactivity_status_ind_id ≠ 0 then
      { self with
        world := self.world.log
          (Effect.signal_handler_disconnect self.priv.inactivity_status_ind_id) }
    else self
  let self2 :=
    { self1 with world := self1.world.log (Effect.proxy_remove_handler self1.priv.proxy_valid_id) }
  { self2 with world := self2.world.log Effect.proxy_unref }

/-- The call `g_object_unref (self)`: drops one reference, and when it was
the last one finalizes the instance (`ref_count = 0` marks a freed instance). -/
def MceInactivity.g_object_unref (self : MceInactivity) : MceInactivity :=
  if self.object.ref_count > 1 then
    { self with object := { ref_count := self.object.ref_count - 1 } }
  else
    mce_inactivity_finalize { self with object := { ref_count := 0 } }

/-- Embeds `mce_inactivity_ref`, mce_inactivity.c lines 196-205. -/
def mce_inactivity_ref (self : Option MceInactivity) : Option MceInactivity :=
  match self with
  | some s => some s.g_object_ref
  | none => none

/-- Embeds `mce_inactivity_unref`, mce_inactivity.c lines 207-214; returns the
updated pointee. -/
def mce_inactivity_unref (self : Option MceInactivity) : Option MceInactivity :=
  match self with
  | some s => some s.g_object_unref
  | none => none

/-- Embeds `mce_inactivity_status_query_done`, mce_inactivity.c lines 95-121;
`result` is what `com_nokia_mce_request_call_get_inactivity_status_finish`
yields: `some status` on success, `none` on failure. -/
def mce_inactivity_status_query_done (self : MceInactivity) (result : Option Int) :
    MceInactivity :=
  let self1 :=
    match result with
    | some status => mce_inactivity_status_update self status
    | none => self
  (mce_inactivity_unref (some self1)).getD self1

/-- Embeds `mce_inactivity_status_ind`, mce_inactivity.c lines 123-132. -/
def mce_inactivity_status_ind (status : Int) (arg : MceInactivity) : MceInactivity :=
  mce_inactivity_status_update arg status

/-- Embeds `mce_inactivity_status_query`, mce_inactivity.c lines 134-156. -/
def mce_inactivity_status_query (self : MceInactivity) : MceInactivity :=
  let proxy := self.priv.proxy
  let self1 :=
    if proxy.signal.isSome && self.priv.inactivity_status_ind_id = 0 then
      let r := self.g_signal_connect MCE_INACTIVITY_SIG
      { r.2 with priv := { r.2.priv with inactivity_status_ind_id := r.1 } }
    else self
  if proxy.request.isSome && proxy.valid then
    ((mce_inactivity_ref (some self1)).getD self1).request_call "get_inactivity_status"
  else self1

/-- Embeds `mce_inactivity_valid_changed`, mce_inactivity.c lines 158-174;
`proxy` is the pointee of the first argument, the same object as
`priv->proxy`. -/
def mce_inactivity_valid_changed (proxy : MceProxy) (arg : MceInactivity) : MceInactivity :=
  let self := arg
  if proxy.valid then
    mce_inactivity_status_query self
  else if self.valid then
    { self with valid := false }.g_signal_emit mce_inactivity_signal.SIGNAL_VALID_CHANGED
  else self

/-- Embeds `mce_inactivity_init`, mce_inactivity.c lines 258-271; `proxy` is
the pointee of the result of `mce_proxy_new ()`. -/
def mce_inactivity_init (self : MceInactivity) (proxy : MceProxy) : MceInactivity :=
  let id := self.world.handler_seq + 1
  { self with
    status := 0,
    priv := { self.priv with proxy := proxy, proxy_valid_id := id },
    world := { trace := self.world.trace ++ [Effect.proxy_add_handler id],
               handler_seq := id } }

/-- The call `g_object_new (MCE_INACTIVITY_TYPE, NULL)`: a zero-filled instance
holding one reference, passed through `mce_inactivity_init`. -/
def MceInactivity.g_object_new (proxy : MceProxy) (world : World mce_inactivity_signal) :
    MceInactivity :=
  mce_inactivity_init
    { object := { ref_count := 1 },
      priv := { proxy := proxy, proxy_valid_id := 0, inactivity_status_ind_id := 0 },
      valid := false, status := 0, world := world }
    proxy

/-- Embeds `mce_inactivity_new`, mce_inactivity.c lines 180-194; the static
`mce_inactivity_instance` is passed in (`none` when NULL) and afterwards points
to the result. -/
def mce_inactivity_new (mce_inactivity_instance : Option MceInactivity) (proxy : MceProxy)
    (world : World mce_inactivity_signal) : MceInactivity :=
  match mce_inactivity_instance with
  | some inst => (mce_inactivity_ref (some inst)).getD inst
  | none => mce_inactivity_status_query (MceInactivity.g_object_new proxy world)

/-- The callbacks the event loop can dispatch to an inactivity instance. -/
inductive InactivityEvent where
  /-- Push notification `system_inactivity_ind`. -/
  | status_ind (status : Int)
  /-- Completion of a `get_inactivity_status` pull query. -/
  | status_query_done (result : Option Int)
  /-- The proxy changed to `proxy` and ran its valid-changed handlers. -/
  | valid_changed (proxy : MceProxy)
  deriving DecidableEq, Repr

/-- Dispatch of one callback. -/
def MceInactivity.step (self : MceInactivity) : InactivityEvent → MceInactivity
  | InactivityEvent.status_ind status => mce_inactivity_status_ind status self
  | InactivityEvent.status_query_done result => mce_inactivity_status_query_done self result
  | InactivityEvent.valid_changed proxy =>
    mce_inactivity_valid_changed proxy (self.set_proxy proxy)

/-- Dispatch of a sequence of callbacks, in order. -/
def MceInactivity.run (self : MceInactivity) (events : List InactivityEvent) :
    MceInactivity :=
  events.foldl MceInactivity.step self

/-- The macro `SIGNAL_VALID_CHANGED_NAME` of mce_inactivity.c. -/
def MceInactivity.SIGNAL_VALID_CHANGED_NAME : String := "mce-inactivity-valid-changed"
/-- The macro `SIGNAL_STATUS_CHANGED_NAME` of mce_inactivity.c. -/
def MceInactivity.SIGNAL_STATUS_CHANGED_NAME : String := "mce-inactivity-mode-changed"

/-- The type `MceInactivityFunc` of mce_inactivity.h, for a non-NULL pointer. -/
abbrev MceInactivityFunc : Type := GCallback

/-- The call `g_signal_connect (self, detailed_signal, G_CALLBACK (fn), arg)`
on the inactivity monitor itself. -/
def MceInactivity.g_signal_connect_self (self : MceInactivity) (detailed_signal : String)
    (fn : GCallback) (arg : Nat) : Nat × MceInactivity :=
  let id := self.world.handler_seq + 1
  (id, { self with
    world := { trace := self.world.trace ++ [Effect.handler_connect detailed_signal fn arg id],
               handler_seq := id } })

/-- The call `g_signal_handler_disconnect (self, id)` on the inactivity monitor
itself. -/
def MceInactivity.g_signal_handler_disconnect (self : MceInactivity) (id : Nat) :
    MceInactivity :=
  { self with world := self.world.log (Effect.handler_disconnect id) }

/-- Embeds `mce_inactivity_add_valid_changed_handler`, mce_inactivity.c lines
215-223. -/
def mce_inactivity_add_valid_changed_handler (self : Option MceInactivity)
    (fn : Option MceInactivityFunc) (arg : Nat) : Nat × Option MceInactivity :=
  match self, fn with
  | some s, some f =>
    let r := s.g_signal_connect_self MceInactivity.SIGNAL_VALID_CHANGED_NAME f arg
    (r.1, some r.2)
  | _, _ => (0, self)

/-- Embeds `mce_inactivity_add_status_changed_handler`, mce_inactivity.c lines
225-233. -/
def mce_inactivity_add_status_changed_handler (self : Option MceInactivity)
    (fn : Option MceInactivityFunc) (arg : Nat) : Nat × Option MceInactivity :=
  match self, fn with
  | some s, some f =>
    let r := s.g_signal_connect_self MceInactivity.SIGNAL_STATUS_CHANGED_NAME f arg
    (r.1, some r.2)
  | _, _ => (0, self)

/-- Embeds `mce_inactivity_remove_handler`, mce_inactivity.c lines 235-243;
returns the updated pointee. -/
def mce_inactivity_remove_handler (self : Option MceInactivity) (id : Nat) :
    Option MceInactivity :=
  match self with
  | some s => if id ≠ 0 then some (s.g_signal_handler_disconnect id) else some s
  | none => none

/-! ## The update functions, with what the handlers are handed -/

/-- An object together with the log of what the handlers connected to it were
handed: for every emission, in program order, the signal and the object as it
was when `g_signal_emit` was called (glib runs the handlers inside that call). -/
structure Observed (α σ : Type) where
  self : α
  seen : List (σ × α)

/-- The call `g_signal_emit (self, mce_battery_signals[sig], 0)`, recording
what the handlers are handed. -/
def MceBattery.g_signal_emit_observed (o : Observed MceBattery mce_battery_signal)
    (sig : mce_battery_signal) : Observed MceBattery mce_battery_signal :=
  { self := o.self.g_signal_emit sig, seen := o.seen ++ [(sig, o.self)] }

/-- Embeds `mce_battery_check_valid`, mce_battery.c lines 95-108, with the
handlers' view. -/
def mce_battery_check_valid_observed (o : Observed MceBattery mce_battery_signal) :
    Observed MceBattery mce_battery_signal :=
  let priv := o.self.priv
  let valid : Bool := priv.proxy.valid &&
    decide ((priv.flags &&& BATTERY_HAVE_ALL) = BATTERY_HAVE_ALL)
  if valid ≠ o.self.valid then
    MceBattery.g_signal_emit_observed { o with self := { o.self with valid := valid } }
      SIGNAL_VALID_CHANGED
  else o

/-- Embeds `mce_battery_level_update`, mce_battery.c lines 110-125, with the
handlers' view. -/
def mce_battery_level_update_observed (o : Observed MceBattery mce_battery_signal)
    (level : Int) : Observed MceBattery mce_battery_signal :=
  let new_level : Nat :=
    ((if level < 0 then 0 else if level > 100 then 100 else level) % 2 ^ 32).toNat
  let o1 :=
    if o.self.level ≠ new_level then
      MceBattery.g_signal_emit_observed { o with self := { o.self with level := new_level } }
        SIGNAL_LEVEL_CHANGED
    else o
  let o2 :=
    { o1 with
      self := { o1.self with
        priv := { o1.self.priv with flags := o1.self.priv.flags ||| BATTERY_HAVE_LEVEL } } }
  mce_battery_check_valid_observed o2

/-- Embeds `mce_battery_status_update`, mce_battery.c lines 127-154, with the
handlers' view. -/
def mce_battery_status_update_observed (o : Observed MceBattery mce_battery_signal)
    (status : Option String) : Observed MceBattery mce_battery_signal :=
  let decoded : MceBattery × MCE_BATTERY_STATUS :=
    if g_strcmp0 status (some MCE_BATTERY_STATUS_FULL) = 0 then
      (o.self, MCE_BATTERY_FULL)
    else if g_strcmp0 status (some MCE_BATTERY_STATUS_OK) = 0 then
      (o.self, MCE_BATTERY_OK)
    else if g_strcmp0 status (some MCE_BATTERY_STATUS_LOW) = 0 then
      (o.self, MCE_BATTERY_LOW)
    else if g_strcmp0 status (some MCE_BATTERY_STATUS_EMPTY) = 0 then
      (o.self, MCE_BATTERY_EMPTY)
    else
      (GASSERT o.self (g_strcmp0 status (some MCE_BATTERY_STATUS_UNKNOWN) = 0),
        MCE_BATTERY_UNKNOWN)
  let o0 := { o with self := decoded.1 }
  let new_status := decoded.2
  let o1 :=
    if o0.self.status ≠ new_status then
      MceBattery.g_signal_emit_observed { o0 with self := { o0.self with status := new_status } }
        SIGNAL_STATUS_CHANGED
    else o0
  let o2 :=
    { o1 with
      self := { o1.self with
        priv := { o1.self.priv with flags := o1.self.priv.flags ||| BATTERY_HAVE_STATUS } } }
  mce_battery_check_valid_observed o2

/-- The call `g_signal_emit (self, mce_charger_signals[sig], 0)`, recording
what the handlers are handed. -/
def MceCharger.g_signal_emit_observed (o : Observed MceCharger mce_charger_signal)
    (sig : mce_charger_signal) : Observed MceCharger mce_charger_signal :=
  { self := o.self.g_signal_emit sig, seen := o.seen ++ [(sig, o.self)] }

/-- Embeds `mce_charger_state_update`, mce_charger.c lines 78-103, with the
handlers' view. -/
def mce_charger_state_update_observed (o : Observed MceCharger mce_charger_signal)
    (value : Option String) : Observed MceCharger mce_charger_signal :=
  let decoded : MceCharger × MCE_CHARGER_STATE :=
    if g_strcmp0 value (some MCE_CHARGER_STATE_ON) = 0 then
      (o.self, MCE_CHARGER_STATE.MCE_CHARGER_ON)
    else if g_strcmp0 value (some MCE_CHARGER_STATE_OFF) = 0 then
      (o.self, MCE_CHARGER_STATE.MCE_CHARGER_OFF)
    else
      (o.self.GASSERT (g_strcmp0 value (some MCE_CHARGER_STATE_UNKNOWN) = 0),
        MCE_CHARGER_STATE.MCE_CHARGER_UNKNOWN)
  let o0 := { o with self := decoded.1 }
  let state := decoded.2
  let o1 :=
    if o0.self.state ≠ state then
      MceCharger.g_signal_emit_observed { o0 with self := { o0.self with state := state } }
        mce_charger_signal.SIGNAL_STATE_CHANGED
    else o0
  if o1.self.priv.proxy.valid && !o1.self.valid then
    MceCharger.g_signal_emit_observed { o1 with self := { o1.self with valid := true } }
      mce_charger_signal.SIGNAL_VALID_CHANGED
  else o1

/-- The call `g_signal_emit (self, mce_inactivity_signals[sig], 0)`, recording
what the handlers are handed. -/
def MceInactivity.g_signal_emit_observed
    (o : Observed MceInactivity mce_inactivity_signal) (sig : mce_inactivity_signal) :
    Observed MceInactivity mce_inactivity_signal :=
  { self := o.self.g_signal_emit sig, seen := o.seen ++ [(sig, o.self)] }

/-- Embeds `mce_inactivity_status_update`, mce_inactivity.c lines 77-93, with
the handlers' view. -/
def mce_inactivity_status_update_observed
    (o : Observed MceInactivity mce_inactivity_signal) (status : Int) :
    Observed MceInactivity mce_inactivity_signal :=
  let prev_status := o.self.status
  let o1 := { o with self := { o.self with status := status } }
  let o2 :=
    if o1.self.status ≠ prev_status then
      MceInactivity.g_signal_emit_observed o1 mce_inactivity_signal.SIGNAL_STATUS_CHANGED
    else o1
  if o2.self.priv.proxy.valid && !o2.self.valid then
    MceInactivity.g_signal_emit_observed { o2 with self := { o2.self with valid := true } }
      mce_inactivity_signal.SIGNAL_VALID_CHANGED
  else o2

/-! ## Vocabulary of the statements -/

/-- The level that `mce_battery_level_update` is said to cache: `level`
clamped to the range 0..100. -/
def clamp_level (level : Int) : Nat :=
  if level < 0 then 0 else if level > 100 then 100 else level.toNat

/-- The battery status a wire string stands for. -/
def battery_status_of_wire (status : Option String) : MCE_BATTERY_STATUS :=
  if status = some "full" then MCE_BATTERY_FULL
  else if status = some "ok" then MCE_BATTERY_OK
  else if status = some "low" then MCE_BATTERY_LOW
  else if status = some "empty" then MCE_BATTERY_EMPTY
  else MCE_BATTERY_UNKNOWN

/-- The wire string is one of the five values of `mce/mode-names.h`. -/
def battery_status_known (status : Option String) : Bool :=
  decide (status = some "full") || decide (status = some "ok") ||
    decide (status = some "low") || decide (status = some "empty") ||
    decide (status = some "unknown")

/-- The charger state a wire string stands for. -/
def charger_state_of_wire (value : Option String) : MCE_CHARGER_STATE :=
  if value = some "on" then MCE_CHARGER_STATE.MCE_CHARGER_ON
  else if value = some "off" then MCE_CHARGER_STATE.MCE_CHARGER_OFF
  else MCE_CHARGER_STATE.MCE_CHARGER_UNKNOWN

/-- The wire string is one of the three charger values of `mce/mode-names.h`. -/
def charger_state_known (value : Option String) : Bool :=
  decide (value = some "on") || decide (value = some "off") ||
    decide (value = some "unknown")

/-- The validity the battery derives from the connection and the populated
flags. -/
def MceBattery.derived_valid (self : MceBattery) : Bool :=
  self.priv.proxy.valid &&
    decide ((self.priv.flags &&& BATTERY_HAVE_ALL) = BATTERY_HAVE_ALL)

/-- The flag `flag` is set in the bit mask `flags`. -/
def flag_set (flags flag : Nat) : Bool :=
  decide (flags &&& flag ≠ 0)

/-- The battery level is populated: `BATTERY_HAVE_LEVEL` is set. -/
def MceBattery.have_level (self : MceBattery) : Bool :=
  flag_set self.priv.flags BATTERY_HAVE_LEVEL

/-- The battery status is populated: `BATTERY_HAVE_STATUS` is set. -/
def MceBattery.have_status (self : MceBattery) : Bool :=
  flag_set self.priv.flags BATTERY_HAVE_STATUS

/-- The event delivers a battery level (push, or successful pull). -/
def BatteryEvent.delivers_level : BatteryEvent → Bool
  | BatteryEvent.level_ind _ => true
  | BatteryEvent.level_query_done (some _) => true
  | _ => false

/-- The event delivers a battery status (push, or successful pull). -/
def BatteryEvent.delivers_status : BatteryEvent → Bool
  | BatteryEvent.status_ind _ => true
  | BatteryEvent.status_query_done (some _) => true
  | _ => false

/-- The event is not a connection loss: any delivery or pull completion, or a
readiness evaluation with the connection valid. -/
def BatteryEvent.keeps_connection : BatteryEvent → Bool
  | BatteryEvent.valid_changed proxy => proxy.valid
  | _ => true

/-- The event is a delivery or a pull completion, not a connection change. -/
def BatteryEvent.is_delivery : BatteryEvent → Bool
  | BatteryEvent.valid_changed _ => false
  | _ => true

/-- Number of pull queries, of any method, recorded in a log. -/
def trace_queries {σ : Type} (trace : List (Effect σ)) : Nat :=
  (trace.filter fun e =>
    match e with
    | Effect.request_call _ => true
    | _ => false).length

/-- Number of attachments of a push handler to the signal `name` recorded in a
log. -/
def trace_connects {σ : Type} (trace : List (Effect σ)) (name : String) : Nat :=
  (trace.filter fun e =>
    match e with
    | Effect.signal_connect n _ => n == name
    | _ => false).length

/-- The battery `after` differs from `before` by one released reference and
nothing else that can be observed: same cache, flags, proxy and validity, no
emission of any signal, no pull query. -/
def MceBattery.only_released (before after : MceBattery) : Prop :=
  after.valid = before.valid ∧ after.level = before.level ∧
    after.status = before.status ∧ after.priv.flags = before.priv.flags ∧
    after.priv.proxy = before.priv.proxy ∧
    after.object.ref_count = before.object.ref_count - 1 ∧
    (∀ sig, after.emissions sig = before.emissions sig) ∧
    trace_queries after.world.trace = trace_queries before.world.trace

/-- The charger `after` differs from `before` by one released reference and
nothing else that can be observed. -/
def MceCharger.only_released (before after : MceCharger) : Prop :=
  after.valid = before.valid ∧ after.state = before.state ∧
    after.priv.proxy = before.priv.proxy ∧
    after.object.ref_count = before.object.ref_count - 1 ∧
    (∀ sig, after.emissions sig = before.emissions sig) ∧
    trace_queries after.world.trace = trace_queries before.world.trace

/-- The inactivity monitor `after` differs from `before` by one released
reference and nothing else that can be observed. -/
def MceInactivity.only_released (before after : MceInactivity) : Prop :=
  after.valid = before.valid ∧ after.status = before.status ∧
    after.priv.proxy = before.priv.proxy ∧
    after.object.ref_count = before.object.ref_count - 1 ∧
    (∀ sig, after.emissions sig = before.emissions sig) ∧
    trace_queries after.world.trace = trace_queries before.world.trace

/-- The event is the completion of a pull query. -/
def BatteryEvent.is_completion : BatteryEvent → Bool
  | BatteryEvent.level_query_done _ => true
  | BatteryEvent.status_query_done _ => true
  | _ => false

/-- The event is the completion of a pull query. -/
def ChargerEvent.is_completion : ChargerEvent → Bool
  | ChargerEvent.state_query_done _ => true
  | _ => false

/-- The event is the completion of a pull query. -/
def InactivityEvent.is_completion : InactivityEvent → Bool
  | InactivityEvent.status_query_done _ => true
  | _ => false

/-! ## Lifetime of the shared instance -/

/-- One kind of monitor, as the lifetime model sees it: the instance type `α`
with its reference count and effect log, the callbacks `ε`, and the embedded
functions that touch the reference count. -/
structure Kind (α ε σ : Type) where
  /-- The field `object.ref_count`. -/
  ref_count : α → Nat
  /-- The effect log of the instance. -/
  trace : α → List (Effect σ)
  /-- The event loop runs one callback. -/
  dispatch : α → ε → α
  /-- The callback is the completion of a pull query. -/
  completes : ε → Bool
  /-- The constructor `mce_<kind>_new ()` with the static slot NULL. -/
  create : MceProxy → World σ → α
  /-- The constructor `mce_<kind>_new ()` with the static slot occupied. -/
  acquire : α → α
  /-- The function `mce_<kind>_ref`. -/
  ref : α → α
  /-- The function `mce_<kind>_unref`. -/
  unref : α → α

/-- The battery monitor. -/
def battery_kind : Kind MceBattery BatteryEvent mce_battery_signal where
  ref_count := fun s => s.object.ref_count
  trace := fun s => s.world.trace
  dispatch := MceBattery.step
  completes := BatteryEvent.is_completion
  create := fun proxy world => mce_battery_new none proxy world
  acquire := fun s => mce_battery_new (some s) s.priv.proxy s.world
  ref := fun s => (mce_battery_ref (some s)).getD s
  unref := fun s => (mce_battery_unref (some s)).getD s

/-- The charger monitor. -/
def charger_kind : Kind MceCharger ChargerEvent mce_charger_signal where
  ref_count := fun s => s.object.ref_count
  trace := fun s => s.world.trace
  dispatch := MceCharger.step
  completes := ChargerEvent.is_completion
  create := fun proxy world => mce_charger_new none proxy world
  acquire := fun s => mce_charger_new (some s) s.priv.proxy s.world
  ref := fun s => (mce_charger_ref (some s)).getD s
  unref := fun s => (mce_charger_unref (some s)).getD s

/-- The inactivity monitor. -/
def inactivity_kind : Kind MceInactivity InactivityEvent mce_inactivity_signal where
  ref_count := fun s => s.object.ref_count
  trace := fun s => s.world.trace
  dispatch := MceInactivity.step
  completes := InactivityEvent.is_completion
  create := fun proxy world => mce_inactivity_new none proxy world
  acquire := fun s => mce_inactivity_new (some s) s.priv.proxy s.world
  ref := fun s => (mce_inactivity_ref (some s)).getD s
  unref := fun s => (mce_inactivity_unref (some s)).getD s

/-- The static slot `mce_<kind>_instance` together with its pointee, and the
bookkeeping of who owns references: `holders` counts the references owned by
application code, `in_flight` the pull queries submitted and not yet completed,
`created` and `freed` the instances constructed and finalized so far. -/
structure Registry (α : Type) where
  slot : Option α
  holders : Nat
  in_flight : Nat
  created : Nat
  freed : Nat
  deriving DecidableEq, Repr

/-- The registry at program start. -/
def Registry.empty {α : Type} : Registry α :=
  { slot := none, holders := 0, in_flight := 0, created := 0, freed := 0 }

/-- What can happen to the shared instance. -/
inductive RegistryAction (ε σ : Type) where
  /-- Application code calls `mce_<kind>_new ()`; `world` is the ghost state
  given to an instance that has to be constructed. -/
  | new (proxy : MceProxy) (world : World σ)
  /-- A holder calls `mce_<kind>_ref`. -/
  | ref
  /-- A holder calls `mce_<kind>_unref` on a reference it owns. -/
  | unref
  /-- The event loop runs a callback of the instance. -/
  | dispatch (e : ε)

/-- The instance has been updated to `inst`: the weak pointer registered by
`g_object_add_weak_pointer` clears the slot when the instance was finalized. -/
def Registry.settle {α ε σ : Type} (k : Kind α ε σ) (r : Registry α) (inst : α)
    (holders in_flight : Nat) : Registry α :=
  if k.ref_count inst = 0 then
    { slot := none, holders := holders, in_flight := in_flight,
      created := r.created, freed := r.freed + 1 }
  else
    { slot := some inst, holders := holders, in_flight := in_flight,
      created := r.created, freed := r.freed }

/-- One action on the registry.  An action that cannot happen is skipped: a
callback or a `ref`/`unref` without an instance, a `ref`/`unref` by a holder
that owns no reference, the completion of a query that was never submitted. -/
def Registry.step {α ε σ : Type} (k : Kind α ε σ) (r : Registry α) :
    RegistryAction ε σ → Registry α
  | RegistryAction.new proxy world =>
    match r.slot with
    | some inst => r.settle k (k.acquire inst) (r.holders + 1) r.in_flight
    | none =>
      { slot := some (k.create proxy world),
        holders := r.holders + 1,
        in_flight := r.in_flight +
          (trace_queries (k.trace (k.create proxy world)) - trace_queries world.trace),
        created := r.created + 1,
        freed := r.freed }
  | RegistryAction.ref =>
    match r.slot with
    | some inst =>
      if r.holders = 0 then r else r.settle k (k.ref inst) (r.holders + 1) r.in_flight
    | none => r
  | RegistryAction.unref =>
    match r.slot with
    | some inst =>
      if r.holders = 0 then r else r.settle k (k.unref inst) (r.holders - 1) r.in_flight
    | none => r
  | RegistryAction.dispatch e =>
    match r.slot with
    | some inst =>
      if k.completes e && decide (r.in_flight = 0) then r
      else
        r.settle k (k.dispatch inst e) r.holders
          (r.in_flight - (if k.completes e then 1 else 0) +
            (trace_queries (k.trace (k.dispatch inst e)) - trace_queries (k.trace inst)))
    | none => r

/-- A sequence of actions from a registry, in order. -/
def Registry.run {α ε σ : Type} (k : Kind α ε σ) (r : Registry α)
    (actions : List (RegistryAction ε σ)) : Registry α :=
  actions.foldl (Registry.step k) r

/-- The reference count of the instance is the number of references owned by
holders plus the number of queries in flight; without an instance there is
neither. -/
def Registry.balanced {α ε σ : Type} (k : Kind α ε σ) (r : Registry α) : Prop :=
  match r.slot with
  | some inst => k.ref_count inst = r.holders + r.in_flight ∧ 0 < k.ref_count inst
  | none => r.holders = 0 ∧ r.in_flight = 0

/-- The number of instances constructed and not yet finalized. -/
def Registry.live {α : Type} (r : Registry α) : Nat :=
  r.created - r.freed

/-- The reference-count behaviour of a kind on which the bookkeeping of the
registry rests: construction holds one reference plus one per query it
submits, `new` on the occupied slot and `ref` add one, `unref` drops one, a
callback other than a completion adds one per query it submits, a completion
drops one and submits nothing. -/
structure Kind.Lawful {α ε σ : Type} (k : Kind α ε σ) : Prop where
  create_ref : ∀ proxy world, k.ref_count (k.create proxy world) =
    1 + (trace_queries (k.trace (k.create proxy world)) - trace_queries world.trace)
  acquire_ref : ∀ s, k.ref_count (k.acquire s) = k.ref_count s + 1
  ref_ref : ∀ s, k.ref_count (k.ref s) = k.ref_count s + 1
  unref_ref : ∀ s, k.ref_count (k.unref s) = k.ref_count s - 1
  dispatch_ref : ∀ s e, k.completes e = false →
    k.ref_count (k.dispatch s e) =
      k.ref_count s + (trace_queries (k.trace (k.dispatch s e)) - trace_queries (k.trace s))
  complete_ref : ∀ s e, k.completes e = true →
    k.ref_count (k.dispatch s e) = k.ref_count s - 1 ∧
      trace_queries (k.trace (k.dispatch s e)) = trace_queries (k.trace s)

/-- The invariant of the registry: the reference count is balanced, and
an instance is live exactly when the slot is occupied. -/
def Registry.invariant {α ε σ : Type} (k : Kind α ε σ) (r : Registry α) : Prop :=
  r.balanced k ∧ r.created = r.freed + (if r.slot.isSome then 1 else 0)

/-- Dispatch of a sequence of callbacks over the lifetime of the instance: once
the instance has been finalized it receives no callback. -/
def MceBattery.run_live (self : MceBattery) (events : List BatteryEvent) : MceBattery :=
  events.foldl (fun s e => if s.object.ref_count = 0 then s else s.step e) self

/-- Dispatch of a sequence of callbacks over the lifetime of the instance: once
the instance has been finalized it receives no callback. -/
def MceCharger.run_live (self : MceCharger) (events : List ChargerEvent) : MceCharger :=
  events.foldl (fun s e => if s.object.ref_count = 0 then s else s.step e) self

/-- Dispatch of a sequence of callbacks over the lifetime of the instance: once
the instance has been finalized it receives no callback. -/
def MceInactivity.run_live (self : MceInactivity) (events : List InactivityEvent) :
    MceInactivity :=
  events.foldl (fun s e => if s.object.ref_count = 0 then s else s.step e) self

/-- The attachments of the level handler made so far, plus one if the handler
of a live instance is still to be attached. -/
def MceBattery.level_attach_bound (self : MceBattery) : Nat :=
  trace_connects self.world.trace "battery-level-ind" +
    (if self.priv.battery_ind_id_LEVEL = 0 ∧ 0 < self.object.ref_count then 1 else 0)

/-- The attachments of the status handler made so far, plus one if the handler
of a live instance is still to be attached. -/
def MceBattery.status_attach_bound (self : MceBattery) : Nat :=
  trace_connects self.world.trace "battery-status-ind" +
    (if self.priv.battery_ind_id_STATUS = 0 ∧ 0 < self.object.ref_count then 1 else 0)

/-- The attachments of the charger handler made so far, plus one if the
handler of a live instance is still to be attached. -/
def MceCharger.attach_bound (self : MceCharger) : Nat :=
  trace_connects self.world.trace MCE_CHARGER_STATE_SIG +
    (if self.priv.charger_state_ind_id = 0 ∧ 0 < self.object.ref_count then 1 else 0)

/-- The attachments of the inactivity handler made so far, plus one if the
handler of a live instance is still to be attached. -/
def MceInactivity.attach_bound (self : MceInactivity) : Nat :=
  trace_connects self.world.trace MCE_INACTIVITY_SIG +
    (if self.priv.inactivity_status_ind_id = 0 ∧ 0 < self.object.ref_count then 1 else 0)

/-! ## The specification of validity for a single-property monitor -/

/-- What a callback means to the synchronization engine of the specification:
a value was delivered (push, or successful pull), a pull failed, or the
connection changed to `connected`. -/
inductive SyncEvent where
  | delivered
  | failed
  | connection (connected : Bool)
  deriving DecidableEq, Repr

/-- The meaning of a charger callback. -/
def ChargerEvent.sync : ChargerEvent → SyncEvent
  | ChargerEvent.state_ind _ => SyncEvent.delivered
  | ChargerEvent.state_query_done (some _) => SyncEvent.delivered
  | ChargerEvent.state_query_done none => SyncEvent.failed
  | ChargerEvent.valid_changed proxy => SyncEvent.connection proxy.valid

/-- The meaning of an inactivity callback. -/
def InactivityEvent.sync : InactivityEvent → SyncEvent
  | InactivityEvent.status_ind _ => SyncEvent.delivered
  | InactivityEvent.status_query_done (some _) => SyncEvent.delivered
  | InactivityEvent.status_query_done none => SyncEvent.failed
  | InactivityEvent.valid_changed proxy => SyncEvent.connection proxy.valid

/-- The state of the specification for a monitor with one property: the
connection state and the `populated` flag of the property. -/
structure SpecSync where
  connected : Bool
  populated : Bool
  deriving DecidableEq, Repr

/-- The validity flag of the specification: connected and populated. -/
def SpecSync.valid (s : SpecSync) : Bool :=
  s.connected && s.populated

/-- The specification as worded: `populated` becomes true at any delivery and
is cleared only when the connection becomes unusable. -/
def SpecSync.step (s : SpecSync) : SyncEvent → SpecSync
  | SyncEvent.delivered => { s with populated := true }
  | SyncEvent.failed => s
  | SyncEvent.connection connected =>
    { connected := connected, populated := connected && s.populated }

/-- The specification as worded, over a sequence of callbacks. -/
def SpecSync.run (s : SpecSync) (events : List SyncEvent) : SpecSync :=
  events.foldl SpecSync.step s

/-- The specification with one word changed: `populated` becomes true at a
delivery that arrives while the connection is valid, and is cleared when the
connection becomes unusable. -/
def SpecSync.step_while_connected (s : SpecSync) : SyncEvent → SpecSync
  | SyncEvent.delivered => { s with populated := s.populated || s.connected }
  | SyncEvent.failed => s
  | SyncEvent.connection connected =>
    { connected := connected, populated := connected && s.populated }

/-- The changed specification, over a sequence of callbacks. -/
def SpecSync.run_while_connected (s : SpecSync) (events : List SyncEvent) : SpecSync :=
  events.foldl SpecSync.step_while_connected s

/-- Every value of the sequence is delivered while the connection is valid;
`connected` is the connection state at the start. -/
def deliveries_while_connected : Bool → List SyncEvent → Bool
  | _, [] => true
  | connected, SyncEvent.delivered :: rest =>
    connected && deliveries_while_connected connected rest
  | connected, SyncEvent.failed :: rest => deliveries_while_connected connected rest
  | _, SyncEvent.connection connected :: rest => deliveries_while_connected connected rest

/-! ## Vocabulary: histories, truth values and readable fields -/

/-- A value was delivered after the connection last became unusable (at all,
when it never did); `events` is the history, oldest callback first. -/
def delivered_since_loss (events : List SyncEvent) : Bool :=
  events.foldl
    (fun got e =>
      match e with
      | SyncEvent.delivered => true
      | SyncEvent.failed => got
      | SyncEvent.connection connected => connected && got)
    false

/-- The truth value of a `gboolean`: every non-zero `gint` is true. -/
def gboolean_truth (value : Int) : Bool :=
  decide (value ≠ 0)

/-- The publicly readable fields of a battery: `valid`, `level`, `status`. -/
def MceBattery.readable (self : MceBattery) : Bool × Nat × MCE_BATTERY_STATUS :=
  (self.valid, self.level, self.status)

/-- The publicly readable fields of a charger: `valid`, `state`. -/
def MceCharger.readable (self : MceCharger) : Bool × MCE_CHARGER_STATE :=
  (self.valid, self.state)

/-- The publicly readable fields of an inactivity monitor: `valid`, `status`. -/
def MceInactivity.readable (self : MceInactivity) : Bool × Int :=
  (self.valid, self.status)

/-- The notifications of a log in order, each with the readable fields its
handlers find. -/
def Observed.views {α σ β : Type} (o : Observed α σ) (readable : α → β) : List (σ × β) :=
  o.seen.map fun p => (p.1, readable p.2)

/-- The `gboolean` that glib stores for a truth value: the macros `TRUE` (1)
and `FALSE` (0). -/
def gboolean_of (b : Bool) : Int :=
  if b then 1 else 0

/-! ## Sample states -/

/-- A freshly constructed battery whose connection is valid, whatever sources
the proxy has and whatever happened in the world before. -/
def battery_fresh_connected (signal : Option ComNokiaMceSignal)
    (request : Option ComNokiaMceRequest) (world : World mce_battery_signal) : MceBattery :=
  mce_battery_new none { valid := true, signal := signal, request := request } world

/-- A proxy that is connected, with both sources available. -/
def proxy_up : MceProxy :=
  { valid := true, signal := some {}, request := some {} }

/-- A proxy that lost the connection; the sources are still there. -/
def proxy_down : MceProxy :=
  { valid := false, signal := some {}, request := some {} }

/-- A connected battery with level 50 and status ok, both populated, held by
one reference, with its two push handlers attached. -/
def battery_populated : MceBattery :=
  { object := { ref_count := 1 },
    priv := { proxy := proxy_up, flags := 3, proxy_valid_id := 1,
              battery_ind_id_LEVEL := 2, battery_ind_id_STATUS := 3 },
    valid := true, level := 50, status := MCE_BATTERY_OK,
    world := { trace := [], handler_seq := 3 } }

/-- A connected charger in its initial state, held by one reference. -/
def charger_initial : MceCharger :=
  { object := { ref_count := 1 },
    priv := { proxy := proxy_up, proxy_valid_id := 1, charger_state_ind_id := 2 },
    valid := false, state := MCE_CHARGER_STATE.MCE_CHARGER_UNKNOWN,
    world := { trace := [], handler_seq := 2 } }

/-- A connected inactivity monitor in its initial state, held by one
reference. -/
def inactivity_initial : MceInactivity :=
  { object := { ref_count := 1 },
    priv := { proxy := proxy_up, proxy_valid_id := 1, inactivity_status_ind_id := 2 },
    valid := false, status := 0,
    world := { trace := [], handler_seq := 2 } }

/-! ## Auxiliary lemmas -/

theorem strcmp_eq_zero_iff (a : List Char) : ∀ b : List Char, strcmp a b = 0 ↔ a = b := by
  induction a with
  | nil =>
    intro b
    cases b <;> simp [strcmp]
  | cons x xs ih =>
    intro b
    cases b with
    | nil => simp [strcmp]
    | cons y ys =>
      by_cases h : x = y
      · simp [strcmp, h, ih ys]
      · simp only [strcmp, h, if_false, List.cons.injEq, false_and, iff_false]
        split_ifs <;> decide

theorem g_strcmp0_eq_zero_iff (a : Option String) (b : String) :
    g_strcmp0 a (some b) = 0 ↔ a = some b := by
  cases a with
  | none => simp [g_strcmp0]
  | some x =>
    simp only [g_strcmp0, strcmp_eq_zero_iff, Option.some.injEq]
    exact String.ext_iff.symm

theorem new_level_eq (level : Int) :
    ((if level < 0 then (0 : Int) else if level > 100 then 100 else level) % 2 ^ 32).toNat
      = clamp_level level := by
  unfold clamp_level
  split_ifs <;> omega

theorem check_valid_eq (s : MceBattery) :
    mce_battery_check_valid s =
      if s.derived_valid = s.valid then s
      else { s with
        valid := s.derived_valid,
        world := { s.world with
          trace := s.world.trace ++ [Effect.emit SIGNAL_VALID_CHANGED] } } := by
  by_cases h : s.derived_valid = s.valid
  · simp only [MceBattery.derived_valid] at h
    simp [mce_battery_check_valid, MceBattery.derived_valid, h]
  · simp only [MceBattery.derived_valid] at h
    simp [mce_battery_check_valid, MceBattery.derived_valid, MceBattery.g_signal_emit,
      World.log, h]

theorem level_update_eq (s : MceBattery) (level : Int) :
    mce_battery_level_update s level =
      mce_battery_check_valid
        { (if s.level = clamp_level level then s
            else { s with
              level := clamp_level level,
              world := { s.world with
                trace := s.world.trace ++ [Effect.emit SIGNAL_LEVEL_CHANGED] } }) with
          priv := { s.priv with flags := s.priv.flags ||| BATTERY_HAVE_LEVEL } } := by
  unfold mce_battery_level_update
  simp only [new_level_eq]
  by_cases h : s.level = clamp_level level
  · simp [h]
  · simp [h, MceBattery.g_signal_emit, World.log]

theorem status_decode_eq (s : MceBattery) (status : Option String) :
    (if g_strcmp0 status (some MCE_BATTERY_STATUS_FULL) = 0 then
      (s, MCE_BATTERY_FULL)
    else if g_strcmp0 status (some MCE_BATTERY_STATUS_OK) = 0 then
      (s, MCE_BATTERY_OK)
    else if g_strcmp0 status (some MCE_BATTERY_STATUS_LOW) = 0 then
      (s, MCE_BATTERY_LOW)
    else if g_strcmp0 status (some MCE_BATTERY_STATUS_EMPTY) = 0 then
      (s, MCE_BATTERY_EMPTY)
    else
      (GASSERT s (g_strcmp0 status (some MCE_BATTERY_STATUS_UNKNOWN) = 0),
        MCE_BATTERY_UNKNOWN)) =
    (if battery_status_known status then s
      else { s with world := { s.world with trace := s.world.trace ++ [Effect.gassert_failed] } },
     battery_status_of_wire status) := by
  simp only [g_strcmp0_eq_zero_iff, battery_status_of_wire, battery_status_known,
    MCE_BATTERY_STATUS_FULL, MCE_BATTERY_STATUS_OK, MCE_BATTERY_STATUS_LOW,
    MCE_BATTERY_STATUS_EMPTY, MCE_BATTERY_STATUS_UNKNOWN, GASSERT, World.log]
  split_ifs <;> simp_all

theorem status_update_eq (s : MceBattery) (status : Option String) :
    mce_battery_status_update s status =
      mce_battery_check_valid
        { (if s.status = battery_status_of_wire status then
            { s with world := { s.world with
                trace := s.world.trace ++
                  (if battery_status_known status then [] else [Effect.gassert_failed]) } }
            else { s with
              status := battery_status_of_wire status,
              world := { s.world with
                trace := s.world.trace ++
                  (if battery_status_known status then [] else [Effect.gassert_failed]) ++
                  [Effect.emit SIGNAL_STATUS_CHANGED] } }) with
          priv := { s.priv with flags := s.priv.flags ||| BATTERY_HAVE_STATUS } } := by
  unfold mce_battery_status_update
  simp only [status_decode_eq]
  by_cases h : s.status = battery_status_of_wire status <;>
    by_cases k : battery_status_known status = true <;>
    simp [h, k, MceBattery.g_signal_emit, World.log]

theorem emissions_def (s : MceBattery) (sig : mce_battery_signal) :
    s.emissions sig = s.world.trace.count (Effect.emit sig) := rfl

/-- Closed form of `mce_battery_check_valid`. -/
theorem check_valid_nf (s : MceBattery) :
    mce_battery_check_valid s =
      { s with
        valid := s.derived_valid,
        world := { s.world with
          trace := s.world.trace ++
            (if s.derived_valid = s.valid then [] else [Effect.emit SIGNAL_VALID_CHANGED]) } } := by
  rw [check_valid_eq]
  by_cases h : s.derived_valid = s.valid
  · simp [h]
  · simp [h]

/-- Closed form of `mce_battery_level_update`. -/
theorem level_update_nf (s : MceBattery) (level : Int) :
    mce_battery_level_update s level =
      { s with
        priv := { s.priv with flags := s.priv.flags ||| BATTERY_HAVE_LEVEL },
        level := clamp_level level,
        valid := s.priv.proxy.valid &&
          decide (((s.priv.flags ||| BATTERY_HAVE_LEVEL) &&& BATTERY_HAVE_ALL) = BATTERY_HAVE_ALL),
        world := { s.world with
          trace := s.world.trace ++
            (if s.level = clamp_level level then [] else [Effect.emit SIGNAL_LEVEL_CHANGED]) ++
            (if (s.priv.proxy.valid &&
                decide (((s.priv.flags ||| BATTERY_HAVE_LEVEL) &&& BATTERY_HAVE_ALL) =
                  BATTERY_HAVE_ALL)) = s.valid
              then [] else [Effect.emit SIGNAL_VALID_CHANGED]) } } := by
  rw [level_update_eq, check_valid_nf]
  by_cases h : s.level = clamp_level level
  · simp [h, MceBattery.derived_valid]
  · simp [h, MceBattery.derived_valid]

/-- Closed form of `mce_battery_status_update`. -/
theorem status_update_nf (s : MceBattery) (status : Option String) :
    mce_battery_status_update s status =
      { s with
        priv := { s.priv with flags := s.priv.flags ||| BATTERY_HAVE_STATUS },
        status := battery_status_of_wire status,
        valid := s.priv.proxy.valid &&
          decide (((s.priv.flags ||| BATTERY_HAVE_STATUS) &&& BATTERY_HAVE_ALL) = BATTERY_HAVE_ALL),
        world := { s.world with
          trace := s.world.trace ++
            (if battery_status_known status then [] else [Effect.gassert_failed]) ++
            (if s.status = battery_status_of_wire status then []
              else [Effect.emit SIGNAL_STATUS_CHANGED]) ++
            (if (s.priv.proxy.valid &&
                decide (((s.priv.flags ||| BATTERY_HAVE_STATUS) &&& BATTERY_HAVE_ALL) =
                  BATTERY_HAVE_ALL)) = s.valid
              then [] else [Effect.emit SIGNAL_VALID_CHANGED]) } } := by
  rw [status_update_eq, check_valid_nf]
  by_cases h : s.status = battery_status_of_wire status
  · simp [h, MceBattery.derived_valid]
  · simp [h, MceBattery.derived_valid]

/-- Closed form of `mce_battery_query`. -/
theorem query_nf (s : MceBattery) :
    mce_battery_query s =
      { s with
        object := { ref_count := s.object.ref_count +
          (if s.priv.proxy.request.isSome && s.priv.proxy.valid then 2 else 0) },
        priv := { s.priv with
          battery_ind_id_LEVEL :=
            if s.priv.proxy.signal.isSome && decide (s.priv.battery_ind_id_LEVEL = 0)
              then s.world.handler_seq + 1 else s.priv.battery_ind_id_LEVEL,
          battery_ind_id_STATUS :=
            if s.priv.proxy.signal.isSome && decide (s.priv.battery_ind_id_STATUS = 0)
              then s.world.handler_seq +
                (if s.priv.battery_ind_id_LEVEL = 0 then 2 else 1)
              else s.priv.battery_ind_id_STATUS },
        world := {
          trace := s.world.trace ++
            (if s.priv.proxy.signal.isSome && decide (s.priv.battery_ind_id_LEVEL = 0)
              then [Effect.signal_connect "battery-level-ind" (s.world.handler_seq + 1)]
              else []) ++
            (if s.priv.proxy.signal.isSome && decide (s.priv.battery_ind_id_STATUS = 0)
              then [Effect.signal_connect "battery-status-ind"
                (s.world.handler_seq + (if s.priv.battery_ind_id_LEVEL = 0 then 2 else 1))]
              else []) ++
            (if s.priv.proxy.request.isSome && s.priv.proxy.valid
              then [Effect.request_call "get_battery_level",
                    Effect.request_call "get_battery_status"]
              else []),
          handler_seq := s.world.handler_seq +
            (if s.priv.proxy.signal.isSome && decide (s.priv.battery_ind_id_LEVEL = 0)
              then 1 else 0) +
            (if s.priv.proxy.signal.isSome && decide (s.priv.battery_ind_id_STATUS = 0)
              then 1 else 0) } } := by
  obtain ⟨⟨rc⟩, ⟨proxy, flags, pvid, idl, ids⟩, valid, level, status, ⟨trace, seq⟩⟩ := s
  unfold mce_battery_query
  by_cases h1 : proxy.signal.isSome = true <;>
    by_cases h2 : idl = 0 <;>
    by_cases h3 : ids = 0 <;>
    by_cases h4 : (proxy.request.isSome && proxy.valid) = true <;>
    simp [h1, h2, h3, h4, mce_battery_ref, MceBattery.g_object_ref, MceBattery.request_call,
      MceBattery.g_signal_connect, World.log]

theorem flag_bits (f : Nat) :
    (f &&& 1 = 0 ∨ f &&& 1 = 1) ∧ (f &&& 2 = 0 ∨ f &&& 2 = 2) := by
  constructor
  · have h : f &&& 1 ≤ 1 := Nat.and_le_right
    omega
  · have h : f &&& 2 ≤ 2 := Nat.and_le_right
    have h0 : (f &&& 2) &&& 1 = 0 := by
      rw [Nat.and_assoc]
      have : (2 &&& 1 : Nat) = 0 := by decide
      rw [this, Nat.and_zero]
    have h1 : f &&& 2 ≠ 1 := by
      intro k
      rw [k] at h0
      exact absurd h0 (by decide)
    omega

theorem and_three (f : Nat) : f &&& 3 = (f &&& 1) ||| (f &&& 2) := by
  have h : (3 : Nat) = 1 ||| 2 := by decide
  rw [h, Nat.and_or_distrib_left]

theorem or_and_three (f g : Nat) : (f ||| g) &&& 3 = (f &&& 3) ||| (g &&& 3) := by
  rw [Nat.and_comm, Nat.and_or_distrib_left, Nat.and_comm 3 f, Nat.and_comm 3 g]

theorem have_all_val : BATTERY_HAVE_ALL = 3 := by decide

theorem have_level_val : BATTERY_HAVE_LEVEL = 1 := rfl

theorem have_status_val : BATTERY_HAVE_STATUS = 2 := rfl

/-- All flags are set exactly when each flag is set. -/
theorem have_all_iff (f : Nat) :
    f &&& BATTERY_HAVE_ALL = BATTERY_HAVE_ALL ↔
      f &&& BATTERY_HAVE_LEVEL ≠ 0 ∧ f &&& BATTERY_HAVE_STATUS ≠ 0 := by
  rw [have_all_val, have_level_val, have_status_val, and_three]
  obtain ⟨h1 | h1, h2 | h2⟩ := flag_bits f <;> rw [h1, h2] <;> decide

/-- With the level flag added, all flags are set exactly when the status flag
was set. -/
theorem or_level_have_all_iff (f : Nat) :
    (f ||| BATTERY_HAVE_LEVEL) &&& BATTERY_HAVE_ALL = BATTERY_HAVE_ALL ↔
      f &&& BATTERY_HAVE_STATUS ≠ 0 := by
  rw [have_all_val, have_level_val, have_status_val, or_and_three, and_three]
  obtain ⟨h1 | h1, h2 | h2⟩ := flag_bits f <;> rw [h1, h2] <;> decide

/-- With the status flag added, all flags are set exactly when the level flag
was set. -/
theorem or_status_have_all_iff (f : Nat) :
    (f ||| BATTERY_HAVE_STATUS) &&& BATTERY_HAVE_ALL = BATTERY_HAVE_ALL ↔
      f &&& BATTERY_HAVE_LEVEL ≠ 0 := by
  rw [have_all_val, have_level_val, have_status_val, or_and_three, and_three]
  obtain ⟨h1 | h1, h2 | h2⟩ := flag_bits f <;> rw [h1, h2] <;> decide

/-- Setting a flag keeps a complete set of flags complete. -/
theorem or_have_all (f g : Nat) (h : f &&& BATTERY_HAVE_ALL = BATTERY_HAVE_ALL) :
    (f ||| g) &&& BATTERY_HAVE_ALL = BATTERY_HAVE_ALL := by
  rw [have_all_val] at h ⊢
  rw [or_and_three, h]
  have k : g &&& 3 ≤ 3 := Nat.and_le_right
  interval_cases (g &&& 3) <;> decide

/-- Closed form of `g_object_unref` on a battery. -/
theorem unref_nf (s : MceBattery) :
    s.g_object_unref =
      if s.object.ref_count > 1 then
        { s with object := { ref_count := s.object.ref_count - 1 } }
      else
        { s with
          object := { ref_count := 0 },
          priv := { s.priv with
            battery_ind_id_LEVEL :=
              if s.priv.proxy.signal.isSome then 0 else s.priv.battery_ind_id_LEVEL,
            battery_ind_id_STATUS :=
              if s.priv.proxy.signal.isSome then 0 else s.priv.battery_ind_id_STATUS },
          world := { s.world with
            trace := s.world.trace ++
              (if s.priv.proxy.signal.isSome && decide (s.priv.battery_ind_id_LEVEL ≠ 0)
                then [Effect.signal_handler_disconnect s.priv.battery_ind_id_LEVEL] else []) ++
              (if s.priv.proxy.signal.isSome && decide (s.priv.battery_ind_id_STATUS ≠ 0)
                then [Effect.signal_handler_disconnect s.priv.battery_ind_id_STATUS] else []) ++
              [Effect.proxy_remove_handler s.priv.proxy_valid_id, Effect.proxy_unref] } } := by
  obtain ⟨⟨rc⟩, ⟨proxy, flags, pvid, idl, ids⟩, valid, level, status, ⟨trace, seq⟩⟩ := s
  unfold MceBattery.g_object_unref mce_battery_finalize MceBattery.gutil_disconnect_handlers
  by_cases h0 : rc > 1 <;>
    by_cases h1 : proxy.signal.isSome = true <;>
    by_cases h2 : idl = 0 <;>
    by_cases h3 : ids = 0 <;>
    simp [h0, h1, h2, h3, World.log]

/-- Dropping a reference, even the last one, leaves the cache, the flags and
the proxy untouched. -/
theorem unref_fields (s : MceBattery) :
    s.g_object_unref.valid = s.valid ∧ s.g_object_unref.level = s.level ∧
      s.g_object_unref.status = s.status ∧
      s.g_object_unref.priv.flags = s.priv.flags ∧
      s.g_object_unref.priv.proxy = s.priv.proxy := by
  rw [unref_nf]
  split_ifs <;> simp

/-- Dropping a reference emits no signal. -/
theorem unref_emissions (s : MceBattery) (sig : mce_battery_signal) :
    s.g_object_unref.emissions sig = s.emissions sig := by
  rw [unref_nf]
  simp only [emissions_def]
  split_ifs <;> simp [List.count_append, List.count_cons]

/-- Dropping a reference issues no pull query. -/
theorem unref_queries (s : MceBattery) (method : String) :
    s.g_object_unref.queries method = s.queries method := by
  rw [unref_nf]
  simp only [MceBattery.queries]
  split_ifs <;> simp [List.count_append, List.count_cons]

/-- Dropping a reference fails no assertion. -/
theorem unref_assert_failures (s : MceBattery) :
    s.g_object_unref.assert_failures = s.assert_failures := by
  rw [unref_nf]
  simp only [MceBattery.assert_failures]
  split_ifs <;> simp [List.count_append, List.count_cons]

theorem level_query_done_eq (s : MceBattery) (result : Option Int) :
    mce_battery_level_query_done s result =
      (match result with
        | some level => mce_battery_level_update s level
        | none => s).g_object_unref := by
  cases result <;> rfl

theorem status_query_done_eq (s : MceBattery) (result : Option String) :
    mce_battery_status_query_done s result =
      (match result with
        | some status => mce_battery_status_update s (some status)
        | none => s).g_object_unref := by
  cases result <;> rfl

theorem or_and_mask (f g m : Nat) : (f ||| g) &&& m = (f &&& m) ||| (g &&& m) := by
  rw [Nat.and_comm, Nat.and_or_distrib_left, Nat.and_comm m f, Nat.and_comm m g]

theorem flag_set_or_level (f : Nat) :
    flag_set (f ||| BATTERY_HAVE_LEVEL) BATTERY_HAVE_LEVEL = true ∧
      flag_set (f ||| BATTERY_HAVE_LEVEL) BATTERY_HAVE_STATUS =
        flag_set f BATTERY_HAVE_STATUS := by
  simp only [flag_set, have_level_val, have_status_val, or_and_mask]
  obtain ⟨h1 | h1, h2 | h2⟩ := flag_bits f <;> simp only [h1, h2] <;> decide

theorem flag_set_or_status (f : Nat) :
    flag_set (f ||| BATTERY_HAVE_STATUS) BATTERY_HAVE_STATUS = true ∧
      flag_set (f ||| BATTERY_HAVE_STATUS) BATTERY_HAVE_LEVEL =
        flag_set f BATTERY_HAVE_LEVEL := by
  simp only [flag_set, have_level_val, have_status_val, or_and_mask]
  obtain ⟨h1 | h1, h2 | h2⟩ := flag_bits f <;> simp only [h1, h2] <;> decide

theorem have_all_flag_set (f : Nat) :
    decide (f &&& BATTERY_HAVE_ALL = BATTERY_HAVE_ALL) =
      (flag_set f BATTERY_HAVE_LEVEL && flag_set f BATTERY_HAVE_STATUS) := by
  simp only [flag_set, have_all_val, have_level_val, have_status_val, and_three]
  obtain ⟨h1 | h1, h2 | h2⟩ := flag_bits f <;> simp only [h1, h2] <;> decide

/-- The derived validity in terms of the two populated flags. -/
theorem derived_valid_eq (s : MceBattery) :
    s.derived_valid = (s.priv.proxy.valid && (s.have_level && s.have_status)) := by
  simp only [MceBattery.derived_valid, MceBattery.have_level, MceBattery.have_status,
    have_all_flag_set]

/-- What a level delivery does to the populated flags, the validity and the
valid-changed count. -/
theorem level_update_core (s : MceBattery) (level : Int) :
    (mce_battery_level_update s level).priv.proxy = s.priv.proxy ∧
      (mce_battery_level_update s level).have_level = true ∧
      (mce_battery_level_update s level).have_status = s.have_status ∧
      (mce_battery_level_update s level).valid = (s.priv.proxy.valid && s.have_status) ∧
      (mce_battery_level_update s level).emissions SIGNAL_VALID_CHANGED =
        s.emissions SIGNAL_VALID_CHANGED +
          (if (s.priv.proxy.valid && s.have_status) = s.valid then 0 else 1) := by
  rw [level_update_nf]
  simp only [MceBattery.have_level, MceBattery.have_status, flag_set_or_level,
    have_all_flag_set, Bool.true_and, emissions_def, true_and]
  by_cases h1 : s.level = clamp_level level <;>
    by_cases h2 : (s.priv.proxy.valid && flag_set s.priv.flags BATTERY_HAVE_STATUS) = s.valid <;>
    simp [h1, h2, List.count_append, List.count_cons]

/-- What a status delivery does to the populated flags, the validity and the
valid-changed count. -/
theorem status_update_core (s : MceBattery) (status : Option String) :
    (mce_battery_status_update s status).priv.proxy = s.priv.proxy ∧
      (mce_battery_status_update s status).have_level = s.have_level ∧
      (mce_battery_status_update s status).have_status = true ∧
      (mce_battery_status_update s status).valid = (s.priv.proxy.valid && s.have_level) ∧
      (mce_battery_status_update s status).emissions SIGNAL_VALID_CHANGED =
        s.emissions SIGNAL_VALID_CHANGED +
          (if (s.priv.proxy.valid && s.have_level) = s.valid then 0 else 1) := by
  rw [status_update_nf]
  simp only [MceBattery.have_level, MceBattery.have_status, flag_set_or_status,
    have_all_flag_set, Bool.and_true, emissions_def, true_and]
  by_cases h1 : s.status = battery_status_of_wire status <;>
    by_cases h2 : (s.priv.proxy.valid && flag_set s.priv.flags BATTERY_HAVE_LEVEL) = s.valid <;>
    by_cases h3 : battery_status_known status = true <;>
    simp [h1, h2, h3, List.count_append, List.count_cons]

/-- Dropping a reference does not change the core of the battery state. -/
theorem unref_core (s : MceBattery) :
    s.g_object_unref.priv.proxy = s.priv.proxy ∧
      s.g_object_unref.have_level = s.have_level ∧
      s.g_object_unref.have_status = s.have_status ∧
      s.g_object_unref.valid = s.valid ∧
      s.g_object_unref.emissions SIGNAL_VALID_CHANGED = s.emissions SIGNAL_VALID_CHANGED := by
  obtain ⟨h1, -, -, h4, h5⟩ := unref_fields s
  refine ⟨h5, ?_, ?_, h1, unref_emissions s _⟩
  · simp only [MceBattery.have_level, h4]
  · simp only [MceBattery.have_status, h4]

/-- What a delivery or a pull completion does to the populated flags, the
validity and the valid-changed count. -/
theorem step_delivery (s : MceBattery) (e : BatteryEvent) (h : e.is_delivery = true) :
    (s.step e).priv.proxy = s.priv.proxy ∧
      (s.step e).have_level = (s.have_level || e.delivers_level) ∧
      (s.step e).have_status = (s.have_status || e.delivers_status) ∧
      (s.step e).valid =
        (if (e.delivers_level || e.delivers_status) = true then
          s.priv.proxy.valid &&
            ((s.have_level || e.delivers_level) && (s.have_status || e.delivers_status))
        else s.valid) ∧
      (s.step e).emissions SIGNAL_VALID_CHANGED =
        s.emissions SIGNAL_VALID_CHANGED + (if (s.step e).valid = s.valid then 0 else 1) := by
  cases e with
  | level_ind level =>
    obtain ⟨a, b, c, d, e⟩ := level_update_core s level
    simp only [MceBattery.step, mce_battery_level_ind, BatteryEvent.delivers_level,
      BatteryEvent.delivers_status, a, b, c, d, e]
    simp
  | status_ind status =>
    obtain ⟨a, b, c, d, e⟩ := status_update_core s status
    simp only [MceBattery.step, mce_battery_status_ind, BatteryEvent.delivers_level,
      BatteryEvent.delivers_status, a, b, c, d, e]
    simp
  | level_query_done result =>
    cases result with
    | none =>
      obtain ⟨a, b, c, d, e⟩ := unref_core s
      simp only [MceBattery.step, level_query_done_eq, BatteryEvent.delivers_level,
        BatteryEvent.delivers_status, a, b, c, d, e]
      simp
    | some level =>
      obtain ⟨a, b, c, d, e⟩ := level_update_core s level
      obtain ⟨a1, b1, c1, d1, e1⟩ := unref_core (mce_battery_level_update s level)
      simp only [MceBattery.step, level_query_done_eq, BatteryEvent.delivers_level,
        BatteryEvent.delivers_status, a, b, c, d, e, a1, b1, c1, d1, e1]
      simp
  | status_query_done result =>
    cases result with
    | none =>
      obtain ⟨a, b, c, d, e⟩ := unref_core s
      simp only [MceBattery.step, status_query_done_eq, BatteryEvent.delivers_level,
        BatteryEvent.delivers_status, a, b, c, d, e]
      simp
    | some status =>
      obtain ⟨a, b, c, d, e⟩ := status_update_core s (some status)
      obtain ⟨a1, b1, c1, d1, e1⟩ := unref_core (mce_battery_status_update s (some status))
      simp only [MceBattery.step, status_query_done_eq, BatteryEvent.delivers_level,
        BatteryEvent.delivers_status, a, b, c, d, e, a1, b1, c1, d1, e1]
      simp
  | valid_changed proxy => simp [BatteryEvent.is_delivery] at h

/-- The readiness evaluation leaves the cache, the flags and the proxy alone
and emits no signal. -/
theorem query_core (s : MceBattery) :
    (mce_battery_query s).priv.proxy = s.priv.proxy ∧
      (mce_battery_query s).priv.flags = s.priv.flags ∧
      (mce_battery_query s).valid = s.valid ∧
      (mce_battery_query s).level = s.level ∧
      (mce_battery_query s).status = s.status ∧
      ∀ sig, (mce_battery_query s).emissions sig = s.emissions sig := by
  rw [query_nf]
  refine ⟨rfl, rfl, rfl, rfl, rfl, ?_⟩
  intro sig
  simp only [emissions_def]
  split_ifs <;> simp [List.count_append, List.count_cons]

/-- The pull queries issued by one readiness evaluation. -/
theorem query_queries (s : MceBattery) :
    (mce_battery_query s).queries "get_battery_level" =
        s.queries "get_battery_level" +
          (if (s.priv.proxy.request.isSome && s.priv.proxy.valid) = true then 1 else 0) ∧
      (mce_battery_query s).queries "get_battery_status" =
        s.queries "get_battery_status" +
          (if (s.priv.proxy.request.isSome && s.priv.proxy.valid) = true then 1 else 0) := by
  rw [query_nf]
  simp only [MceBattery.queries]
  constructor <;> split_ifs <;> simp [List.count_append, List.count_cons]

/-- The validity check issues no pull query and changes no populated flag. -/
theorem check_valid_frame (s : MceBattery) :
    (mce_battery_check_valid s).priv = s.priv ∧
      (mce_battery_check_valid s).level = s.level ∧
      (mce_battery_check_valid s).status = s.status ∧
      (mce_battery_check_valid s).object = s.object ∧
      (∀ method, (mce_battery_check_valid s).queries method = s.queries method) ∧
      (mce_battery_check_valid s).emissions SIGNAL_LEVEL_CHANGED =
        s.emissions SIGNAL_LEVEL_CHANGED ∧
      (mce_battery_check_valid s).emissions SIGNAL_STATUS_CHANGED =
        s.emissions SIGNAL_STATUS_CHANGED := by
  rw [check_valid_nf]
  refine ⟨rfl, rfl, rfl, rfl, ?_, ?_, ?_⟩
  · intro method
    simp only [MceBattery.queries]
    split_ifs <;> simp [List.count_append, List.count_cons]
  · simp only [emissions_def]
    split_ifs <;> simp [List.count_append, List.count_cons]
  · simp only [emissions_def]
    split_ifs <;> simp [List.count_append, List.count_cons]

/-- What the valid-changed handler does, for a proxy that is now `proxy`. -/
theorem step_valid_changed (s : MceBattery) (proxy : MceProxy) :
    (s.step (BatteryEvent.valid_changed proxy)).priv.proxy = proxy ∧
      (s.step (BatteryEvent.valid_changed proxy)).have_level =
        (proxy.valid && s.have_level) ∧
      (s.step (BatteryEvent.valid_changed proxy)).have_status =
        (proxy.valid && s.have_status) ∧
      (s.step (BatteryEvent.valid_changed proxy)).valid =
        (proxy.valid && (s.have_level && s.have_status)) ∧
      (s.step (BatteryEvent.valid_changed proxy)).emissions SIGNAL_VALID_CHANGED =
        s.emissions SIGNAL_VALID_CHANGED +
          (if (proxy.valid && (s.have_level && s.have_status)) = s.valid then 0 else 1) ∧
      (s.step (BatteryEvent.valid_changed proxy)).emissions SIGNAL_LEVEL_CHANGED =
        s.emissions SIGNAL_LEVEL_CHANGED ∧
      (s.step (BatteryEvent.valid_changed proxy)).emissions SIGNAL_STATUS_CHANGED =
        s.emissions SIGNAL_STATUS_CHANGED ∧
      (s.step (BatteryEvent.valid_changed proxy)).level = s.level ∧
      (s.step (BatteryEvent.valid_changed proxy)).status = s.status := by
  simp only [MceBattery.step, mce_battery_valid_changed]
  cases hv : proxy.valid
  · simp only [Bool.false_eq_true, if_false, Bool.false_and]
    rw [check_valid_nf]
    simp only [MceBattery.derived_valid, MceBattery.set_proxy, hv, Bool.false_and,
      MceBattery.have_level, MceBattery.have_status, flag_set, BATTERY_HAVE_NONE,
      emissions_def]
    cases s.valid <;> simp [List.count_append, List.count_cons]
  · simp only [if_true, Bool.true_and]
    have t1 : (s.set_proxy proxy).priv.proxy = proxy := rfl
    have t2 : (s.set_proxy proxy).priv.flags = s.priv.flags := rfl
    have t3 : (s.set_proxy proxy).valid = s.valid := rfl
    have t4 : (s.set_proxy proxy).world = s.world := rfl
    have t5 : (s.set_proxy proxy).level = s.level := rfl
    have t6 : (s.set_proxy proxy).status = s.status := rfl
    generalize s.set_proxy proxy = t at t1 t2 t3 t4 t5 t6 ⊢
    obtain ⟨q1, q2, q3, q4, q5, q6⟩ := query_core t
    have e1 := q6 SIGNAL_VALID_CHANGED
    have e2 := q6 SIGNAL_LEVEL_CHANGED
    have e3 := q6 SIGNAL_STATUS_CHANGED
    simp only [emissions_def, t4] at e1 e2 e3
    rw [check_valid_nf]
    simp only [derived_valid_eq, MceBattery.have_level, MceBattery.have_status, q1, q2, q3,
      q4, q5, emissions_def, t1, t2, t3, t5, t6, hv, Bool.true_and, List.count_append, e1, e2,
      e3]
    split_ifs <;> simp [List.count_cons]

/-- One event that is not a connection loss, from a connected state whose
validity agrees with its flags. -/
theorem step_connected (s : MceBattery) (e : BatteryEvent)
    (h : e.keeps_connection = true) (hp : s.priv.proxy.valid = true)
    (hv : s.valid = (s.have_level && s.have_status)) :
    (s.step e).priv.proxy.valid = true ∧
      (s.step e).have_level = (s.have_level || e.delivers_level) ∧
      (s.step e).have_status = (s.have_status || e.delivers_status) ∧
      (s.step e).valid = ((s.step e).have_level && (s.step e).have_status) ∧
      (s.step e).emissions SIGNAL_VALID_CHANGED =
        s.emissions SIGNAL_VALID_CHANGED + (if (s.step e).valid = s.valid then 0 else 1) := by
  by_cases hd : e.is_delivery = true
  · obtain ⟨a, b, c, d, f⟩ := step_delivery s e hd
    refine ⟨by rw [a, hp], b, c, ?_, f⟩
    rw [d, b, c, hp, hv]
    cases s.have_level <;> cases s.have_status <;> cases e.delivers_level <;>
      cases e.delivers_status <;> rfl
  · cases e with
    | valid_changed proxy =>
      have hq : proxy.valid = true := h
      obtain ⟨a, b, c, d, f, -⟩ := step_valid_changed s proxy
      rw [hq] at b c d f
      simp only [Bool.true_and] at b c d f
      refine ⟨by rw [a, hq], ?_, ?_, ?_, ?_⟩
      · rw [b]; simp [BatteryEvent.delivers_level]
      · rw [c]; simp [BatteryEvent.delivers_status]
      · rw [d, b, c]
      · rw [f, d]
    | level_ind _ => exact absurd rfl hd
    | status_ind _ => exact absurd rfl hd
    | level_query_done _ => exact absurd rfl hd
    | status_query_done _ => exact absurd rfl hd

/-- Any sequence of events without a connection loss, from a connected state
whose validity agrees with its flags: flags only accumulate, validity follows
them, and valid-changed is emitted at most once, when validity is reached. -/
theorem run_connected (evs : List BatteryEvent) :
    ∀ s : MceBattery, (∀ e ∈ evs, e.keeps_connection = true) →
      s.priv.proxy.valid = true → s.valid = (s.have_level && s.have_status) →
      (s.run evs).priv.proxy.valid = true ∧
        (s.run evs).have_level = (s.have_level || evs.any BatteryEvent.delivers_level) ∧
        (s.run evs).have_status = (s.have_status || evs.any BatteryEvent.delivers_status) ∧
        (s.run evs).valid = ((s.run evs).have_level && (s.run evs).have_status) ∧
        (s.run evs).emissions SIGNAL_VALID_CHANGED =
          s.emissions SIGNAL_VALID_CHANGED +
            (if (s.run evs).valid = s.valid then 0 else 1) := by
  induction evs with
  | nil =>
    intro s _ hp hv
    simp [MceBattery.run, hp, hv]
  | cons e rest ih =>
    intro s h hp hv
    have he : e.keeps_connection = true := h e (List.mem_cons_self e rest)
    have hr : ∀ x ∈ rest, x.keeps_connection = true :=
      fun x hx => h x (List.mem_cons_of_mem e hx)
    obtain ⟨a, b, c, d, f⟩ := step_connected s e he hp hv
    obtain ⟨a1, b1, c1, d1, f1⟩ := ih (s.step e) hr a d
    have hrun : s.run (e :: rest) = (s.step e).run rest := rfl
    rw [hrun]
    refine ⟨a1, ?_, ?_, d1, ?_⟩
    · rw [b1, b, List.any_cons, Bool.or_assoc]
    · rw [c1, c, List.any_cons, Bool.or_assoc]
    · rw [f1, f, d1, b1, c1, d, b, c, hv]
      cases s.have_level <;> cases s.have_status <;> cases e.delivers_level <;>
        cases e.delivers_status <;> cases rest.any BatteryEvent.delivers_level <;>
        cases rest.any BatteryEvent.delivers_status <;> rfl

/-- The pull queries issued by the valid-changed handler when the proxy is
valid. -/
theorem step_valid_changed_queries (s : MceBattery) (proxy : MceProxy)
    (h : proxy.valid = true) :
    (s.step (BatteryEvent.valid_changed proxy)).queries "get_battery_level" =
        s.queries "get_battery_level" + (if proxy.request.isSome = true then 1 else 0) ∧
      (s.step (BatteryEvent.valid_changed proxy)).queries "get_battery_status" =
        s.queries "get_battery_status" + (if proxy.request.isSome = true then 1 else 0) := by
  simp only [MceBattery.step, mce_battery_valid_changed, h, if_true]
  obtain ⟨-, -, -, -, q, -⟩ := check_valid_frame (mce_battery_query (s.set_proxy proxy))
  obtain ⟨a, b⟩ := query_queries (s.set_proxy proxy)
  rw [q, q, a, b]
  simp [MceBattery.set_proxy, MceBattery.queries, h]

/-- The status cached by `mce_battery_status_update`. -/
theorem status_update_status (s : MceBattery) (status : Option String) :
    (mce_battery_status_update s status).status = battery_status_of_wire status := by
  rw [status_update_nf]

/-- The failed assertions recorded by `mce_battery_status_update`. -/
theorem status_update_assert_failures (s : MceBattery) (status : Option String) :
    (mce_battery_status_update s status).assert_failures =
      s.assert_failures + (if battery_status_known status = true then 0 else 1) := by
  rw [status_update_nf]
  simp only [MceBattery.assert_failures]
  split_ifs <;> simp [List.count_append, List.count_cons]

theorem charger_emissions_def (s : MceCharger) (sig : mce_charger_signal) :
    s.emissions sig = s.world.trace.count (Effect.emit sig) := rfl

theorem inactivity_emissions_def (s : MceInactivity) (sig : mce_inactivity_signal) :
    s.emissions sig = s.world.trace.count (Effect.emit sig) := rfl

theorem charger_decode_eq (s : MceCharger) (value : Option String) :
    (if g_strcmp0 value (some MCE_CHARGER_STATE_ON) = 0 then
      (s, MCE_CHARGER_STATE.MCE_CHARGER_ON)
    else if g_strcmp0 value (some MCE_CHARGER_STATE_OFF) = 0 then
      (s, MCE_CHARGER_STATE.MCE_CHARGER_OFF)
    else
      (s.GASSERT (g_strcmp0 value (some MCE_CHARGER_STATE_UNKNOWN) = 0),
        MCE_CHARGER_STATE.MCE_CHARGER_UNKNOWN)) =
    (if charger_state_known value then s
      else { s with world := { s.world with trace := s.world.trace ++ [Effect.gassert_failed] } },
     charger_state_of_wire value) := by
  simp only [g_strcmp0_eq_zero_iff, charger_state_of_wire, charger_state_known,
    MCE_CHARGER_STATE_ON, MCE_CHARGER_STATE_OFF, MCE_CHARGER_STATE_UNKNOWN,
    MceCharger.GASSERT, World.log]
  split_ifs <;> simp_all

/-- Closed form of `mce_charger_state_update`. -/
theorem charger_state_update_nf (s : MceCharger) (value : Option String) :
    mce_charger_state_update s value =
      { s with
        state := charger_state_of_wire value,
        valid := s.valid || s.priv.proxy.valid,
        world := { s.world with
          trace := s.world.trace ++
            (if charger_state_known value then [] else [Effect.gassert_failed]) ++
            (if s.state = charger_state_of_wire value then []
              else [Effect.emit mce_charger_signal.SIGNAL_STATE_CHANGED]) ++
            (if (s.priv.proxy.valid && !s.valid) = true
              then [Effect.emit mce_charger_signal.SIGNAL_VALID_CHANGED] else []) } } := by
  unfold mce_charger_state_update
  simp only [charger_decode_eq]
  obtain ⟨⟨rc⟩, ⟨proxy, pvid, id⟩, valid, state, ⟨trace, seq⟩⟩ := s
  by_cases h1 : state = charger_state_of_wire value <;>
    by_cases h2 : charger_state_known value = true <;>
    cases hv : valid <;> cases hp : proxy.valid <;>
    simp [h1, h2, hv, hp, MceCharger.g_signal_emit, World.log]

/-- Closed form of `mce_inactivity_status_update`. -/
theorem inactivity_status_update_nf (s : MceInactivity) (status : Int) :
    mce_inactivity_status_update s status =
      { s with
        status := status,
        valid := s.valid || s.priv.proxy.valid,
        world := { s.world with
          trace := s.world.trace ++
            (if status = s.status then []
              else [Effect.emit mce_inactivity_signal.SIGNAL_STATUS_CHANGED]) ++
            (if (s.priv.proxy.valid && !s.valid) = true
              then [Effect.emit mce_inactivity_signal.SIGNAL_VALID_CHANGED] else []) } } := by
  unfold mce_inactivity_status_update
  obtain ⟨⟨rc⟩, ⟨proxy, pvid, id⟩, valid, st, ⟨trace, seq⟩⟩ := s
  by_cases h1 : status = st <;>
    cases hv : valid <;> cases hp : proxy.valid <;>
    simp [h1, hv, hp, MceInactivity.g_signal_emit, World.log]

/-- The level-changed emissions of one level delivery. -/
theorem level_update_emissions (s : MceBattery) (level : Int) :
    (mce_battery_level_update s level).emissions SIGNAL_LEVEL_CHANGED =
        s.emissions SIGNAL_LEVEL_CHANGED + (if clamp_level level ≠ s.level then 1 else 0) ∧
      (mce_battery_level_update s level).level = clamp_level level := by
  rw [level_update_nf]
  simp only [emissions_def, and_true]
  by_cases h : s.level = clamp_level level
  · split_ifs <;> simp_all [List.count_append, List.count_cons]
  · have h2 : ¬ clamp_level level = s.level := fun k => h k.symm
    split_ifs <;> simp_all [List.count_append, List.count_cons]

/-- The status-changed emissions of one status delivery. -/
theorem status_update_emissions (s : MceBattery) (status : Option String) :
    (mce_battery_status_update s status).emissions SIGNAL_STATUS_CHANGED =
        s.emissions SIGNAL_STATUS_CHANGED +
          (if battery_status_of_wire status ≠ s.status then 1 else 0) ∧
      (mce_battery_status_update s status).status = battery_status_of_wire status := by
  rw [status_update_nf]
  simp only [emissions_def, and_true]
  by_cases h : s.status = battery_status_of_wire status
  · split_ifs <;> simp_all [List.count_append, List.count_cons]
  · have h2 : ¬ battery_status_of_wire status = s.status := fun k => h k.symm
    split_ifs <;> simp_all [List.count_append, List.count_cons]

/-- The state-changed emissions of one charger state delivery. -/
theorem charger_state_update_emissions (s : MceCharger) (value : Option String) :
    (mce_charger_state_update s value).emissions mce_charger_signal.SIGNAL_STATE_CHANGED =
        s.emissions mce_charger_signal.SIGNAL_STATE_CHANGED +
          (if charger_state_of_wire value ≠ s.state then 1 else 0) ∧
      (mce_charger_state_update s value).state = charger_state_of_wire value := by
  rw [charger_state_update_nf]
  simp only [charger_emissions_def, and_true]
  by_cases h : s.state = charger_state_of_wire value
  · split_ifs <;> simp_all [List.count_append, List.count_cons]
  · have h2 : ¬ charger_state_of_wire value = s.state := fun k => h k.symm
    split_ifs <;> simp_all [List.count_append, List.count_cons]

/-- The status-changed emissions of one inactivity status delivery. -/
theorem inactivity_status_update_emissions (s : MceInactivity) (status : Int) :
    (mce_inactivity_status_update s status).emissions
          mce_inactivity_signal.SIGNAL_STATUS_CHANGED =
        s.emissions mce_inactivity_signal.SIGNAL_STATUS_CHANGED +
          (if status ≠ s.status then 1 else 0) ∧
      (mce_inactivity_status_update s status).status = status := by
  rw [inactivity_status_update_nf]
  simp only [inactivity_emissions_def, and_true]
  by_cases h : status = s.status
  · split_ifs <;> simp_all [List.count_append, List.count_cons]
  · split_ifs <;> simp_all [List.count_append, List.count_cons]

/-- A level delivery does not look at the reference count. -/
theorem level_update_object (s : MceBattery) (o : GObject) (level : Int) :
    mce_battery_level_update { s with object := o } level =
      { mce_battery_level_update s level with object := o } := by
  rw [level_update_nf, level_update_nf]

/-- A status delivery does not look at the reference count. -/
theorem status_update_object (s : MceBattery) (o : GObject) (status : Option String) :
    mce_battery_status_update { s with object := o } status =
      { mce_battery_status_update s status with object := o } := by
  rw [status_update_nf, status_update_nf]

/-- Dropping a reference that is not the last one only decrements the count. -/
theorem unref_of_shared (s : MceBattery) (h : 1 < s.object.ref_count) :
    s.g_object_unref = { s with object := { ref_count := s.object.ref_count - 1 } } := by
  rw [unref_nf, if_pos h]

/-- A second delivery of the same level adds nothing to the log. -/
theorem level_update_twice_trace (s : MceBattery) (level : Int) :
    (mce_battery_level_update (mce_battery_level_update s level) level).world.trace =
      (mce_battery_level_update s level).world.trace := by
  rw [level_update_nf (mce_battery_level_update s level) level]
  simp [level_update_nf s level, Nat.or_assoc]

/-- A second delivery of the same status adds no emission to the log, only a
repeated report of the failed assertion when the string is not a wire value. -/
theorem status_update_twice_trace (s : MceBattery) (status : Option String) :
    (mce_battery_status_update (mce_battery_status_update s status) status).world.trace =
      (mce_battery_status_update s status).world.trace ++
        (if battery_status_known status then [] else [Effect.gassert_failed]) := by
  rw [status_update_nf (mce_battery_status_update s status) status]
  simp [status_update_nf s status, Nat.or_assoc]

/-- The freshly constructed battery of a connected proxy with a request source
holds three references: the caller's and one per pull query in flight. -/
theorem fresh_ref_count (proxy : MceProxy) (world : World mce_battery_signal)
    (h : proxy.valid = true ∧ proxy.request.isSome = true) :
    (mce_battery_new none proxy world).object.ref_count = 3 := by
  simp only [mce_battery_new]
  rw [query_nf]
  simp [MceBattery.g_object_new, mce_battery_init, h.1, h.2]

/-- Push then pull, and pull then push, of one level on an instance that holds
more than one reference: same final state, and the second arrival emits
nothing. -/
theorem level_push_pull_shared (s : MceBattery) (level : Int)
    (h : 1 < s.object.ref_count) :
    mce_battery_level_query_done (mce_battery_level_ind level s) (some level) =
        mce_battery_level_ind level (mce_battery_level_query_done s (some level)) ∧
      (∀ sig,
        (mce_battery_level_query_done (mce_battery_level_ind level s) (some level)).emissions
          sig = (mce_battery_level_ind level s).emissions sig) ∧
      (∀ sig,
        (mce_battery_level_ind level (mce_battery_level_query_done s (some level))).emissions
          sig = (mce_battery_level_query_done s (some level)).emissions sig) := by
  have ho : (mce_battery_level_update s level).object = s.object := by rw [level_update_nf]
  have ho2 : (mce_battery_level_update (mce_battery_level_update s level) level).object =
      s.object := by rw [level_update_nf, ho]
  have h1 : 1 < (mce_battery_level_update s level).object.ref_count := by rw [ho]; exact h
  have h2 : 1 < (mce_battery_level_update (mce_battery_level_update s level)
      level).object.ref_count := by rw [ho2]; exact h
  have eA : (mce_battery_level_update (mce_battery_level_update s level)
      level).g_object_unref =
      { mce_battery_level_update (mce_battery_level_update s level) level with
        object := { ref_count := s.object.ref_count - 1 } } := by
    rw [unref_of_shared _ h2, ho2]
  have eB : mce_battery_level_update (mce_battery_level_update s level).g_object_unref
      level =
      { mce_battery_level_update (mce_battery_level_update s level) level with
        object := { ref_count := s.object.ref_count - 1 } } := by
    rw [unref_of_shared _ h1, ho, level_update_object]
  simp only [mce_battery_level_ind, level_query_done_eq]
  refine ⟨eA.trans eB.symm, ?_, ?_⟩
  · intro sig
    rw [unref_emissions]
    simp only [emissions_def, level_update_twice_trace]
  · intro sig
    rw [eB, unref_emissions]
    simp only [emissions_def, level_update_twice_trace]

/-- Push then pull, and pull then push, of one status on an instance that holds
more than one reference: same final state, and the second arrival emits
nothing. -/
theorem status_push_pull_shared (s : MceBattery) (status : String)
    (h : 1 < s.object.ref_count) :
    mce_battery_status_query_done (mce_battery_status_ind (some status) s) (some status) =
        mce_battery_status_ind (some status)
          (mce_battery_status_query_done s (some status)) ∧
      (∀ sig,
        (mce_battery_status_query_done (mce_battery_status_ind (some status) s)
          (some status)).emissions sig =
          (mce_battery_status_ind (some status) s).emissions sig) ∧
      (∀ sig,
        (mce_battery_status_ind (some status)
          (mce_battery_status_query_done s (some status))).emissions sig =
          (mce_battery_status_query_done s (some status)).emissions sig) := by
  have ho : (mce_battery_status_update s (some status)).object = s.object := by
    rw [status_update_nf]
  have ho2 : (mce_battery_status_update (mce_battery_status_update s (some status))
      (some status)).object = s.object := by rw [status_update_nf, ho]
  have h1 : 1 < (mce_battery_status_update s (some status)).object.ref_count := by
    rw [ho]; exact h
  have h2 : 1 < (mce_battery_status_update (mce_battery_status_update s (some status))
      (some status)).object.ref_count := by rw [ho2]; exact h
  have eA : (mce_battery_status_update (mce_battery_status_update s (some status))
      (some status)).g_object_unref =
      { mce_battery_status_update (mce_battery_status_update s (some status))
          (some status) with
        object := { ref_count := s.object.ref_count - 1 } } := by
    rw [unref_of_shared _ h2, ho2]
  have eB : mce_battery_status_update
      (mce_battery_status_update s (some status)).g_object_unref (some status) =
      { mce_battery_status_update (mce_battery_status_update s (some status))
          (some status) with
        object := { ref_count := s.object.ref_count - 1 } } := by
    rw [unref_of_shared _ h1, ho, status_update_object]
  simp only [mce_battery_status_ind, status_query_done_eq]
  refine ⟨eA.trans eB.symm, ?_, ?_⟩
  · intro sig
    rw [unref_emissions]
    simp only [emissions_def, status_update_twice_trace]
    split_ifs <;> simp [List.count_append, List.count_cons]
  · intro sig
    rw [eB, unref_emissions]
    simp only [emissions_def, status_update_twice_trace]
    split_ifs <;> simp [List.count_append, List.count_cons]

/-! ## Battery level: clamping and change notification -/

/-- C1: for every `gint` level (indeed for every integer), after
`mce_battery_level_update` the cached level is 0 when the level is negative,
100 when it exceeds 100 and the level itself otherwise; in particular -5 is
cached as 0 and 150 as 100; the call emits at most one level-changed
notification. -/
theorem mce_battery_level_update_clamps (self : MceBattery) (level : Int) :
    ((mce_battery_level_update self level).level : Int) =
        (if level < 0 then 0 else if level > 100 then 100 else level) ∧
      (mce_battery_level_update self (-5)).level = 0 ∧
      (mce_battery_level_update self 150).level = 100 ∧
      self.emissions SIGNAL_LEVEL_CHANGED ≤
        (mce_battery_level_update self level).emissions SIGNAL_LEVEL_CHANGED ∧
      (mce_battery_level_update self level).emissions SIGNAL_LEVEL_CHANGED ≤
        self.emissions SIGNAL_LEVEL_CHANGED + 1 := by
  have hl : ∀ l : Int, (mce_battery_level_update self l).level = clamp_level l := by
    intro l
    rw [level_update_eq, check_valid_eq]
    split_ifs <;> simp_all
  have he : (mce_battery_level_update self level).emissions SIGNAL_LEVEL_CHANGED =
      self.emissions SIGNAL_LEVEL_CHANGED + (if self.level = clamp_level level then 0 else 1) := by
    rw [level_update_eq, check_valid_eq]
    simp only [emissions_def]
    split_ifs <;> simp_all [List.count_append, List.count_cons]
  refine ⟨?_, ?_, ?_, ?_, ?_⟩
  · rw [hl]
    unfold clamp_level
    split_ifs <;> omega
  · rw [hl]; rfl
  · rw [hl]; rfl
  · rw [he]; omega
  · rw [he]; split_ifs <;> omega

/-- C2: for every battery state and delivered value, `mce_battery_level_update`
emits level-changed once if the clamped level differs from the cached level and
not at all otherwise, `mce_battery_status_update` emits status-changed once if
the decoded status differs from the cached status and not at all otherwise, and
afterwards the cached field holds the clamped, respectively decoded, value. -/
theorem battery_update_emits_iff_changed (self : MceBattery) (level : Int)
    (status : Option String) :
    ((mce_battery_level_update self level).emissions SIGNAL_LEVEL_CHANGED =
        self.emissions SIGNAL_LEVEL_CHANGED +
          (if clamp_level level ≠ self.level then 1 else 0) ∧
      (mce_battery_level_update self level).level = clamp_level level) ∧
    ((mce_battery_status_update self status).emissions SIGNAL_STATUS_CHANGED =
        self.emissions SIGNAL_STATUS_CHANGED +
          (if battery_status_of_wire status ≠ self.status then 1 else 0) ∧
      (mce_battery_status_update self status).status = battery_status_of_wire status) := by
  refine ⟨⟨?_, ?_⟩, ?_, ?_⟩
  · rw [level_update_nf]
    simp only [emissions_def]
    by_cases h : self.level = clamp_level level
    · split_ifs <;> simp_all [List.count_append, List.count_cons]
    · have h2 : ¬ clamp_level level = self.level := fun k => h k.symm
      split_ifs <;> simp_all [List.count_append, List.count_cons]
  · rw [level_update_nf]
  · rw [status_update_nf]
    simp only [emissions_def]
    by_cases h : self.status = battery_status_of_wire status
    · split_ifs <;> simp_all [List.count_append, List.count_cons]
    · have h2 : ¬ battery_status_of_wire status = self.status := fun k => h k.symm
      split_ifs <;> simp_all [List.count_append, List.count_cons]
  · rw [status_update_nf]

/-- C3: after `mce_battery_check_valid` the field `valid` is true exactly when
the proxy is valid and both `BATTERY_HAVE_LEVEL` and `BATTERY_HAVE_STATUS` are
set in `priv->flags`; valid-changed is emitted once if that value differs from
the previous `valid` and not at all otherwise; the same equation holds after
every level delivery, status delivery and connection-validity change. -/
theorem mce_battery_check_valid_spec (self : MceBattery) (level : Int)
    (status : Option String) (proxy : MceProxy) :
    ((mce_battery_check_valid self).valid = true ↔
        (self.priv.proxy.valid = true ∧
          self.priv.flags &&& BATTERY_HAVE_LEVEL ≠ 0 ∧
          self.priv.flags &&& BATTERY_HAVE_STATUS ≠ 0)) ∧
      (mce_battery_check_valid self).priv = self.priv ∧
      (mce_battery_check_valid self).emissions SIGNAL_VALID_CHANGED =
        self.emissions SIGNAL_VALID_CHANGED +
          (if (mce_battery_check_valid self).valid ≠ self.valid then 1 else 0) ∧
      (mce_battery_level_update self level).valid =
        (mce_battery_level_update self level).derived_valid ∧
      (mce_battery_status_update self status).valid =
        (mce_battery_status_update self status).derived_valid ∧
      (self.step (BatteryEvent.valid_changed proxy)).valid =
        (self.step (BatteryEvent.valid_changed proxy)).derived_valid := by
  refine ⟨?_, ?_, ?_, ?_, ?_, ?_⟩
  · rw [check_valid_nf]
    simp only [MceBattery.derived_valid, Bool.and_eq_true, decide_eq_true_eq, have_all_iff]
  · rw [check_valid_nf]
  · rw [check_valid_nf]
    simp only [emissions_def]
    split_ifs <;> simp_all [List.count_append, List.count_cons]
  · rw [level_update_nf]
    simp [MceBattery.derived_valid]
  · rw [status_update_nf]
    simp [MceBattery.derived_valid]
  · simp only [MceBattery.step, mce_battery_valid_changed]
    split_ifs
    · rw [check_valid_nf, query_nf]
      simp [MceBattery.derived_valid]
    · rw [check_valid_nf]
      simp [MceBattery.derived_valid]

/-- C4: for every prior battery state, `mce_battery_valid_changed` run with
`proxy->valid` false leaves `priv->flags = BATTERY_HAVE_NONE` and `valid`
false; it emits valid-changed exactly when `valid` was true before, and does
nothing else: no pull query is issued and no push handler is attached. -/
theorem mce_battery_valid_changed_disconnected (self : MceBattery)
    (signal : Option ComNokiaMceSignal) (request : Option ComNokiaMceRequest) :
    (mce_battery_valid_changed { valid := false, signal := signal, request := request }
        (self.set_proxy { valid := false, signal := signal, request := request })).priv.flags =
        BATTERY_HAVE_NONE ∧
      (mce_battery_valid_changed { valid := false, signal := signal, request := request }
        (self.set_proxy { valid := false, signal := signal, request := request })).valid =
        false ∧
      (mce_battery_valid_changed { valid := false, signal := signal, request := request }
        (self.set_proxy { valid := false, signal := signal, request := request })).world.trace =
        self.world.trace ++
          (if self.valid = true then [Effect.emit SIGNAL_VALID_CHANGED] else []) ∧
      (mce_battery_valid_changed { valid := false, signal := signal, request := request }
        (self.set_proxy { valid := false, signal := signal, request := request })).emissions
          SIGNAL_VALID_CHANGED =
        self.emissions SIGNAL_VALID_CHANGED + (if self.valid = true then 1 else 0) ∧
      (∀ method : String,
        (mce_battery_valid_changed { valid := false, signal := signal, request := request }
          (self.set_proxy { valid := false, signal := signal, request := request })).queries
            method = self.queries method) ∧
      (mce_battery_valid_changed { valid := false, signal := signal, request := request }
        (self.set_proxy { valid := false, signal := signal, request := request })).attachments =
        self.attachments ∧
      (mce_battery_valid_changed { valid := false, signal := signal, request := request }
        (self.set_proxy { valid := false, signal := signal, request := request })).priv.battery_ind_id_LEVEL =
        self.priv.battery_ind_id_LEVEL ∧
      (mce_battery_valid_changed { valid := false, signal := signal, request := request }
        (self.set_proxy { valid := false, signal := signal, request := request })).priv.battery_ind_id_STATUS =
        self.priv.battery_ind_id_STATUS := by
  have key : mce_battery_valid_changed { valid := false, signal := signal, request := request }
      (self.set_proxy { valid := false, signal := signal, request := request }) =
      { self with
        priv := { self.priv with
          proxy := { valid := false, signal := signal, request := request },
          flags := BATTERY_HAVE_NONE },
        valid := false,
        world := { self.world with
          trace := self.world.trace ++
            (if self.valid = true then [Effect.emit SIGNAL_VALID_CHANGED] else []) } } := by
    simp only [mce_battery_valid_changed, MceBattery.set_proxy]
    rw [check_valid_nf]
    cases hv : self.valid <;> simp [MceBattery.derived_valid, hv]
  rw [key]
  refine ⟨rfl, rfl, rfl, ?_, ?_, ?_, rfl, rfl⟩
  · simp only [emissions_def]
    split_ifs <;> simp [List.count_append, List.count_cons]
  · intro method
    simp only [MceBattery.queries]
    split_ifs <;> simp [List.count_append, List.count_cons]
  · simp only [MceBattery.attachments]
    split_ifs <;> simp [List.filter_append]

/-! ## Battery: connection loss and recovery -/

/-- C5: from a connected battery with level and status populated and `valid`
true, a disconnect (`s1`) makes `valid` false with one valid-changed and no
level-changed or status-changed notification; the following reconnect with the
request source available (`s2`) issues one `get_battery_level` and one
`get_battery_status` query and leaves `valid` false; after any further events
without connection loss (`s3`), `valid` is true exactly when both a level and a
status have been delivered since the reconnect, and valid-changed has been
emitted once in that case and not at all otherwise. -/
theorem battery_disconnect_reconnect_cycle (s s1 s2 s3 : MceBattery)
    (down up : MceProxy) (evs : List BatteryEvent)
    (hs : s.priv.proxy.valid = true ∧ s.have_level = true ∧ s.have_status = true ∧
      s.valid = true)
    (hdown : down.valid = false)
    (hup : up.valid = true ∧ up.request.isSome = true)
    (hevs : ∀ e ∈ evs, e.keeps_connection = true)
    (h1 : s1 = s.step (BatteryEvent.valid_changed down))
    (h2 : s2 = s1.step (BatteryEvent.valid_changed up))
    (h3 : s3 = s2.run evs) :
    (s1.valid = false ∧
      s1.emissions SIGNAL_VALID_CHANGED = s.emissions SIGNAL_VALID_CHANGED + 1 ∧
      s1.emissions SIGNAL_LEVEL_CHANGED = s.emissions SIGNAL_LEVEL_CHANGED ∧
      s1.emissions SIGNAL_STATUS_CHANGED = s.emissions SIGNAL_STATUS_CHANGED ∧
      s1.level = s.level ∧ s1.status = s.status) ∧
    (s2.queries "get_battery_level" = s1.queries "get_battery_level" + 1 ∧
      s2.queries "get_battery_status" = s1.queries "get_battery_status" + 1 ∧
      s2.valid = false ∧
      s2.emissions SIGNAL_VALID_CHANGED = s1.emissions SIGNAL_VALID_CHANGED) ∧
    (s3.valid =
        (evs.any BatteryEvent.delivers_level && evs.any BatteryEvent.delivers_status) ∧
      s3.emissions SIGNAL_VALID_CHANGED =
        s2.emissions SIGNAL_VALID_CHANGED +
          (if (evs.any BatteryEvent.delivers_level &&
              evs.any BatteryEvent.delivers_status) = true then 1 else 0)) := by
  obtain ⟨hsp, hsl, hss, hsv⟩ := hs
  obtain ⟨hupv, hupr⟩ := hup
  obtain ⟨a1, b1, c1, d1, e1, f1, g1, i1, j1⟩ := step_valid_changed s down
  obtain ⟨a2, b2, c2, d2, e2, -⟩ := step_valid_changed s1 up
  obtain ⟨q1, q2⟩ := step_valid_changed_queries s1 up hupv
  rw [← h1] at a1 b1 c1 d1 e1 f1 g1 i1 j1
  rw [← h2] at a2 b2 c2 d2 e2 q1 q2
  simp only [hdown, hsv, Bool.false_and, Bool.false_eq_true, if_false] at b1 c1 d1 e1
  simp only [hupv, b1, c1, d1, Bool.and_false, Bool.and_self, if_true, Nat.add_zero]
    at b2 c2 d2 e2
  simp only [hupr, if_true] at q1 q2
  have hp2 : s2.priv.proxy.valid = true := by rw [a2, hupv]
  have hv2 : s2.valid = (s2.have_level && s2.have_status) := by rw [d2, b2, c2]; rfl
  obtain ⟨-, b3, c3, d3, e3⟩ := run_connected evs s2 hevs hp2 hv2
  rw [← h3] at b3 c3 d3 e3
  simp only [b2, c2, Bool.false_or] at b3 c3
  rw [b3, c3] at d3
  refine ⟨⟨d1, e1, f1, g1, i1, j1⟩, ⟨q1, q2, d2, e2⟩, d3, ?_⟩
  rw [e3, d3, d2]
  cases evs.any BatteryEvent.delivers_level <;>
    cases evs.any BatteryEvent.delivers_status <;> rfl

/-- Witness for C5: the populated sample battery loses the connection, gets it
back, and then receives a level by push and a status by pull. -/
theorem battery_disconnect_reconnect_cycle_witness :
    (battery_populated.priv.proxy.valid = true ∧ battery_populated.have_level = true ∧
      battery_populated.have_status = true ∧ battery_populated.valid = true) ∧
    (((battery_populated.step (BatteryEvent.valid_changed proxy_down)).step
        (BatteryEvent.valid_changed proxy_up)).run
      [BatteryEvent.level_ind 80, BatteryEvent.status_query_done (some "full")]).valid =
      ([BatteryEvent.level_ind 80, BatteryEvent.status_query_done (some "full")].any
          BatteryEvent.delivers_level &&
        [BatteryEvent.level_ind 80, BatteryEvent.status_query_done (some "full")].any
          BatteryEvent.delivers_status) :=
  ⟨by decide,
    (battery_disconnect_reconnect_cycle battery_populated _ _ _ proxy_down proxy_up
      [BatteryEvent.level_ind 80, BatteryEvent.status_query_done (some "full")]
      (by decide) (by decide) (by decide) (by decide) rfl rfl rfl).2.2.1⟩

/-- C6: from a battery state with the connection valid, level and status
populated and `valid` true, every sequence of events without a connection loss
(push deliveries, successful or failed pull completions, readiness evaluations
with the connection valid) leaves `valid` true and emits no valid-changed
notification. -/
theorem battery_validity_monotonic (s : MceBattery) (evs : List BatteryEvent)
    (hs : s.priv.proxy.valid = true ∧ s.have_level = true ∧ s.have_status = true ∧
      s.valid = true)
    (hevs : ∀ e ∈ evs, e.keeps_connection = true) :
    (s.run evs).valid = true ∧
      (s.run evs).emissions SIGNAL_VALID_CHANGED = s.emissions SIGNAL_VALID_CHANGED ∧
      (s.run evs).have_level = true ∧ (s.run evs).have_status = true ∧
      (s.run evs).priv.proxy.valid = true := by
  obtain ⟨hp, hl, hst, hv⟩ := hs
  have hv2 : s.valid = (s.have_level && s.have_status) := by rw [hv, hl, hst]; rfl
  obtain ⟨a, b, c, d, e⟩ := run_connected evs s hevs hp hv2
  rw [hl, Bool.true_or] at b
  rw [hst, Bool.true_or] at c
  rw [b, c] at d
  have d2 : (s.run evs).valid = true := d
  refine ⟨d2, ?_, b, c, a⟩
  rw [e, d2, hv]
  rfl

/-- Witness for C6: the populated sample battery receives a level push, a
failed status pull, a readiness evaluation and an out-of-range level pull. -/
theorem battery_validity_monotonic_witness :
    (battery_populated.priv.proxy.valid = true ∧ battery_populated.have_level = true ∧
      battery_populated.have_status = true ∧ battery_populated.valid = true) ∧
    (battery_populated.run
      [BatteryEvent.level_ind 10, BatteryEvent.status_query_done none,
        BatteryEvent.valid_changed proxy_up, BatteryEvent.level_query_done (some 200)]).valid =
      true :=
  ⟨by decide,
    (battery_validity_monotonic battery_populated
      [BatteryEvent.level_ind 10, BatteryEvent.status_query_done none,
        BatteryEvent.valid_changed proxy_up, BatteryEvent.level_query_done (some 200)]
      (by decide) (by decide)).1⟩

/-! ## Battery status: decoding -/

/-- C7: `mce_battery_status_update` caches `MCE_BATTERY_FULL`, `MCE_BATTERY_OK`,
`MCE_BATTERY_LOW`, `MCE_BATTERY_EMPTY` for the wire strings "full", "ok", "low",
"empty" and `MCE_BATTERY_UNKNOWN` for "unknown"; the cached status depends on
the string alone, not on the state it is delivered to; it is always one of the
five declared variants. -/
theorem mce_battery_status_update_decodes (self other : MceBattery)
    (status : Option String) :
    ((mce_battery_status_update self (some MCE_BATTERY_STATUS_FULL)).status =
        MCE_BATTERY_FULL ∧
      (mce_battery_status_update self (some MCE_BATTERY_STATUS_OK)).status =
        MCE_BATTERY_OK ∧
      (mce_battery_status_update self (some MCE_BATTERY_STATUS_LOW)).status =
        MCE_BATTERY_LOW ∧
      (mce_battery_status_update self (some MCE_BATTERY_STATUS_EMPTY)).status =
        MCE_BATTERY_EMPTY ∧
      (mce_battery_status_update self (some MCE_BATTERY_STATUS_UNKNOWN)).status =
        MCE_BATTERY_UNKNOWN) ∧
    (MCE_BATTERY_STATUS_FULL = "full" ∧ MCE_BATTERY_STATUS_OK = "ok" ∧
      MCE_BATTERY_STATUS_LOW = "low" ∧ MCE_BATTERY_STATUS_EMPTY = "empty" ∧
      MCE_BATTERY_STATUS_UNKNOWN = "unknown") ∧
    (mce_battery_status_update self status).status =
      (mce_battery_status_update other status).status ∧
    (mce_battery_status_update self status).status ∈
      [MCE_BATTERY_UNKNOWN, MCE_BATTERY_EMPTY, MCE_BATTERY_LOW, MCE_BATTERY_OK,
        MCE_BATTERY_FULL] := by
  refine ⟨⟨?_, ?_, ?_, ?_, ?_⟩, ⟨rfl, rfl, rfl, rfl, rfl⟩, ?_, ?_⟩
  · rw [status_update_status]; decide
  · rw [status_update_status]; decide
  · rw [status_update_status]; decide
  · rw [status_update_status]; decide
  · rw [status_update_status]; decide
  · rw [status_update_status, status_update_status]
  · cases (mce_battery_status_update self status).status <;> decide

/-- C8, counterexample to the claim as stated: the string "charging" is none of
the five wire values, and so is NULL; delivering either to the populated sample
battery fails the `GASSERT` of the fallback branch. -/
theorem mce_battery_status_update_fallback_asserts :
    (some "charging" : Option String) ∉
        [some "full", some "ok", some "low", some "empty", some "unknown"] ∧
      (mce_battery_status_update battery_populated (some "charging")).status =
        MCE_BATTERY_UNKNOWN ∧
      (mce_battery_status_update battery_populated (some "charging")).assert_failures =
        battery_populated.assert_failures + 1 ∧
      (mce_battery_status_update battery_populated none).assert_failures =
        battery_populated.assert_failures + 1 := by
  decide

/-- C8, amended: for every status string that is none of "full", "ok", "low",
"empty" (NULL included), `mce_battery_status_update` caches
`MCE_BATTERY_UNKNOWN`, sets `BATTERY_HAVE_STATUS` and recomputes validity; the
`GASSERT` of the fallback branch holds exactly for the string "unknown" and is
reported as failed, once, for every other such string, without stopping the
update. -/
theorem mce_battery_status_update_unknown_fallback (self : MceBattery)
    (status : Option String)
    (h : status ≠ some "full" ∧ status ≠ some "ok" ∧ status ≠ some "low" ∧
      status ≠ some "empty") :
    (mce_battery_status_update self status).status = MCE_BATTERY_UNKNOWN ∧
      (mce_battery_status_update self status).priv.flags =
        self.priv.flags ||| BATTERY_HAVE_STATUS ∧
      (mce_battery_status_update self status).have_status = true ∧
      (mce_battery_status_update self status).valid =
        (mce_battery_status_update self status).derived_valid ∧
      (mce_battery_status_update self status).assert_failures =
        self.assert_failures + (if status = some "unknown" then 0 else 1) := by
  obtain ⟨h1, h2, h3, h4⟩ := h
  obtain ⟨-, -, c, -, -⟩ := status_update_core self status
  refine ⟨?_, ?_, c, ?_, ?_⟩
  · rw [status_update_status]
    simp [battery_status_of_wire, h1, h2, h3, h4]
  · rw [status_update_nf]
  · rw [status_update_nf]
    simp [MceBattery.derived_valid]
  · rw [status_update_assert_failures]
    by_cases hu : status = some "unknown"
    · simp [battery_status_known, hu]
    · simp [battery_status_known, h1, h2, h3, h4, hu]

/-- Witness for C8 (amended): the string "charging" delivered to the populated
sample battery. -/
theorem mce_battery_status_update_unknown_fallback_witness :
    ((some "charging" : Option String) ≠ some "full" ∧
      (some "charging" : Option String) ≠ some "ok" ∧
      (some "charging" : Option String) ≠ some "low" ∧
      (some "charging" : Option String) ≠ some "empty") ∧
    (mce_battery_status_update battery_populated (some "charging")).status =
      MCE_BATTERY_UNKNOWN :=
  ⟨by decide,
    (mce_battery_status_update_unknown_fallback battery_populated (some "charging")
      (by decide)).1⟩

/-! ## Delivering the same value twice -/

/-- C9, counterexample to the claim as stated: the populated sample battery
caches level 50; delivering 50 twice emits no level-changed notification at
all, not exactly one. -/
theorem same_level_twice_emits_nothing :
    (mce_battery_level_update (mce_battery_level_update battery_populated 50) 50).emissions
        SIGNAL_LEVEL_CHANGED = battery_populated.emissions SIGNAL_LEVEL_CHANGED ∧
      ¬ ((mce_battery_level_update (mce_battery_level_update battery_populated 50)
          50).emissions SIGNAL_LEVEL_CHANGED =
        battery_populated.emissions SIGNAL_LEVEL_CHANGED + 1) := by
  decide

/-- C9, amended: for battery level, battery status, charger state and
inactivity status, every state and every wire value, delivering the same value
twice in succession emits the change notification of that property once when
the decoded value differs from the previously cached one and not at all when it
equals it; the second delivery never emits it. -/
theorem same_value_twice_emits_at_most_once (b : MceBattery) (c : MceCharger)
    (i : MceInactivity) (level : Int) (status value : Option String) (flag : Int) :
    ((mce_battery_level_update (mce_battery_level_update b level) level).emissions
          SIGNAL_LEVEL_CHANGED =
        b.emissions SIGNAL_LEVEL_CHANGED + (if clamp_level level ≠ b.level then 1 else 0) ∧
      (mce_battery_level_update (mce_battery_level_update b level) level).emissions
          SIGNAL_LEVEL_CHANGED =
        (mce_battery_level_update b level).emissions SIGNAL_LEVEL_CHANGED) ∧
    ((mce_battery_status_update (mce_battery_status_update b status) status).emissions
          SIGNAL_STATUS_CHANGED =
        b.emissions SIGNAL_STATUS_CHANGED +
          (if battery_status_of_wire status ≠ b.status then 1 else 0) ∧
      (mce_battery_status_update (mce_battery_status_update b status) status).emissions
          SIGNAL_STATUS_CHANGED =
        (mce_battery_status_update b status).emissions SIGNAL_STATUS_CHANGED) ∧
    ((mce_charger_state_update (mce_charger_state_update c value) value).emissions
          mce_charger_signal.SIGNAL_STATE_CHANGED =
        c.emissions mce_charger_signal.SIGNAL_STATE_CHANGED +
          (if charger_state_of_wire value ≠ c.state then 1 else 0) ∧
      (mce_charger_state_update (mce_charger_state_update c value) value).emissions
          mce_charger_signal.SIGNAL_STATE_CHANGED =
        (mce_charger_state_update c value).emissions
          mce_charger_signal.SIGNAL_STATE_CHANGED) ∧
    ((mce_inactivity_status_update (mce_inactivity_status_update i flag) flag).emissions
          mce_inactivity_signal.SIGNAL_STATUS_CHANGED =
        i.emissions mce_inactivity_signal.SIGNAL_STATUS_CHANGED +
          (if flag ≠ i.status then 1 else 0) ∧
      (mce_inactivity_status_update (mce_inactivity_status_update i flag) flag).emissions
          mce_inactivity_signal.SIGNAL_STATUS_CHANGED =
        (mce_inactivity_status_update i flag).emissions
          mce_inactivity_signal.SIGNAL_STATUS_CHANGED) := by
  obtain ⟨l1, l2⟩ := level_update_emissions b level
  obtain ⟨l3, -⟩ := level_update_emissions (mce_battery_level_update b level) level
  obtain ⟨s1, s2⟩ := status_update_emissions b status
  obtain ⟨s3, -⟩ := status_update_emissions (mce_battery_status_update b status) status
  obtain ⟨c1, c2⟩ := charger_state_update_emissions c value
  obtain ⟨c3, -⟩ := charger_state_update_emissions (mce_charger_state_update c value) value
  obtain ⟨i1, i2⟩ := inactivity_status_update_emissions i flag
  obtain ⟨i3, -⟩ :=
    inactivity_status_update_emissions (mce_inactivity_status_update i flag) flag
  rw [l2] at l3
  rw [s2] at s3
  rw [c2] at c3
  rw [i2] at i3
  simp only [ne_eq, not_true_eq_false, if_false, Nat.add_zero] at l3 s3 c3 i3
  exact ⟨⟨by rw [l3, l1], l3⟩, ⟨by rw [s3, s1], s3⟩, ⟨by rw [c3, c1], c3⟩,
    ⟨by rw [i3, i1], i3⟩⟩

/-! ## Push and pull of the same value, in either order -/

/-- C10: on the battery freshly constructed for a connected proxy with a
request source, delivering a level by push and then by successful pull
completion gives the same final state (level, status, flags, `valid`, and all
the rest) as the reverse order, and whichever arrives second emits no
notification of any signal; likewise for a status. -/
theorem battery_push_pull_order_independent (fresh : MceBattery) (proxy : MceProxy)
    (world : World mce_battery_signal) (level : Int) (status : String)
    (hp : proxy.valid = true ∧ proxy.request.isSome = true)
    (hf : fresh = mce_battery_new none proxy world) :
    (mce_battery_level_query_done (mce_battery_level_ind level fresh) (some level) =
        mce_battery_level_ind level (mce_battery_level_query_done fresh (some level)) ∧
      (∀ sig,
        (mce_battery_level_query_done (mce_battery_level_ind level fresh)
          (some level)).emissions sig =
          (mce_battery_level_ind level fresh).emissions sig) ∧
      (∀ sig,
        (mce_battery_level_ind level
          (mce_battery_level_query_done fresh (some level))).emissions sig =
          (mce_battery_level_query_done fresh (some level)).emissions sig)) ∧
    (mce_battery_status_query_done (mce_battery_status_ind (some status) fresh)
          (some status) =
        mce_battery_status_ind (some status)
          (mce_battery_status_query_done fresh (some status)) ∧
      (∀ sig,
        (mce_battery_status_query_done (mce_battery_status_ind (some status) fresh)
          (some status)).emissions sig =
          (mce_battery_status_ind (some status) fresh).emissions sig) ∧
      (∀ sig,
        (mce_battery_status_ind (some status)
          (mce_battery_status_query_done fresh (some status))).emissions sig =
          (mce_battery_status_query_done fresh (some status)).emissions sig)) := by
  have h : 1 < fresh.object.ref_count := by
    rw [hf, fresh_ref_count proxy world hp]
    decide
  exact ⟨level_push_pull_shared fresh level h, status_push_pull_shared fresh status h⟩

/-- Witness for C10: level 150 by push and pull on the fresh battery of the
connected sample proxy; both orders end with level 100 cached. -/
theorem battery_push_pull_order_independent_witness :
    (proxy_up.valid = true ∧ proxy_up.request.isSome = true) ∧
    mce_battery_level_query_done
        (mce_battery_level_ind 150 (mce_battery_new none proxy_up ⟨[], 0⟩)) (some 150) =
      mce_battery_level_ind 150
        (mce_battery_level_query_done (mce_battery_new none proxy_up ⟨[], 0⟩) (some 150)) ∧
    (mce_battery_level_ind 150
      (mce_battery_level_query_done (mce_battery_new none proxy_up ⟨[], 0⟩)
        (some 150))).level = 100 :=
  ⟨by decide,
    (battery_push_pull_order_independent (mce_battery_new none proxy_up ⟨[], 0⟩) proxy_up
      ⟨[], 0⟩ 150 "ok" (by decide) rfl).1.1,
    by decide⟩

/-! ## Auxiliary lemmas: reference release of the charger and the inactivity monitor -/

/-- Closed form of `g_object_unref` on a charger. -/
theorem charger_unref_nf (s : MceCharger) :
    s.g_object_unref =
      if s.object.ref_count > 1 then
        { s with object := { ref_count := s.object.ref_count - 1 } }
      else
        { s with
          object := { ref_count := 0 },
          world := { s.world with
            trace := s.world.trace ++
              (if s.priv.charger_state_ind_id ≠ 0
                then [Effect.signal_handler_disconnect s.priv.charger_state_ind_id] else []) ++
              [Effect.proxy_remove_handler s.priv.proxy_valid_id, Effect.proxy_unref] } } := by
  obtain ⟨⟨rc⟩, ⟨proxy, pvid, id⟩, valid, state, ⟨trace, seq⟩⟩ := s
  unfold MceCharger.g_object_unref mce_charger_finalize
  by_cases h0 : rc > 1 <;> by_cases h2 : id = 0 <;> simp [h0, h2, World.log]

/-- Closed form of `g_object_unref` on an inactivity monitor. -/
theorem inactivity_unref_nf (s : MceInactivity) :
    s.g_object_unref =
      if s.object.ref_count > 1 then
        { s with object := { ref_count := s.object.ref_count - 1 } }
      else
        { s with
          object := { ref_count := 0 },
          world := { s.world with
            trace := s.world.trace ++
              (if s.priv.inactivity_status_ind_id ≠ 0
                then [Effect.signal_handler_disconnect s.priv.inactivity_status_ind_id]
                else []) ++
              [Effect.proxy_remove_handler s.priv.proxy_valid_id, Effect.proxy_unref] } } := by
  obtain ⟨⟨rc⟩, ⟨proxy, pvid, id⟩, valid, status, ⟨trace, seq⟩⟩ := s
  unfold MceInactivity.g_object_unref mce_inactivity_finalize
  by_cases h0 : rc > 1 <;> by_cases h2 : id = 0 <;> simp [h0, h2, World.log]

/-- Dropping a battery reference changes nothing observable but the count. -/
theorem unref_only_released (s : MceBattery) : s.only_released s.g_object_unref := by
  obtain ⟨a, b, c, d, e⟩ := unref_fields s
  refine ⟨a, b, c, d, e, ?_, unref_emissions s, ?_⟩
  · rw [unref_nf]
    by_cases h : s.object.ref_count > 1
    · rw [if_pos h]
    · rw [if_neg h]
      show 0 = s.object.ref_count - 1
      omega
  · rw [unref_nf]
    simp only [trace_queries]
    split_ifs <;> simp [List.filter_append]

/-- Dropping a charger reference changes nothing observable but the count. -/
theorem charger_unref_only_released (s : MceCharger) :
    s.only_released s.g_object_unref := by
  rw [charger_unref_nf]
  refine ⟨?_, ?_, ?_, ?_, ?_, ?_⟩
  · split_ifs <;> rfl
  · split_ifs <;> rfl
  · split_ifs <;> rfl
  · by_cases h : s.object.ref_count > 1
    · rw [if_pos h]
    · rw [if_neg h]
      show 0 = s.object.ref_count - 1
      omega
  · intro sig
    simp only [charger_emissions_def]
    split_ifs <;> simp [List.count_append, List.count_cons]
  · simp only [trace_queries]
    split_ifs <;> simp [List.filter_append]

/-- Dropping an inactivity reference changes nothing observable but the
count. -/
theorem inactivity_unref_only_released (s : MceInactivity) :
    s.only_released s.g_object_unref := by
  rw [inactivity_unref_nf]
  refine ⟨?_, ?_, ?_, ?_, ?_, ?_⟩
  · split_ifs <;> rfl
  · split_ifs <;> rfl
  · split_ifs <;> rfl
  · by_cases h : s.object.ref_count > 1
    · rw [if_pos h]
    · rw [if_neg h]
      show 0 = s.object.ref_count - 1
      omega
  · intro sig
    simp only [inactivity_emissions_def]
    split_ifs <;> simp [List.count_append, List.count_cons]
  · simp only [trace_queries]
    split_ifs <;> simp [List.filter_append]

/-! ## Failed pull queries -/

/-- C11: when a pull query completes with failure, `mce_battery_level_query_done`,
`mce_battery_status_query_done`, `mce_charger_state_query_done` and
`mce_inactivity_status_query_done` do nothing but release the reference the
query held: the cached values, the populated flags, the proxy and `valid` are
unchanged, no signal is emitted, no pull query is issued, and the reference
count drops by one; while other references remain, the instance afterwards is
the instance before with the count decremented. -/
theorem pull_query_failure_swallowed (b : MceBattery) (c : MceCharger)
    (i : MceInactivity) :
    (b.only_released (mce_battery_level_query_done b none) ∧
      b.only_released (mce_battery_status_query_done b none) ∧
      c.only_released (mce_charger_state_query_done c none) ∧
      i.only_released (mce_inactivity_status_query_done i none)) ∧
    (mce_battery_level_query_done b none =
        (if 1 < b.object.ref_count then
          { b with object := { ref_count := b.object.ref_count - 1 } }
        else mce_battery_finalize { b with object := { ref_count := 0 } }) ∧
      mce_battery_status_query_done b none =
        (if 1 < b.object.ref_count then
          { b with object := { ref_count := b.object.ref_count - 1 } }
        else mce_battery_finalize { b with object := { ref_count := 0 } }) ∧
      mce_charger_state_query_done c none =
        (if 1 < c.object.ref_count then
          { c with object := { ref_count := c.object.ref_count - 1 } }
        else mce_charger_finalize { c with object := { ref_count := 0 } }) ∧
      mce_inactivity_status_query_done i none =
        (if 1 < i.object.ref_count then
          { i with object := { ref_count := i.object.ref_count - 1 } }
        else mce_inactivity_finalize { i with object := { ref_count := 0 } })) := by
  exact ⟨⟨unref_only_released b, unref_only_released b, charger_unref_only_released c,
    inactivity_unref_only_released i⟩, rfl, rfl, rfl, rfl⟩

/-! ## Readiness evaluation: pull queries -/

/-- The references and the pull queries of one readiness evaluation. -/
theorem query_refs (s : MceBattery) :
    (mce_battery_query s).object.ref_count =
        s.object.ref_count +
          (if (s.priv.proxy.request.isSome && s.priv.proxy.valid) = true then 2 else 0) ∧
      trace_queries (mce_battery_query s).world.trace =
        trace_queries s.world.trace +
          (if (s.priv.proxy.request.isSome && s.priv.proxy.valid) = true then 2 else 0) := by
  rw [query_nf]
  refine ⟨rfl, ?_⟩
  simp only [trace_queries]
  split_ifs <;> simp [List.filter_append]

/-- The validity check takes no reference. -/
theorem check_valid_object (s : MceBattery) :
    (mce_battery_check_valid s).object = s.object ∧
      (mce_battery_check_valid s).world.handler_seq = s.world.handler_seq ∧
      trace_queries (mce_battery_check_valid s).world.trace = trace_queries s.world.trace ∧
      ∀ name, trace_connects (mce_battery_check_valid s).world.trace name =
        trace_connects s.world.trace name := by
  rw [check_valid_nf]
  refine ⟨rfl, rfl, ?_, ?_⟩
  · simp only [trace_queries]
    split_ifs <;> simp [List.filter_append]
  · intro name
    simp only [trace_connects]
    split_ifs <;> simp [List.filter_append]

/-- C12, counterexample to the claim as stated: at creation with a request
source available but the proxy not valid, no pull query is issued and no
reference is taken for one. -/
theorem battery_creation_without_valid_proxy_queries_nothing :
    proxy_down.request.isSome = true ∧
      (mce_battery_new none proxy_down ⟨[], 0⟩).queries "get_battery_level" = 0 ∧
      (mce_battery_new none proxy_down ⟨[], 0⟩).queries "get_battery_status" = 0 ∧
      (mce_battery_new none proxy_down ⟨[], 0⟩).object.ref_count = 1 := by
  decide

/-- C12, amended: every readiness evaluation `mce_battery_query`, at creation
and in every run of the valid-changed handler, issues pull queries exactly when
a request source is available and the proxy is valid: then one
`get_battery_level` and one `get_battery_status` query and nothing else, with
two references taken, one per query; otherwise no query is issued and no
reference is taken. -/
theorem mce_battery_query_issues_queries (self : MceBattery) (proxy : MceProxy)
    (world : World mce_battery_signal) :
    ((mce_battery_query self).queries "get_battery_level" =
        self.queries "get_battery_level" +
          (if (self.priv.proxy.request.isSome && self.priv.proxy.valid) = true
            then 1 else 0) ∧
      (mce_battery_query self).queries "get_battery_status" =
        self.queries "get_battery_status" +
          (if (self.priv.proxy.request.isSome && self.priv.proxy.valid) = true
            then 1 else 0) ∧
      trace_queries (mce_battery_query self).world.trace =
        trace_queries self.world.trace +
          (if (self.priv.proxy.request.isSome && self.priv.proxy.valid) = true
            then 2 else 0) ∧
      (mce_battery_query self).object.ref_count =
        self.object.ref_count +
          (if (self.priv.proxy.request.isSome && self.priv.proxy.valid) = true
            then 2 else 0)) ∧
    (trace_queries (mce_battery_new none proxy world).world.trace =
        trace_queries world.trace +
          (if (proxy.request.isSome && proxy.valid) = true then 2 else 0) ∧
      (mce_battery_new none proxy world).object.ref_count =
        1 + (if (proxy.request.isSome && proxy.valid) = true then 2 else 0)) ∧
    (trace_queries (self.step (BatteryEvent.valid_changed proxy)).world.trace =
        trace_queries self.world.trace +
          (if (proxy.request.isSome && proxy.valid) = true then 2 else 0) ∧
      (self.step (BatteryEvent.valid_changed proxy)).object.ref_count =
        self.object.ref_count +
          (if (proxy.request.isSome && proxy.valid) = true then 2 else 0)) := by
  obtain ⟨q1, q2⟩ := query_queries self
  obtain ⟨r1, r2⟩ := query_refs self
  refine ⟨⟨q1, q2, r2, r1⟩, ⟨?_, ?_⟩, ?_⟩
  · obtain ⟨-, n2⟩ := query_refs (MceBattery.g_object_new proxy world)
    simp only [mce_battery_new, n2]
    simp [MceBattery.g_object_new, mce_battery_init, trace_queries, List.filter_append]
  · obtain ⟨n1, -⟩ := query_refs (MceBattery.g_object_new proxy world)
    simp only [mce_battery_new, n1]
    simp [MceBattery.g_object_new, mce_battery_init]
  · simp only [MceBattery.step, mce_battery_valid_changed]
    cases hv : proxy.valid
    · obtain ⟨c1, -, c3, -⟩ := check_valid_object
        { self.set_proxy proxy with
          priv := { (self.set_proxy proxy).priv with flags := BATTERY_HAVE_NONE } }
      simp only [Bool.false_eq_true, if_false, Bool.and_false, c1, c3, Nat.add_zero]
      exact ⟨rfl, rfl⟩
    · obtain ⟨c1, -, c3, -⟩ := check_valid_object (mce_battery_query (self.set_proxy proxy))
      obtain ⟨n1, n2⟩ := query_refs (self.set_proxy proxy)
      simp only [if_true, c1, c3, n1, n2]
      simp [MceBattery.set_proxy, hv]

/-! ## Auxiliary lemmas: the registry invariant -/

theorem registry_empty_invariant {α ε σ : Type} (k : Kind α ε σ) :
    (Registry.empty : Registry α).invariant k := by
  simp [Registry.invariant, Registry.balanced, Registry.empty]

/-- Storing an updated instance whose reference count matches the bookkeeping
keeps the invariant, whether or not the instance was finalized. -/
theorem registry_settle_invariant {α ε σ : Type} (k : Kind α ε σ) (r : Registry α)
    (inst : α) (holders in_flight : Nat) (hc : r.created = r.freed + 1)
    (hb : k.ref_count inst = holders + in_flight) :
    (r.settle k inst holders in_flight).invariant k := by
  unfold Registry.settle
  by_cases h0 : k.ref_count inst = 0
  · rw [if_pos h0]
    simp only [Registry.invariant, Registry.balanced, Option.isSome_none, Bool.false_eq_true,
      if_false]
    omega
  · rw [if_neg h0]
    simp only [Registry.invariant, Registry.balanced, Option.isSome_some, if_true]
    omega

/-- Every action keeps the registry invariant. -/
theorem registry_step_invariant {α ε σ : Type} (k : Kind α ε σ) (hk : k.Lawful)
    (r : Registry α) (a : RegistryAction ε σ) (h : r.invariant k) :
    (r.step k a).invariant k := by
  obtain ⟨slot, holders, in_flight, created, freed⟩ := r
  cases slot with
  | none =>
    obtain ⟨⟨hh, hf⟩, hc⟩ := h
    simp only [Option.isSome_none, Bool.false_eq_true, if_false, Nat.add_zero] at hc hh hf
    cases a with
    | new proxy world =>
      have hl := hk.create_ref proxy world
      simp only [Registry.step, Registry.invariant, Registry.balanced, Option.isSome_some,
        if_true]
      omega
    | ref => exact ⟨⟨hh, hf⟩, by simpa using hc⟩
    | unref => exact ⟨⟨hh, hf⟩, by simpa using hc⟩
    | dispatch e => exact ⟨⟨hh, hf⟩, by simpa using hc⟩
  | some inst =>
    obtain ⟨⟨hb, hpos⟩, hc⟩ := h
    simp only [Option.isSome_some, if_true] at hc hb hpos
    have hinv : (⟨some inst, holders, in_flight, created, freed⟩ : Registry α).invariant k :=
      ⟨⟨hb, hpos⟩, by simpa using hc⟩
    cases a with
    | new proxy world =>
      have hl := hk.acquire_ref inst
      simp only [Registry.step]
      exact registry_settle_invariant k _ _ _ _ hc (by omega)
    | ref =>
      have hl := hk.ref_ref inst
      simp only [Registry.step]
      by_cases h0 : holders = 0
      · rw [if_pos h0]; exact hinv
      · rw [if_neg h0]
        exact registry_settle_invariant k _ _ _ _ hc (by omega)
    | unref =>
      have hl := hk.unref_ref inst
      simp only [Registry.step]
      by_cases h0 : holders = 0
      · rw [if_pos h0]; exact hinv
      · rw [if_neg h0]
        exact registry_settle_invariant k _ _ _ _ hc (by omega)
    | dispatch e =>
      simp only [Registry.step]
      cases hce : k.completes e
      · have hl := hk.dispatch_ref inst e hce
        simp only [Bool.false_and, Bool.false_eq_true, if_false]
        exact registry_settle_invariant k _ _ _ _ hc (by omega)
      · obtain ⟨hl, hq⟩ := hk.complete_ref inst e hce
        by_cases h0 : in_flight = 0
        · simp only [h0, decide_True, Bool.and_self, if_true]
          rw [h0] at hinv
          exact hinv
        · simp only [h0, decide_False, Bool.and_false, Bool.false_eq_true, if_false, if_true]
          exact registry_settle_invariant k _ _ _ _ hc (by omega)

/-- Every registry reached from an invariant one satisfies the invariant. -/
theorem registry_run_invariant {α ε σ : Type} (k : Kind α ε σ) (hk : k.Lawful)
    (actions : List (RegistryAction ε σ)) :
    ∀ r : Registry α, r.invariant k → (r.run k actions).invariant k := by
  induction actions with
  | nil => intro r h; exact h
  | cons a rest ih =>
    intro r h
    exact ih (r.step k a) (registry_step_invariant k hk r a h)

/-! ## Auxiliary lemmas: closed forms for the charger and the inactivity monitor -/

/-- Closed form of `mce_charger_state_query`. -/
theorem charger_query_nf (s : MceCharger) :
    mce_charger_state_query s =
      { s with
        object := { ref_count := s.object.ref_count +
          (if s.priv.proxy.request.isSome && s.priv.proxy.valid then 1 else 0) },
        priv := { s.priv with
          charger_state_ind_id :=
            if s.priv.proxy.signal.isSome && decide (s.priv.charger_state_ind_id = 0)
              then s.world.handler_seq + 1 else s.priv.charger_state_ind_id },
        world := {
          trace := s.world.trace ++
            (if s.priv.proxy.signal.isSome && decide (s.priv.charger_state_ind_id = 0)
              then [Effect.signal_connect MCE_CHARGER_STATE_SIG (s.world.handler_seq + 1)]
              else []) ++
            (if s.priv.proxy.request.isSome && s.priv.proxy.valid
              then [Effect.request_call "get_charger_state"] else []),
          handler_seq := s.world.handler_seq +
            (if s.priv.proxy.signal.isSome && decide (s.priv.charger_state_ind_id = 0)
              then 1 else 0) } } := by
  obtain ⟨⟨rc⟩, ⟨proxy, pvid, id⟩, valid, state, ⟨trace, seq⟩⟩ := s
  unfold mce_charger_state_query
  by_cases h1 : proxy.signal.isSome = true <;>
    by_cases h2 : id = 0 <;>
    by_cases h4 : (proxy.request.isSome && proxy.valid) = true <;>
    simp [h1, h2, h4, mce_charger_ref, MceCharger.g_object_ref, MceCharger.request_call,
      MceCharger.g_signal_connect, World.log]

/-- Closed form of `mce_inactivity_status_query`. -/
theorem inactivity_query_nf (s : MceInactivity) :
    mce_inactivity_status_query s =
      { s with
        object := { ref_count := s.object.ref_count +
          (if s.priv.proxy.request.isSome && s.priv.proxy.valid then 1 else 0) },
        priv := { s.priv with
          inactivity_status_ind_id :=
            if s.priv.proxy.signal.isSome && decide (s.priv.inactivity_status_ind_id = 0)
              then s.world.handler_seq + 1 else s.priv.inactivity_status_ind_id },
        world := {
          trace := s.world.trace ++
            (if s.priv.proxy.signal.isSome && decide (s.priv.inactivity_status_ind_id = 0)
              then [Effect.signal_connect MCE_INACTIVITY_SIG (s.world.handler_seq + 1)]
              else []) ++
            (if s.priv.proxy.request.isSome && s.priv.proxy.valid
              then [Effect.request_call "get_inactivity_status"] else []),
          handler_seq := s.world.handler_seq +
            (if s.priv.proxy.signal.isSome && decide (s.priv.inactivity_status_ind_id = 0)
              then 1 else 0) } } := by
  obtain ⟨⟨rc⟩, ⟨proxy, pvid, id⟩, valid, status, ⟨trace, seq⟩⟩ := s
  unfold mce_inactivity_status_query
  by_cases h1 : proxy.signal.isSome = true <;>
    by_cases h2 : id = 0 <;>
    by_cases h4 : (proxy.request.isSome && proxy.valid) = true <;>
    simp [h1, h2, h4, mce_inactivity_ref, MceInactivity.g_object_ref,
      MceInactivity.request_call, MceInactivity.g_signal_connect, World.log]

/-- Closed form of `mce_charger_valid_changed` on the proxy it is called for. -/
theorem charger_valid_changed_nf (s : MceCharger) (proxy : MceProxy) :
    mce_charger_valid_changed proxy (s.set_proxy proxy) =
      if proxy.valid then mce_charger_state_query (s.set_proxy proxy)
      else
        { s.set_proxy proxy with
          valid := false,
          world := { s.world with
            trace := s.world.trace ++
              (if s.valid then [Effect.emit mce_charger_signal.SIGNAL_VALID_CHANGED]
                else []) } } := by
  obtain ⟨⟨rc⟩, ⟨px, pvid, id⟩, valid, state, ⟨trace, seq⟩⟩ := s
  unfold mce_charger_valid_changed
  cases hp : proxy.valid <;> cases hv : valid <;>
    simp [hv, MceCharger.set_proxy, MceCharger.g_signal_emit, World.log]

/-- Closed form of `mce_inactivity_valid_changed` on the proxy it is called
for. -/
theorem inactivity_valid_changed_nf (s : MceInactivity) (proxy : MceProxy) :
    mce_inactivity_valid_changed proxy (s.set_proxy proxy) =
      if proxy.valid then mce_inactivity_status_query (s.set_proxy proxy)
      else
        { s.set_proxy proxy with
          valid := false,
          world := { s.world with
            trace := s.world.trace ++
              (if s.valid then [Effect.emit mce_inactivity_signal.SIGNAL_VALID_CHANGED]
                else []) } } := by
  obtain ⟨⟨rc⟩, ⟨px, pvid, id⟩, valid, status, ⟨trace, seq⟩⟩ := s
  unfold mce_inactivity_valid_changed
  cases hp : proxy.valid <;> cases hv : valid <;>
    simp [hv, MceInactivity.set_proxy, MceInactivity.g_signal_emit, World.log]

/-! ## Auxiliary lemmas: references taken and released by each callback -/

/-- A level delivery takes no reference and submits no query. -/
theorem level_update_refs (s : MceBattery) (level : Int) :
    (mce_battery_level_update s level).object = s.object ∧
      trace_queries (mce_battery_level_update s level).world.trace =
        trace_queries s.world.trace := by
  rw [level_update_nf]
  refine ⟨rfl, ?_⟩
  simp only [trace_queries]
  split_ifs <;> simp [List.filter_append]

/-- A status delivery takes no reference and submits no query. -/
theorem status_update_refs (s : MceBattery) (status : Option String) :
    (mce_battery_status_update s status).object = s.object ∧
      trace_queries (mce_battery_status_update s status).world.trace =
        trace_queries s.world.trace := by
  rw [status_update_nf]
  refine ⟨rfl, ?_⟩
  simp only [trace_queries]
  split_ifs <;> simp [List.filter_append]

/-- The valid-changed handler of the battery takes one reference per query it
submits: two when the proxy is valid and has a request source, none
otherwise. -/
theorem step_valid_changed_refs (s : MceBattery) (proxy : MceProxy) :
    (s.step (BatteryEvent.valid_changed proxy)).object.ref_count =
        s.object.ref_count +
          (if (proxy.request.isSome && proxy.valid) = true then 2 else 0) ∧
      trace_queries (s.step (BatteryEvent.valid_changed proxy)).world.trace =
        trace_queries s.world.trace +
          (if (proxy.request.isSome && proxy.valid) = true then 2 else 0) := by
  simp only [MceBattery.step, mce_battery_valid_changed]
  cases hv : proxy.valid
  · obtain ⟨c1, -, c3, -⟩ := check_valid_object
      { s.set_proxy proxy with
        priv := { (s.set_proxy proxy).priv with flags := BATTERY_HAVE_NONE } }
    simp only [Bool.false_eq_true, if_false, Bool.and_false, c1, c3, Nat.add_zero]
    exact ⟨rfl, rfl⟩
  · obtain ⟨c1, -, c3, -⟩ := check_valid_object (mce_battery_query (s.set_proxy proxy))
    obtain ⟨n1, n2⟩ := query_refs (s.set_proxy proxy)
    simp only [if_true, c1, c3, n1, n2]
    simp [MceBattery.set_proxy, hv]

/-- The battery obeys the reference-count laws of the registry. -/
theorem battery_kind_lawful : battery_kind.Lawful where
  create_ref := by
    intro proxy world
    obtain ⟨n1, n2⟩ := query_refs (MceBattery.g_object_new proxy world)
    have hw : trace_queries (MceBattery.g_object_new proxy world).world.trace =
        trace_queries world.trace := by
      simp [MceBattery.g_object_new, mce_battery_init, trace_queries, List.filter_append]
    have hr : (MceBattery.g_object_new proxy world).object.ref_count = 1 := rfl
    simp only [battery_kind, mce_battery_new, n1, n2, hw, hr]
    omega
  acquire_ref := by intro s; rfl
  ref_ref := by intro s; rfl
  unref_ref := by
    intro s
    exact (unref_only_released s).2.2.2.2.2.1
  dispatch_ref := by
    intro s e he
    cases e with
    | level_ind level =>
      obtain ⟨a, b⟩ := level_update_refs s level
      simp only [battery_kind, MceBattery.step, mce_battery_level_ind, a, b]
      omega
    | status_ind status =>
      obtain ⟨a, b⟩ := status_update_refs s status
      simp only [battery_kind, MceBattery.step, mce_battery_status_ind, a, b]
      omega
    | valid_changed proxy =>
      obtain ⟨a, b⟩ := step_valid_changed_refs s proxy
      simp only [battery_kind, a, b]
      omega
    | level_query_done _ => exact Bool.noConfusion he
    | status_query_done _ => exact Bool.noConfusion he
  complete_ref := by
    intro s e he
    cases e with
    | level_query_done result =>
      simp only [battery_kind, MceBattery.step, level_query_done_eq]
      cases result with
      | none =>
        obtain ⟨-, -, -, -, -, r, -, q⟩ := unref_only_released s
        exact ⟨r, q⟩
      | some level =>
        obtain ⟨-, -, -, -, -, r, -, q⟩ :=
          unref_only_released (mce_battery_level_update s level)
        obtain ⟨a, b⟩ := level_update_refs s level
        simp only at r q ⊢
        rw [r, q, a, b]
        exact ⟨rfl, rfl⟩
    | status_query_done result =>
      simp only [battery_kind, MceBattery.step, status_query_done_eq]
      cases result with
      | none =>
        obtain ⟨-, -, -, -, -, r, -, q⟩ := unref_only_released s
        exact ⟨r, q⟩
      | some status =>
        obtain ⟨-, -, -, -, -, r, -, q⟩ :=
          unref_only_released (mce_battery_status_update s (some status))
        obtain ⟨a, b⟩ := status_update_refs s (some status)
        simp only at r q ⊢
        rw [r, q, a, b]
        exact ⟨rfl, rfl⟩
    | level_ind _ => exact Bool.noConfusion he
    | status_ind _ => exact Bool.noConfusion he
    | valid_changed _ => exact Bool.noConfusion he

/-- A charger delivery takes no reference and submits no query. -/
theorem charger_update_refs (s : MceCharger) (value : Option String) :
    (mce_charger_state_update s value).object = s.object ∧
      trace_queries (mce_charger_state_update s value).world.trace = trace_queries s.world.trace := by
  rw [charger_state_update_nf]
  refine ⟨rfl, ?_⟩
  simp only [trace_queries]
  split_ifs <;> simp [List.filter_append]

/-- The readiness evaluation of the charger takes one reference per query it
submits: one when the proxy is valid and has a request source, none
otherwise. -/
theorem charger_query_refs (s : MceCharger) :
    (mce_charger_state_query s).object.ref_count =
        s.object.ref_count +
          (if (s.priv.proxy.request.isSome && s.priv.proxy.valid) = true then 1 else 0) ∧
      trace_queries (mce_charger_state_query s).world.trace =
        trace_queries s.world.trace +
          (if (s.priv.proxy.request.isSome && s.priv.proxy.valid) = true then 1 else 0) := by
  rw [charger_query_nf]
  refine ⟨rfl, ?_⟩
  simp only [trace_queries]
  split_ifs <;> simp [List.filter_append]

/-- The valid-changed handler of the charger takes one reference per query it
submits. -/
theorem charger_valid_changed_refs (s : MceCharger) (proxy : MceProxy) :
    (s.step (ChargerEvent.valid_changed proxy)).object.ref_count =
        s.object.ref_count +
          (if (proxy.request.isSome && proxy.valid) = true then 1 else 0) ∧
      trace_queries (s.step (ChargerEvent.valid_changed proxy)).world.trace =
        trace_queries s.world.trace +
          (if (proxy.request.isSome && proxy.valid) = true then 1 else 0) := by
  simp only [MceCharger.step, charger_valid_changed_nf]
  cases hv : proxy.valid
  · simp only [Bool.false_eq_true, if_false, Bool.and_false, Nat.add_zero]
    refine ⟨rfl, ?_⟩
    simp only [trace_queries]
    split_ifs <;> simp [List.filter_append]
  · obtain ⟨n1, n2⟩ := charger_query_refs (s.set_proxy proxy)
    simp only [if_true, n1, n2]
    simp [MceCharger.set_proxy, hv]

/-- The charger obeys the reference-count laws of the registry. -/
theorem charger_kind_lawful : charger_kind.Lawful where
  create_ref := by
    intro proxy world
    obtain ⟨n1, n2⟩ := charger_query_refs (MceCharger.g_object_new proxy world)
    have hw : trace_queries (MceCharger.g_object_new proxy world).world.trace =
        trace_queries world.trace := by
      simp [MceCharger.g_object_new, mce_charger_init, trace_queries, List.filter_append]
    have hr : (MceCharger.g_object_new proxy world).object.ref_count = 1 := rfl
    simp only [charger_kind, mce_charger_new, n1, n2, hw, hr]
    omega
  acquire_ref := by intro s; rfl
  ref_ref := by intro s; rfl
  unref_ref := by
    intro s
    exact (charger_unref_only_released s).2.2.2.1
  dispatch_ref := by
    intro s e he
    cases e with
    | state_ind v =>
      obtain ⟨a, b⟩ := charger_update_refs s v
      simp only [charger_kind, MceCharger.step, mce_charger_state_ind, a, b]
      omega
    | valid_changed proxy =>
      obtain ⟨a, b⟩ := charger_valid_changed_refs s proxy
      simp only [charger_kind, a, b]
      omega
    | state_query_done _ => exact Bool.noConfusion he
  complete_ref := by
    intro s e he
    cases e with
    | state_query_done result =>
      cases result with
      | none =>
        obtain ⟨-, -, -, r, -, q⟩ := charger_unref_only_released s
        exact ⟨r, q⟩
      | some v =>
        obtain ⟨-, -, -, r, -, q⟩ := charger_unref_only_released (mce_charger_state_update s (some v))
        obtain ⟨a, b⟩ := charger_update_refs s (some v)
        rw [a] at r
        rw [b] at q
        exact ⟨r, q⟩
    | state_ind _ => exact Bool.noConfusion he
    | valid_changed _ => exact Bool.noConfusion he

/-- A inactivity delivery takes no reference and submits no query. -/
theorem inactivity_update_refs (s : MceInactivity) (status : Int) :
    (mce_inactivity_status_update s status).object = s.object ∧
      trace_queries (mce_inactivity_status_update s status).world.trace = trace_queries s.world.trace := by
  rw [inactivity_status_update_nf]
  refine ⟨rfl, ?_⟩
  simp only [trace_queries]
  split_ifs <;> simp [List.filter_append]

/-- The readiness evaluation of the inactivity takes one reference per query it
submits: one when the proxy is valid and has a request source, none
otherwise. -/
theorem inactivity_query_refs (s : MceInactivity) :
    (mce_inactivity_status_query s).object.ref_count =
        s.object.ref_count +
          (if (s.priv.proxy.request.isSome && s.priv.proxy.valid) = true then 1 else 0) ∧
      trace_queries (mce_inactivity_status_query s).world.trace =
        trace_queries s.world.trace +
          (if (s.priv.proxy.request.isSome && s.priv.proxy.valid) = true then 1 else 0) := by
  rw [inactivity_query_nf]
  refine ⟨rfl, ?_⟩
  simp only [trace_queries]
  split_ifs <;> simp [List.filter_append]

/-- The valid-changed handler of the inactivity takes one reference per query it
submits. -/
theorem inactivity_valid_changed_refs (s : MceInactivity) (proxy : MceProxy) :
    (s.step (InactivityEvent.valid_changed proxy)).object.ref_count =
        s.object.ref_count +
          (if (proxy.request.isSome && proxy.valid) = true then 1 else 0) ∧
      trace_queries (s.step (InactivityEvent.valid_changed proxy)).world.trace =
        trace_queries s.world.trace +
          (if (proxy.request.isSome && proxy.valid) = true then 1 else 0) := by
  simp only [MceInactivity.step, inactivity_valid_changed_nf]
  cases hv : proxy.valid
  · simp only [Bool.false_eq_true, if_false, Bool.and_false, Nat.add_zero]
    refine ⟨rfl, ?_⟩
    simp only [trace_queries]
    split_ifs <;> simp [List.filter_append]
  · obtain ⟨n1, n2⟩ := inactivity_query_refs (s.set_proxy proxy)
    simp only [if_true, n1, n2]
    simp [MceInactivity.set_proxy, hv]

/-- The inactivity obeys the reference-count laws of the registry. -/
theorem inactivity_kind_lawful : inactivity_kind.Lawful where
  create_ref := by
    intro proxy world
    obtain ⟨n1, n2⟩ := inactivity_query_refs (MceInactivity.g_object_new proxy world)
    have hw : trace_queries (MceInactivity.g_object_new proxy world).world.trace =
        trace_queries world.trace := by
      simp [MceInactivity.g_object_new, mce_inactivity_init, trace_queries, List.filter_append]
    have hr : (MceInactivity.g_object_new proxy world).object.ref_count = 1 := rfl
    simp only [inactivity_kind, mce_inactivity_new, n1, n2, hw, hr]
    omega
  acquire_ref := by intro s; rfl
  ref_ref := by intro s; rfl
  unref_ref := by
    intro s
    exact (inactivity_unref_only_released s).2.2.2.1
  dispatch_ref := by
    intro s e he
    cases e with
    | status_ind v =>
      obtain ⟨a, b⟩ := inactivity_update_refs s v
      simp only [inactivity_kind, MceInactivity.step, mce_inactivity_status_ind, a, b]
      omega
    | valid_changed proxy =>
      obtain ⟨a, b⟩ := inactivity_valid_changed_refs s proxy
      simp only [inactivity_kind, a, b]
      omega
    | status_query_done _ => exact Bool.noConfusion he
  complete_ref := by
    intro s e he
    cases e with
    | status_query_done result =>
      cases result with
      | none =>
        obtain ⟨-, -, -, r, -, q⟩ := inactivity_unref_only_released s
        exact ⟨r, q⟩
      | some v =>
        obtain ⟨-, -, -, r, -, q⟩ := inactivity_unref_only_released (mce_inactivity_status_update s v)
        obtain ⟨a, b⟩ := inactivity_update_refs s v
        rw [a] at r
        rw [b] at q
        exact ⟨r, q⟩
    | status_ind _ => exact Bool.noConfusion he
    | valid_changed _ => exact Bool.noConfusion he

/-! ## Reference balance of pull queries -/

/-- C13: for the battery, the charger and the inactivity monitor, a readiness
evaluation takes exactly one reference per pull query it submits, and a
completion callback releases exactly one reference, on success and on failure
alike.  Hence in every state reached from program start by constructions,
`ref`/`unref` calls of holders that own a reference, and callbacks, the
reference count of the instance equals the references owned by holders plus
the queries in flight: it is at least the number of queries in flight, it is
positive while the instance is in the slot, and without an instance no query
is in flight. -/
theorem pull_query_reference_balance (b : MceBattery) (c : MceCharger) (i : MceInactivity)
    (level_result inactivity_result : Option Int) (status_result state_result : Option String)
    (battery_actions : List (RegistryAction BatteryEvent mce_battery_signal))
    (charger_actions : List (RegistryAction ChargerEvent mce_charger_signal))
    (inactivity_actions : List (RegistryAction InactivityEvent mce_inactivity_signal)) :
    ((mce_battery_query b).object.ref_count + trace_queries b.world.trace =
        b.object.ref_count + trace_queries (mce_battery_query b).world.trace ∧
      (mce_charger_state_query c).object.ref_count + trace_queries c.world.trace =
        c.object.ref_count + trace_queries (mce_charger_state_query c).world.trace ∧
      (mce_inactivity_status_query i).object.ref_count + trace_queries i.world.trace =
        i.object.ref_count + trace_queries (mce_inactivity_status_query i).world.trace) ∧
    ((mce_battery_level_query_done b level_result).object.ref_count =
        b.object.ref_count - 1 ∧
      (mce_battery_status_query_done b status_result).object.ref_count =
        b.object.ref_count - 1 ∧
      (mce_charger_state_query_done c state_result).object.ref_count =
        c.object.ref_count - 1 ∧
      (mce_inactivity_status_query_done i inactivity_result).object.ref_count =
        i.object.ref_count - 1) ∧
    ((match (Registry.empty.run battery_kind battery_actions).slot with
      | some inst =>
        inst.object.ref_count =
            (Registry.empty.run battery_kind battery_actions).holders +
              (Registry.empty.run battery_kind battery_actions).in_flight ∧
          (Registry.empty.run battery_kind battery_actions).in_flight ≤
            inst.object.ref_count ∧
          0 < inst.object.ref_count
      | none =>
        (Registry.empty.run battery_kind battery_actions).holders = 0 ∧
          (Registry.empty.run battery_kind battery_actions).in_flight = 0) ∧
      (match (Registry.empty.run charger_kind charger_actions).slot with
      | some inst =>
        inst.object.ref_count =
            (Registry.empty.run charger_kind charger_actions).holders +
              (Registry.empty.run charger_kind charger_actions).in_flight ∧
          (Registry.empty.run charger_kind charger_actions).in_flight ≤
            inst.object.ref_count ∧
          0 < inst.object.ref_count
      | none =>
        (Registry.empty.run charger_kind charger_actions).holders = 0 ∧
          (Registry.empty.run charger_kind charger_actions).in_flight = 0) ∧
      (match (Registry.empty.run inactivity_kind inactivity_actions).slot with
      | some inst =>
        inst.object.ref_count =
            (Registry.empty.run inactivity_kind inactivity_actions).holders +
              (Registry.empty.run inactivity_kind inactivity_actions).in_flight ∧
          (Registry.empty.run inactivity_kind inactivity_actions).in_flight ≤
            inst.object.ref_count ∧
          0 < inst.object.ref_count
      | none =>
        (Registry.empty.run inactivity_kind inactivity_actions).holders = 0 ∧
          (Registry.empty.run inactivity_kind inactivity_actions).in_flight = 0)) := by
  refine ⟨⟨?_, ?_, ?_⟩, ⟨?_, ?_, ?_, ?_⟩, ?_, ?_, ?_⟩
  · obtain ⟨a, q⟩ := query_refs b
    rw [a, q]; omega
  · obtain ⟨a, q⟩ := charger_query_refs c
    rw [a, q]; omega
  · obtain ⟨a, q⟩ := inactivity_query_refs i
    rw [a, q]; omega
  · exact (battery_kind_lawful.complete_ref b (BatteryEvent.level_query_done level_result)
      rfl).1
  · exact (battery_kind_lawful.complete_ref b (BatteryEvent.status_query_done status_result)
      rfl).1
  · exact (charger_kind_lawful.complete_ref c (ChargerEvent.state_query_done state_result)
      rfl).1
  · exact (inactivity_kind_lawful.complete_ref i
      (InactivityEvent.status_query_done inactivity_result) rfl).1
  · have h := (registry_run_invariant battery_kind battery_kind_lawful battery_actions
      Registry.empty (registry_empty_invariant battery_kind)).1
    unfold Registry.balanced at h
    cases hs : (Registry.empty.run battery_kind battery_actions).slot with
    | none => rw [hs] at h; exact h
    | some inst =>
      rw [hs] at h
      have h1 : inst.object.ref_count = _ := h.1
      exact ⟨h1, by omega, h.2⟩
  · have h := (registry_run_invariant charger_kind charger_kind_lawful charger_actions
      Registry.empty (registry_empty_invariant charger_kind)).1
    unfold Registry.balanced at h
    cases hs : (Registry.empty.run charger_kind charger_actions).slot with
    | none => rw [hs] at h; exact h
    | some inst =>
      rw [hs] at h
      have h1 : inst.object.ref_count = _ := h.1
      exact ⟨h1, by omega, h.2⟩
  · have h := (registry_run_invariant inactivity_kind inactivity_kind_lawful
      inactivity_actions Registry.empty (registry_empty_invariant inactivity_kind)).1
    unfold Registry.balanced at h
    cases hs : (Registry.empty.run inactivity_kind inactivity_actions).slot with
    | none => rw [hs] at h; exact h
    | some inst =>
      rw [hs] at h
      have h1 : inst.object.ref_count = _ := h.1
      exact ⟨h1, by omega, h.2⟩

/-! ## Auxiliary lemmas: attachment of the push handlers -/

/-- A level delivery attaches nothing and keeps the handler ids. -/
theorem level_update_ids (s : MceBattery) (level : Int) :
    (mce_battery_level_update s level).priv.battery_ind_id_LEVEL =
        s.priv.battery_ind_id_LEVEL ∧
      (mce_battery_level_update s level).priv.battery_ind_id_STATUS =
        s.priv.battery_ind_id_STATUS ∧
      (mce_battery_level_update s level).object = s.object ∧
      ∀ name, trace_connects (mce_battery_level_update s level).world.trace name =
        trace_connects s.world.trace name := by
  rw [level_update_nf]
  refine ⟨rfl, rfl, rfl, ?_⟩
  intro name
  simp only [trace_connects]
  split_ifs <;> simp [List.filter_append]

/-- A status delivery attaches nothing and keeps the handler ids. -/
theorem status_update_ids (s : MceBattery) (status : Option String) :
    (mce_battery_status_update s status).priv.battery_ind_id_LEVEL =
        s.priv.battery_ind_id_LEVEL ∧
      (mce_battery_status_update s status).priv.battery_ind_id_STATUS =
        s.priv.battery_ind_id_STATUS ∧
      (mce_battery_status_update s status).object = s.object ∧
      ∀ name, trace_connects (mce_battery_status_update s status).world.trace name =
        trace_connects s.world.trace name := by
  rw [status_update_nf]
  refine ⟨rfl, rfl, rfl, ?_⟩
  intro name
  simp only [trace_connects]
  split_ifs <;> simp [List.filter_append]

/-- Dropping a reference attaches nothing; while other references remain it
keeps the handler ids, and otherwise the instance is finalized. -/
theorem unref_ids (s : MceBattery) :
    (∀ name, trace_connects s.g_object_unref.world.trace name =
        trace_connects s.world.trace name) ∧
      (if 1 < s.object.ref_count then
        s.g_object_unref.priv.battery_ind_id_LEVEL = s.priv.battery_ind_id_LEVEL ∧
          s.g_object_unref.priv.battery_ind_id_STATUS = s.priv.battery_ind_id_STATUS ∧
          0 < s.g_object_unref.object.ref_count
      else s.g_object_unref.object.ref_count = 0) := by
  rw [unref_nf]
  by_cases h : s.object.ref_count > 1
  · rw [if_pos h, if_pos h]
    refine ⟨fun _ => rfl, rfl, rfl, ?_⟩
    show 0 < s.object.ref_count - 1
    omega
  · rw [if_neg h, if_neg h]
    refine ⟨?_, rfl⟩
    intro name
    simp only [trace_connects]
    split_ifs <;> simp [List.filter_append]

/-- What one readiness evaluation of the battery attaches. -/
theorem query_ids (s : MceBattery) :
    (trace_connects (mce_battery_query s).world.trace "battery-level-ind" =
        trace_connects s.world.trace "battery-level-ind" +
          (if (s.priv.proxy.signal.isSome && decide (s.priv.battery_ind_id_LEVEL = 0)) = true
            then 1 else 0) ∧
      (mce_battery_query s).priv.battery_ind_id_LEVEL =
        (if (s.priv.proxy.signal.isSome && decide (s.priv.battery_ind_id_LEVEL = 0)) = true
          then s.world.handler_seq + 1 else s.priv.battery_ind_id_LEVEL)) ∧
    (trace_connects (mce_battery_query s).world.trace "battery-status-ind" =
        trace_connects s.world.trace "battery-status-ind" +
          (if (s.priv.proxy.signal.isSome && decide (s.priv.battery_ind_id_STATUS = 0)) = true
            then 1 else 0) ∧
      (mce_battery_query s).priv.battery_ind_id_STATUS =
        (if (s.priv.proxy.signal.isSome && decide (s.priv.battery_ind_id_STATUS = 0)) = true
          then s.world.handler_seq + (if s.priv.battery_ind_id_LEVEL = 0 then 2 else 1)
          else s.priv.battery_ind_id_STATUS)) ∧
    s.object.ref_count ≤ (mce_battery_query s).object.ref_count := by
  rw [query_nf]
  refine ⟨⟨?_, rfl⟩, ⟨?_, rfl⟩, ?_⟩
  · simp only [trace_connects]
    split_ifs <;> simp [List.filter_append]
  · simp only [trace_connects]
    split_ifs <;> simp [List.filter_append]
  · show s.object.ref_count ≤ s.object.ref_count + _
    omega

/-- The validity check attaches nothing and keeps the handler ids. -/
theorem check_valid_bounds (s : MceBattery) :
    (mce_battery_check_valid s).level_attach_bound = s.level_attach_bound ∧
      (mce_battery_check_valid s).status_attach_bound = s.status_attach_bound := by
  obtain ⟨a, -, -, d⟩ := check_valid_object s
  have hp : (mce_battery_check_valid s).priv = s.priv := by rw [check_valid_nf]
  simp [MceBattery.level_attach_bound, MceBattery.status_attach_bound, a, d, hp]

/-- A delivery attaches nothing and keeps the handler ids. -/
theorem update_bounds (s : MceBattery) (level : Int) (status : Option String) :
    ((mce_battery_level_update s level).level_attach_bound = s.level_attach_bound ∧
      (mce_battery_level_update s level).status_attach_bound = s.status_attach_bound) ∧
    ((mce_battery_status_update s status).level_attach_bound = s.level_attach_bound ∧
      (mce_battery_status_update s status).status_attach_bound = s.status_attach_bound) := by
  obtain ⟨a, b, c, d⟩ := level_update_ids s level
  obtain ⟨a1, b1, c1, d1⟩ := status_update_ids s status
  simp [MceBattery.level_attach_bound, MceBattery.status_attach_bound, a, b, c, d, a1,
    b1, c1, d1]

/-- Dropping a reference never raises the attachment bounds. -/
theorem unref_bounds (s : MceBattery) :
    s.g_object_unref.level_attach_bound ≤ s.level_attach_bound ∧
      s.g_object_unref.status_attach_bound ≤ s.status_attach_bound := by
  obtain ⟨hc, hi⟩ := unref_ids s
  simp only [MceBattery.level_attach_bound, MceBattery.status_attach_bound, hc]
  by_cases h : 1 < s.object.ref_count
  · rw [if_pos h] at hi
    obtain ⟨i1, i2, i3⟩ := hi
    have h0 : 0 < s.object.ref_count := by omega
    simp only [i1, i2, i3, h0, and_true]
    exact ⟨le_refl _, le_refl _⟩
  · rw [if_neg h] at hi
    simp only [hi, lt_irrefl, and_false, if_false, Nat.add_zero]
    exact ⟨Nat.le_add_right _ _, Nat.le_add_right _ _⟩

/-- A readiness evaluation of a live battery never raises the attachment
bounds: it attaches a handler only when its id is zero, and the id is non-zero
afterwards. -/
theorem query_bounds (s : MceBattery) (h : 0 < s.object.ref_count) :
    (mce_battery_query s).level_attach_bound ≤ s.level_attach_bound ∧
      (mce_battery_query s).status_attach_bound ≤ s.status_attach_bound := by
  obtain ⟨⟨c1, i1⟩, ⟨c2, i2⟩, hr⟩ := query_ids s
  have hr2 : 0 < (mce_battery_query s).object.ref_count := by omega
  simp only [MceBattery.level_attach_bound, MceBattery.status_attach_bound, c1, i1, c2, i2, h,
    hr2, and_true]
  constructor
  · by_cases hs : s.priv.proxy.signal.isSome = true <;>
      by_cases hz : s.priv.battery_ind_id_LEVEL = 0 <;> simp [hs, hz]
  · by_cases hs : s.priv.proxy.signal.isSome = true <;>
      by_cases hz : s.priv.battery_ind_id_STATUS = 0 <;>
      by_cases hl : s.priv.battery_ind_id_LEVEL = 0 <;> simp [hs, hz, hl]

/-- No callback of a live battery raises the attachment bounds. -/
theorem step_bounds (s : MceBattery) (e : BatteryEvent) (h : 0 < s.object.ref_count) :
    (s.step e).level_attach_bound ≤ s.level_attach_bound ∧
      (s.step e).status_attach_bound ≤ s.status_attach_bound := by
  cases e with
  | level_ind level =>
    obtain ⟨⟨a, b⟩, -⟩ := update_bounds s level none
    simp only [MceBattery.step, mce_battery_level_ind, a, b]
    exact ⟨le_refl _, le_refl _⟩
  | status_ind status =>
    obtain ⟨-, a, b⟩ := update_bounds s 0 status
    simp only [MceBattery.step, mce_battery_status_ind, a, b]
    exact ⟨le_refl _, le_refl _⟩
  | level_query_done result =>
    simp only [MceBattery.step, level_query_done_eq]
    cases result with
    | none => exact unref_bounds s
    | some level =>
      obtain ⟨⟨a, b⟩, -⟩ := update_bounds s level none
      obtain ⟨u1, u2⟩ := unref_bounds (mce_battery_level_update s level)
      rw [a] at u1
      rw [b] at u2
      exact ⟨u1, u2⟩
  | status_query_done result =>
    simp only [MceBattery.step, status_query_done_eq]
    cases result with
    | none => exact unref_bounds s
    | some status =>
      obtain ⟨-, a, b⟩ := update_bounds s 0 (some status)
      obtain ⟨u1, u2⟩ := unref_bounds (mce_battery_status_update s (some status))
      rw [a] at u1
      rw [b] at u2
      exact ⟨u1, u2⟩
  | valid_changed proxy =>
    simp only [MceBattery.step, mce_battery_valid_changed]
    cases hv : proxy.valid
    · simp only [Bool.false_eq_true, if_false]
      obtain ⟨a, b⟩ := check_valid_bounds
        { s.set_proxy proxy with
          priv := { (s.set_proxy proxy).priv with flags := BATTERY_HAVE_NONE } }
      rw [a, b]
      exact ⟨le_refl _, le_refl _⟩
    · simp only [if_true]
      obtain ⟨a, b⟩ := check_valid_bounds (mce_battery_query (s.set_proxy proxy))
      obtain ⟨q1, q2⟩ := query_bounds (s.set_proxy proxy) h
      rw [a, b]
      exact ⟨q1, q2⟩

/-- Over the lifetime of a battery the attachment bounds never rise. -/
theorem run_live_bounds (events : List BatteryEvent) :
    ∀ s : MceBattery,
      (s.run_live events).level_attach_bound ≤ s.level_attach_bound ∧
        (s.run_live events).status_attach_bound ≤ s.status_attach_bound := by
  induction events with
  | nil => intro s; exact ⟨le_refl _, le_refl _⟩
  | cons e rest ih =>
    intro s
    have hrun : s.run_live (e :: rest) =
        (if s.object.ref_count = 0 then s else s.step e).run_live rest := rfl
    rw [hrun]
    by_cases h0 : s.object.ref_count = 0
    · rw [if_pos h0]
      exact ih s
    · rw [if_neg h0]
      obtain ⟨a, b⟩ := ih (s.step e)
      obtain ⟨c, d⟩ := step_bounds s e (Nat.pos_of_ne_zero h0)
      exact ⟨le_trans a c, le_trans b d⟩

/-- A charger delivery attaches nothing and keeps the handler id. -/
theorem charger_update_bound (s : MceCharger) (v : Option String) :
    (mce_charger_state_update s v).attach_bound = s.attach_bound := by
  rw [charger_state_update_nf]
  simp only [MceCharger.attach_bound, trace_connects]
  split_ifs <;> simp_all [List.filter_append]

/-- Dropping a charger reference never raises the attachment bound. -/
theorem charger_unref_bound (s : MceCharger) :
    s.g_object_unref.attach_bound ≤ s.attach_bound := by
  rw [charger_unref_nf]
  by_cases h : s.object.ref_count > 1
  · rw [if_pos h]
    have h0 : 0 < s.object.ref_count := by omega
    have h1 : 0 < s.object.ref_count - 1 := by omega
    simp [MceCharger.attach_bound, h0, h1]
  · rw [if_neg h]
    simp only [MceCharger.attach_bound, trace_connects]
    split_ifs <;> simp_all [List.filter_append]

/-- What one readiness evaluation of the charger attaches. -/
theorem charger_query_ids (s : MceCharger) :
    trace_connects (mce_charger_state_query s).world.trace MCE_CHARGER_STATE_SIG =
        trace_connects s.world.trace MCE_CHARGER_STATE_SIG +
          (if (s.priv.proxy.signal.isSome && decide (s.priv.charger_state_ind_id = 0)) = true
            then 1 else 0) ∧
      (mce_charger_state_query s).priv.charger_state_ind_id =
        (if (s.priv.proxy.signal.isSome && decide (s.priv.charger_state_ind_id = 0)) = true
          then s.world.handler_seq + 1 else s.priv.charger_state_ind_id) ∧
      s.object.ref_count ≤ (mce_charger_state_query s).object.ref_count := by
  rw [charger_query_nf]
  refine ⟨?_, rfl, ?_⟩
  · simp only [trace_connects]
    split_ifs <;> simp [List.filter_append, MCE_CHARGER_STATE_SIG]
  · show s.object.ref_count ≤ s.object.ref_count + _
    omega

/-- A readiness evaluation of a live charger never raises the attachment
bound. -/
theorem charger_query_bound (s : MceCharger) (h : 0 < s.object.ref_count) :
    (mce_charger_state_query s).attach_bound ≤ s.attach_bound := by
  obtain ⟨c1, i1, hr⟩ := charger_query_ids s
  have hr2 : 0 < (mce_charger_state_query s).object.ref_count := by omega
  simp only [MceCharger.attach_bound, c1, i1, h, hr2, and_true]
  by_cases hs : s.priv.proxy.signal.isSome = true <;>
    by_cases hz : s.priv.charger_state_ind_id = 0 <;> simp [hs, hz]

/-- No callback of a live charger raises the attachment bound. -/
theorem charger_step_bound (s : MceCharger) (e : ChargerEvent) (h : 0 < s.object.ref_count) :
    (s.step e).attach_bound ≤ s.attach_bound := by
  cases e with
  | state_ind v =>
    simp only [MceCharger.step, mce_charger_state_ind, charger_update_bound]
    exact le_refl _
  | state_query_done result =>
    cases result with
    | none => exact charger_unref_bound s
    | some v =>
      have u := charger_unref_bound (mce_charger_state_update s (some v))
      rw [charger_update_bound] at u
      exact u
  | valid_changed proxy =>
    simp only [MceCharger.step, charger_valid_changed_nf]
    cases hv : proxy.valid
    · simp only [Bool.false_eq_true, if_false]
      simp only [MceCharger.attach_bound, MceCharger.set_proxy, trace_connects]
      split_ifs <;> simp_all [List.filter_append]
    · simp only [if_true]
      exact charger_query_bound (s.set_proxy proxy) h

/-- Over the lifetime of a charger the attachment bound never rises. -/
theorem charger_run_live_bound (events : List ChargerEvent) :
    ∀ s : MceCharger, (s.run_live events).attach_bound ≤ s.attach_bound := by
  induction events with
  | nil => intro s; exact le_refl _
  | cons e rest ih =>
    intro s
    have hrun : s.run_live (e :: rest) =
        (if s.object.ref_count = 0 then s else s.step e).run_live rest := rfl
    rw [hrun]
    by_cases h0 : s.object.ref_count = 0
    · rw [if_pos h0]
      exact ih s
    · rw [if_neg h0]
      exact le_trans (ih (s.step e)) (charger_step_bound s e (Nat.pos_of_ne_zero h0))

/-- A inactivity delivery attaches nothing and keeps the handler id. -/
theorem inactivity_update_bound (s : MceInactivity) (v : Int) :
    (mce_inactivity_status_update s v).attach_bound = s.attach_bound := by
  rw [inactivity_status_update_nf]
  simp only [MceInactivity.attach_bound, trace_connects]
  split_ifs <;> simp_all [List.filter_append]

/-- Dropping a inactivity reference never raises the attachment bound. -/
theorem inactivity_unref_bound (s : MceInactivity) :
    s.g_object_unref.attach_bound ≤ s.attach_bound := by
  rw [inactivity_unref_nf]
  by_cases h : s.object.ref_count > 1
  · rw [if_pos h]
    have h0 : 0 < s.object.ref_count := by omega
    have h1 : 0 < s.object.ref_count - 1 := by omega
    simp [MceInactivity.attach_bound, h0, h1]
  · rw [if_neg h]
    simp only [MceInactivity.attach_bound, trace_connects]
    split_ifs <;> simp_all [List.filter_append]

/-- What one readiness evaluation of the inactivity attaches. -/
theorem inactivity_query_ids (s : MceInactivity) :
    trace_connects (mce_inactivity_status_query s).world.trace MCE_INACTIVITY_SIG =
        trace_connects s.world.trace MCE_INACTIVITY_SIG +
          (if (s.priv.proxy.signal.isSome && decide (s.priv.inactivity_status_ind_id = 0)) = true
            then 1 else 0) ∧
      (mce_inactivity_status_query s).priv.inactivity_status_ind_id =
        (if (s.priv.proxy.signal.isSome && decide (s.priv.inactivity_status_ind_id = 0)) = true
          then s.world.handler_seq + 1 else s.priv.inactivity_status_ind_id) ∧
      s.object.ref_count ≤ (mce_inactivity_status_query s).object.ref_count := by
  rw [inactivity_query_nf]
  refine ⟨?_, rfl, ?_⟩
  · simp only [trace_connects]
    split_ifs <;> simp [List.filter_append, MCE_INACTIVITY_SIG]
  · show s.object.ref_count ≤ s.object.ref_count + _
    omega

/-- A readiness evaluation of a live inactivity never raises the attachment
bound. -/
theorem inactivity_query_bound (s : MceInactivity) (h : 0 < s.object.ref_count) :
    (mce_inactivity_status_query s).attach_bound ≤ s.attach_bound := by
  obtain ⟨c1, i1, hr⟩ := inactivity_query_ids s
  have hr2 : 0 < (mce_inactivity_status_query s).object.ref_count := by omega
  simp only [MceInactivity.attach_bound, c1, i1, h, hr2, and_true]
  by_cases hs : s.priv.proxy.signal.isSome = true <;>
    by_cases hz : s.priv.inactivity_status_ind_id = 0 <;> simp [hs, hz]

/-- No callback of a live inactivity raises the attachment bound. -/
theorem inactivity_step_bound (s : MceInactivity) (e : InactivityEvent) (h : 0 < s.object.ref_count) :
    (s.step e).attach_bound ≤ s.attach_bound := by
  cases e with
  | status_ind v =>
    simp only [MceInactivity.step, mce_inactivity_status_ind, inactivity_update_bound]
    exact le_refl _
  | status_query_done result =>
    cases result with
    | none => exact inactivity_unref_bound s
    | some v =>
      have u := inactivity_unref_bound (mce_inactivity_status_update s v)
      rw [inactivity_update_bound] at u
      exact u
  | valid_changed proxy =>
    simp only [MceInactivity.step, inactivity_valid_changed_nf]
    cases hv : proxy.valid
    · simp only [Bool.false_eq_true, if_false]
      simp only [MceInactivity.attach_bound, MceInactivity.set_proxy, trace_connects]
      split_ifs <;> simp_all [List.filter_append]
    · simp only [if_true]
      exact inactivity_query_bound (s.set_proxy proxy) h

/-- Over the lifetime of a inactivity the attachment bound never rises. -/
theorem inactivity_run_live_bound (events : List InactivityEvent) :
    ∀ s : MceInactivity, (s.run_live events).attach_bound ≤ s.attach_bound := by
  induction events with
  | nil => intro s; exact le_refl _
  | cons e rest ih =>
    intro s
    have hrun : s.run_live (e :: rest) =
        (if s.object.ref_count = 0 then s else s.step e).run_live rest := rfl
    rw [hrun]
    by_cases h0 : s.object.ref_count = 0
    · rw [if_pos h0]
      exact ih s
    · rw [if_neg h0]
      exact le_trans (ih (s.step e)) (inactivity_step_bound s e (Nat.pos_of_ne_zero h0))

/-- The attachment bounds of a freshly constructed battery. -/
theorem fresh_battery_bounds (proxy : MceProxy) (world : World mce_battery_signal) :
    (mce_battery_new none proxy world).level_attach_bound ≤
        trace_connects world.trace "battery-level-ind" + 1 ∧
      (mce_battery_new none proxy world).status_attach_bound ≤
        trace_connects world.trace "battery-status-ind" + 1 := by
  have hr : 0 < (MceBattery.g_object_new proxy world).object.ref_count := by
    show 0 < 1
    omega
  obtain ⟨a, b⟩ := query_bounds (MceBattery.g_object_new proxy world) hr
  have hw : ∀ name, trace_connects (MceBattery.g_object_new proxy world).world.trace name =
      trace_connects world.trace name := by
    intro name
    simp [MceBattery.g_object_new, mce_battery_init, trace_connects, List.filter_append]
  have ha : (MceBattery.g_object_new proxy world).level_attach_bound ≤
      trace_connects world.trace "battery-level-ind" + 1 := by
    simp only [MceBattery.level_attach_bound, hw]
    split_ifs <;> omega
  have hb : (MceBattery.g_object_new proxy world).status_attach_bound ≤
      trace_connects world.trace "battery-status-ind" + 1 := by
    simp only [MceBattery.status_attach_bound, hw]
    split_ifs <;> omega
  exact ⟨le_trans a ha, le_trans b hb⟩

/-- The attachment bound of a freshly constructed charger. -/
theorem fresh_charger_bound (proxy : MceProxy) (world : World mce_charger_signal) :
    (mce_charger_new none proxy world).attach_bound ≤
      trace_connects world.trace MCE_CHARGER_STATE_SIG + 1 := by
  have hr : 0 < (MceCharger.g_object_new proxy world).object.ref_count := by
    show 0 < 1
    omega
  have a := charger_query_bound (MceCharger.g_object_new proxy world) hr
  have hw : trace_connects (MceCharger.g_object_new proxy world).world.trace
      MCE_CHARGER_STATE_SIG = trace_connects world.trace MCE_CHARGER_STATE_SIG := by
    simp [MceCharger.g_object_new, mce_charger_init, trace_connects, List.filter_append]
  have ha : (MceCharger.g_object_new proxy world).attach_bound ≤
      trace_connects world.trace MCE_CHARGER_STATE_SIG + 1 := by
    simp only [MceCharger.attach_bound, hw]
    split_ifs <;> omega
  exact le_trans a ha

/-- The attachment bound of a freshly constructed inactivity monitor. -/
theorem fresh_inactivity_bound (proxy : MceProxy) (world : World mce_inactivity_signal) :
    (mce_inactivity_new none proxy world).attach_bound ≤
      trace_connects world.trace MCE_INACTIVITY_SIG + 1 := by
  have hr : 0 < (MceInactivity.g_object_new proxy world).object.ref_count := by
    show 0 < 1
    omega
  have a := inactivity_query_bound (MceInactivity.g_object_new proxy world) hr
  have hw : trace_connects (MceInactivity.g_object_new proxy world).world.trace
      MCE_INACTIVITY_SIG = trace_connects world.trace MCE_INACTIVITY_SIG := by
    simp [MceInactivity.g_object_new, mce_inactivity_init, trace_connects,
      List.filter_append]
  have ha : (MceInactivity.g_object_new proxy world).attach_bound ≤
      trace_connects world.trace MCE_INACTIVITY_SIG + 1 := by
    simp only [MceInactivity.attach_bound, hw]
    split_ifs <;> omega
  exact le_trans a ha

/-! ## Readiness evaluation: push handlers -/

/-- C14: a readiness evaluation (`mce_battery_query`, `mce_charger_state_query`,
`mce_inactivity_status_query`) attaches a push handler exactly when the
notification source is present and the handler id is zero, and then records a
non-zero id; with a non-zero id it attaches nothing, and without a notification
source it attaches nothing and leaves the id as it is.  Hence over the lifetime
of an instance, from its construction through any callbacks, each of the four
push handlers is attached at most once. -/
theorem push_handlers_attached_at_most_once (b : MceBattery) (c : MceCharger)
    (i : MceInactivity) (proxy : MceProxy) (wb : World mce_battery_signal)
    (wc : World mce_charger_signal) (wi : World mce_inactivity_signal)
    (eb : List BatteryEvent) (ec : List ChargerEvent) (ei : List InactivityEvent) :
    ((trace_connects (mce_battery_query b).world.trace "battery-level-ind" =
          trace_connects b.world.trace "battery-level-ind" +
            (if (b.priv.proxy.signal.isSome && decide (b.priv.battery_ind_id_LEVEL = 0)) = true
              then 1 else 0) ∧
        (mce_battery_query b).priv.battery_ind_id_LEVEL =
          (if (b.priv.proxy.signal.isSome && decide (b.priv.battery_ind_id_LEVEL = 0)) = true
            then b.world.handler_seq + 1 else b.priv.battery_ind_id_LEVEL)) ∧
      (trace_connects (mce_battery_query b).world.trace "battery-status-ind" =
          trace_connects b.world.trace "battery-status-ind" +
            (if (b.priv.proxy.signal.isSome && decide (b.priv.battery_ind_id_STATUS = 0)) = true
              then 1 else 0) ∧
        (mce_battery_query b).priv.battery_ind_id_STATUS =
          (if (b.priv.proxy.signal.isSome && decide (b.priv.battery_ind_id_STATUS = 0)) = true
            then b.world.handler_seq + (if b.priv.battery_ind_id_LEVEL = 0 then 2 else 1)
            else b.priv.battery_ind_id_STATUS)) ∧
      (trace_connects (mce_charger_state_query c).world.trace MCE_CHARGER_STATE_SIG =
          trace_connects c.world.trace MCE_CHARGER_STATE_SIG +
            (if (c.priv.proxy.signal.isSome && decide (c.priv.charger_state_ind_id = 0)) = true
              then 1 else 0) ∧
        (mce_charger_state_query c).priv.charger_state_ind_id =
          (if (c.priv.proxy.signal.isSome && decide (c.priv.charger_state_ind_id = 0)) = true
            then c.world.handler_seq + 1 else c.priv.charger_state_ind_id)) ∧
      (trace_connects (mce_inactivity_status_query i).world.trace MCE_INACTIVITY_SIG =
          trace_connects i.world.trace MCE_INACTIVITY_SIG +
            (if (i.priv.proxy.signal.isSome &&
                decide (i.priv.inactivity_status_ind_id = 0)) = true then 1 else 0) ∧
        (mce_inactivity_status_query i).priv.inactivity_status_ind_id =
          (if (i.priv.proxy.signal.isSome &&
              decide (i.priv.inactivity_status_ind_id = 0)) = true
            then i.world.handler_seq + 1 else i.priv.inactivity_status_ind_id))) ∧
    (trace_connects (b.run_live eb).world.trace "battery-level-ind" ≤
        trace_connects b.world.trace "battery-level-ind" +
          (if b.priv.battery_ind_id_LEVEL = 0 then 1 else 0) ∧
      trace_connects (b.run_live eb).world.trace "battery-status-ind" ≤
        trace_connects b.world.trace "battery-status-ind" +
          (if b.priv.battery_ind_id_STATUS = 0 then 1 else 0) ∧
      trace_connects (c.run_live ec).world.trace MCE_CHARGER_STATE_SIG ≤
        trace_connects c.world.trace MCE_CHARGER_STATE_SIG +
          (if c.priv.charger_state_ind_id = 0 then 1 else 0) ∧
      trace_connects (i.run_live ei).world.trace MCE_INACTIVITY_SIG ≤
        trace_connects i.world.trace MCE_INACTIVITY_SIG +
          (if i.priv.inactivity_status_ind_id = 0 then 1 else 0)) ∧
    (trace_connects ((mce_battery_new none proxy wb).run_live eb).world.trace
          "battery-level-ind" ≤ trace_connects wb.trace "battery-level-ind" + 1 ∧
      trace_connects ((mce_battery_new none proxy wb).run_live eb).world.trace
          "battery-status-ind" ≤ trace_connects wb.trace "battery-status-ind" + 1 ∧
      trace_connects ((mce_charger_new none proxy wc).run_live ec).world.trace
          MCE_CHARGER_STATE_SIG ≤ trace_connects wc.trace MCE_CHARGER_STATE_SIG + 1 ∧
      trace_connects ((mce_inactivity_new none proxy wi).run_live ei).world.trace
          MCE_INACTIVITY_SIG ≤ trace_connects wi.trace MCE_INACTIVITY_SIG + 1) := by
  obtain ⟨q1, q2, -⟩ := query_ids b
  obtain ⟨c1, c2, -⟩ := charger_query_ids c
  obtain ⟨i1, i2, -⟩ := inactivity_query_ids i
  obtain ⟨r1, r2⟩ := run_live_bounds eb b
  have r3 := charger_run_live_bound ec c
  have r4 := inactivity_run_live_bound ei i
  obtain ⟨f1, f2⟩ := run_live_bounds eb (mce_battery_new none proxy wb)
  have f3 := charger_run_live_bound ec (mce_charger_new none proxy wc)
  have f4 := inactivity_run_live_bound ei (mce_inactivity_new none proxy wi)
  obtain ⟨g1, g2⟩ := fresh_battery_bounds proxy wb
  have g3 := fresh_charger_bound proxy wc
  have g4 := fresh_inactivity_bound proxy wi
  refine ⟨⟨q1, q2, ⟨c1, c2⟩, i1, i2⟩, ⟨?_, ?_, ?_, ?_⟩, ?_, ?_, ?_, ?_⟩
  · simp only [MceBattery.level_attach_bound] at r1
    split_ifs at r1 ⊢ <;> omega
  · simp only [MceBattery.status_attach_bound] at r2
    split_ifs at r2 ⊢ <;> omega
  · simp only [MceCharger.attach_bound] at r3
    split_ifs at r3 ⊢ <;> omega
  · simp only [MceInactivity.attach_bound] at r4
    split_ifs at r4 ⊢ <;> omega
  · have h := le_trans f1 g1
    simp only [MceBattery.level_attach_bound] at h
    omega
  · have h := le_trans f2 g2
    simp only [MceBattery.status_attach_bound] at h
    omega
  · have h := le_trans f3 g3
    simp only [MceCharger.attach_bound] at h
    omega
  · have h := le_trans f4 g4
    simp only [MceInactivity.attach_bound] at h
    omega

/-! ## Connection loss: subscriptions -/

/-- C15, counterexample to the claim as stated: after the valid-changed handler
has run for a proxy that is not valid, the populated sample battery still
records its two push handlers (ids 2 and 3, not the unsubscribed value 0), and
so do the sample charger and the sample inactivity monitor (id 2). -/
theorem disconnect_keeps_sample_subscriptions :
    ((battery_populated.step (BatteryEvent.valid_changed proxy_down)).priv.battery_ind_id_LEVEL
          = 2 ∧
        (battery_populated.step
          (BatteryEvent.valid_changed proxy_down)).priv.battery_ind_id_STATUS = 3 ∧
        (battery_populated.step (BatteryEvent.valid_changed proxy_down)).priv.flags =
          BATTERY_HAVE_NONE) ∧
      (charger_initial.step (ChargerEvent.valid_changed proxy_down)).priv.charger_state_ind_id
        = 2 ∧
      (inactivity_initial.step
        (InactivityEvent.valid_changed proxy_down)).priv.inactivity_status_ind_id = 2 := by
  decide

/-- C15, amended: when the valid-changed handler runs for a proxy that is not
valid, the battery clears its populated flags and all three monitors end with
`valid` false, but the recorded push-handler ids (`battery_ind_id[]`,
`charger_state_ind_id`, `inactivity_status_ind_id`) are left as they are, and
no handler is disconnected: the only effect is the valid-changed emission when
`valid` was true. -/
theorem disconnect_keeps_subscriptions (b : MceBattery) (c : MceCharger)
    (i : MceInactivity) (signal : Option ComNokiaMceSignal)
    (request : Option ComNokiaMceRequest) :
    ((b.step (BatteryEvent.valid_changed
          { valid := false, signal := signal, request := request })).priv.battery_ind_id_LEVEL
          = b.priv.battery_ind_id_LEVEL ∧
        (b.step (BatteryEvent.valid_changed
          { valid := false, signal := signal, request := request })).priv.battery_ind_id_STATUS
          = b.priv.battery_ind_id_STATUS ∧
        (b.step (BatteryEvent.valid_changed
          { valid := false, signal := signal, request := request })).priv.flags =
          BATTERY_HAVE_NONE ∧
        (b.step (BatteryEvent.valid_changed
          { valid := false, signal := signal, request := request })).valid = false ∧
        (b.step (BatteryEvent.valid_changed
          { valid := false, signal := signal, request := request })).world.trace =
          b.world.trace ++
            (if b.valid = true then [Effect.emit SIGNAL_VALID_CHANGED] else [])) ∧
      ((c.step (ChargerEvent.valid_changed
          { valid := false, signal := signal, request := request })).priv.charger_state_ind_id
          = c.priv.charger_state_ind_id ∧
        (c.step (ChargerEvent.valid_changed
          { valid := false, signal := signal, request := request })).valid = false ∧
        (c.step (ChargerEvent.valid_changed
          { valid := false, signal := signal, request := request })).world.trace =
          c.world.trace ++
            (if c.valid = true then [Effect.emit mce_charger_signal.SIGNAL_VALID_CHANGED]
              else [])) ∧
      ((i.step (InactivityEvent.valid_changed
          { valid := false, signal := signal,
            request := request })).priv.inactivity_status_ind_id =
          i.priv.inactivity_status_ind_id ∧
        (i.step (InactivityEvent.valid_changed
          { valid := false, signal := signal, request := request })).valid = false ∧
        (i.step (InactivityEvent.valid_changed
          { valid := false, signal := signal, request := request })).world.trace =
          i.world.trace ++
            (if i.valid = true then [Effect.emit mce_inactivity_signal.SIGNAL_VALID_CHANGED]
              else [])) := by
  refine ⟨?_, ?_, ?_⟩
  · simp only [MceBattery.step, mce_battery_valid_changed, Bool.false_eq_true, if_false]
    rw [check_valid_nf]
    cases hv : b.valid <;> simp [MceBattery.derived_valid, MceBattery.set_proxy, hv]
  · simp only [MceCharger.step]
    rw [charger_valid_changed_nf]
    simp [MceCharger.set_proxy]
  · simp only [MceInactivity.step]
    rw [inactivity_valid_changed_nf]
    simp [MceInactivity.set_proxy]

/-! ## Auxiliary lemmas: construction through the registry -/

/-- In every registry reached from program start, an instance is live exactly
when the slot is occupied. -/
theorem registry_live {α ε σ : Type} (k : Kind α ε σ) (hk : k.Lawful)
    (actions : List (RegistryAction ε σ)) :
    (Registry.empty.run k actions).live =
      (if (Registry.empty.run k actions).slot.isSome then 1 else 0) := by
  have h := (registry_run_invariant k hk actions Registry.empty
    (registry_empty_invariant k)).2
  unfold Registry.live
  rw [h]
  omega

/-- What `new` leaves in the slot: the existing instance as `acquire` returns
it, or the instance `create` constructs. -/
theorem registry_new_slot {α ε σ : Type} (k : Kind α ε σ) (hk : k.Lawful)
    (r : Registry α) (proxy : MceProxy) (world : World σ) :
    (r.step k (RegistryAction.new proxy world)).slot =
        some (match r.slot with
          | some inst => k.acquire inst
          | none => k.create proxy world) ∧
      (r.step k (RegistryAction.new proxy world)).created =
        r.created + (if r.slot.isSome then 0 else 1) := by
  obtain ⟨slot, holders, in_flight, created, freed⟩ := r
  cases slot with
  | none => exact ⟨rfl, rfl⟩
  | some inst =>
    have h := hk.acquire_ref inst
    have h0 : ¬ k.ref_count (k.acquire inst) = 0 := by omega
    simp [Registry.step, Registry.settle, h0]

/-! ## The shared-instance registry -/

/-- C16: `mce_battery_new`, `mce_charger_new` and `mce_inactivity_new` return
the instance in the slot unchanged but for one more reference when the slot is
occupied, and otherwise construct an instance, which the slot then holds.
Hence, in every registry reached from program start, the number of instances
constructed and not yet finalized is one when the slot is occupied and zero
otherwise, so at most one; and a construction that follows another returns
the instance of the first with one more reference and constructs nothing. -/
theorem shared_instance_registry (b : MceBattery) (c : MceCharger) (i : MceInactivity)
    (proxy proxy2 : MceProxy) (wb wb2 : World mce_battery_signal)
    (wc wc2 : World mce_charger_signal) (wi wi2 : World mce_inactivity_signal)
    (ab : List (RegistryAction BatteryEvent mce_battery_signal))
    (ac : List (RegistryAction ChargerEvent mce_charger_signal))
    (ai : List (RegistryAction InactivityEvent mce_inactivity_signal)) :
    (mce_battery_new (some b) proxy wb =
        { b with object := { ref_count := b.object.ref_count + 1 } } ∧
      mce_charger_new (some c) proxy wc =
        { c with object := { ref_count := c.object.ref_count + 1 } } ∧
      mce_inactivity_new (some i) proxy wi =
        { i with object := { ref_count := i.object.ref_count + 1 } }) ∧
    (mce_battery_new none proxy wb = mce_battery_query (MceBattery.g_object_new proxy wb) ∧
      mce_charger_new none proxy wc =
        mce_charger_state_query (MceCharger.g_object_new proxy wc) ∧
      mce_inactivity_new none proxy wi =
        mce_inactivity_status_query (MceInactivity.g_object_new proxy wi)) ∧
    (((Registry.empty.run battery_kind ab).step battery_kind
          (RegistryAction.new proxy wb)).slot =
        some (mce_battery_new (Registry.empty.run battery_kind ab).slot proxy wb) ∧
      ((Registry.empty.run charger_kind ac).step charger_kind
          (RegistryAction.new proxy wc)).slot =
        some (mce_charger_new (Registry.empty.run charger_kind ac).slot proxy wc) ∧
      ((Registry.empty.run inactivity_kind ai).step inactivity_kind
          (RegistryAction.new proxy wi)).slot =
        some (mce_inactivity_new (Registry.empty.run inactivity_kind ai).slot proxy wi)) ∧
    (((Registry.empty.run battery_kind ab).live =
          (if (Registry.empty.run battery_kind ab).slot.isSome then 1 else 0) ∧
        (Registry.empty.run battery_kind ab).live ≤ 1) ∧
      ((Registry.empty.run charger_kind ac).live =
          (if (Registry.empty.run charger_kind ac).slot.isSome then 1 else 0) ∧
        (Registry.empty.run charger_kind ac).live ≤ 1) ∧
      ((Registry.empty.run inactivity_kind ai).live =
          (if (Registry.empty.run inactivity_kind ai).slot.isSome then 1 else 0) ∧
        (Registry.empty.run inactivity_kind ai).live ≤ 1)) ∧
    (((((Registry.empty.run battery_kind ab).step battery_kind
            (RegistryAction.new proxy wb)).step battery_kind
            (RegistryAction.new proxy2 wb2)).slot =
          (((Registry.empty.run battery_kind ab).step battery_kind
            (RegistryAction.new proxy wb)).slot).map
              (fun inst => { inst with object := { ref_count := inst.object.ref_count + 1 } }) ∧
        (((Registry.empty.run battery_kind ab).step battery_kind
            (RegistryAction.new proxy wb)).step battery_kind
            (RegistryAction.new proxy2 wb2)).created =
          ((Registry.empty.run battery_kind ab).step battery_kind
            (RegistryAction.new proxy wb)).created) ∧
      ((((Registry.empty.run charger_kind ac).step charger_kind
            (RegistryAction.new proxy wc)).step charger_kind
            (RegistryAction.new proxy2 wc2)).slot =
          (((Registry.empty.run charger_kind ac).step charger_kind
            (RegistryAction.new proxy wc)).slot).map
              (fun inst => { inst with object := { ref_count := inst.object.ref_count + 1 } }) ∧
        (((Registry.empty.run charger_kind ac).step charger_kind
            (RegistryAction.new proxy wc)).step charger_kind
            (RegistryAction.new proxy2 wc2)).created =
          ((Registry.empty.run charger_kind ac).step charger_kind
            (RegistryAction.new proxy wc)).created) ∧
      ((((Registry.empty.run inactivity_kind ai).step inactivity_kind
            (RegistryAction.new proxy wi)).step inactivity_kind
            (RegistryAction.new proxy2 wi2)).slot =
          (((Registry.empty.run inactivity_kind ai).step inactivity_kind
            (RegistryAction.new proxy wi)).slot).map
              (fun inst => { inst with object := { ref_count := inst.object.ref_count + 1 } }) ∧
        (((Registry.empty.run inactivity_kind ai).step inactivity_kind
            (RegistryAction.new proxy wi)).step inactivity_kind
            (RegistryAction.new proxy2 wi2)).created =
          ((Registry.empty.run inactivity_kind ai).step inactivity_kind
            (RegistryAction.new proxy wi)).created)) := by
  refine ⟨⟨rfl, rfl, rfl⟩, ⟨rfl, rfl, rfl⟩, ⟨?_, ?_, ?_⟩, ⟨⟨?_, ?_⟩, ⟨?_, ?_⟩, ?_, ?_⟩,
    ⟨?_, ?_⟩, ⟨?_, ?_⟩, ?_, ?_⟩
  · rw [(registry_new_slot battery_kind battery_kind_lawful _ proxy wb).1]
    cases (Registry.empty.run battery_kind ab).slot <;> rfl
  · rw [(registry_new_slot charger_kind charger_kind_lawful _ proxy wc).1]
    cases (Registry.empty.run charger_kind ac).slot <;> rfl
  · rw [(registry_new_slot inactivity_kind inactivity_kind_lawful _ proxy wi).1]
    cases (Registry.empty.run inactivity_kind ai).slot <;> rfl
  · exact registry_live battery_kind battery_kind_lawful ab
  · rw [registry_live battery_kind battery_kind_lawful ab]
    split_ifs <;> omega
  · exact registry_live charger_kind charger_kind_lawful ac
  · rw [registry_live charger_kind charger_kind_lawful ac]
    split_ifs <;> omega
  · exact registry_live inactivity_kind inactivity_kind_lawful ai
  · rw [registry_live inactivity_kind inactivity_kind_lawful ai]
    split_ifs <;> omega
  · rw [(registry_new_slot battery_kind battery_kind_lawful _ proxy2 wb2).1,
      (registry_new_slot battery_kind battery_kind_lawful _ proxy wb).1]
    rfl
  · rw [(registry_new_slot battery_kind battery_kind_lawful _ proxy2 wb2).2,
      (registry_new_slot battery_kind battery_kind_lawful _ proxy wb).1]
    rfl
  · rw [(registry_new_slot charger_kind charger_kind_lawful _ proxy2 wc2).1,
      (registry_new_slot charger_kind charger_kind_lawful _ proxy wc).1]
    rfl
  · rw [(registry_new_slot charger_kind charger_kind_lawful _ proxy2 wc2).2,
      (registry_new_slot charger_kind charger_kind_lawful _ proxy wc).1]
    rfl
  · rw [(registry_new_slot inactivity_kind inactivity_kind_lawful _ proxy2 wi2).1,
      (registry_new_slot inactivity_kind inactivity_kind_lawful _ proxy wi).1]
    rfl
  · rw [(registry_new_slot inactivity_kind inactivity_kind_lawful _ proxy2 wi2).2,
      (registry_new_slot inactivity_kind inactivity_kind_lawful _ proxy wi).1]
    rfl

/-- Closed form of the battery that `mce_battery_new` constructs. -/
theorem fresh_battery_nf (proxy : MceProxy) (world : World mce_battery_signal) :
    mce_battery_new none proxy world =
      { object := { ref_count := 1 +
          (if proxy.request.isSome && proxy.valid then 2 else 0) },
        priv := {
          proxy := proxy,
          flags := BATTERY_HAVE_NONE,
          proxy_valid_id := world.handler_seq + 1,
          battery_ind_id_LEVEL := if proxy.signal.isSome then world.handler_seq + 2 else 0,
          battery_ind_id_STATUS := if proxy.signal.isSome then world.handler_seq + 3 else 0 },
        valid := false,
        level := 0,
        status := MCE_BATTERY_UNKNOWN,
        world := {
          trace := world.trace ++ [Effect.proxy_add_handler (world.handler_seq + 1)] ++
            (if proxy.signal.isSome
              then [Effect.signal_connect "battery-level-ind" (world.handler_seq + 2),
                    Effect.signal_connect "battery-status-ind" (world.handler_seq + 3)]
              else []) ++
            (if proxy.request.isSome && proxy.valid
              then [Effect.request_call "get_battery_level",
                    Effect.request_call "get_battery_status"]
              else []),
          handler_seq := world.handler_seq + 1 + (if proxy.signal.isSome then 2 else 0) } } := by
  simp only [mce_battery_new]
  rw [query_nf]
  cases hs : proxy.signal.isSome <;>
    cases hq : (proxy.request.isSome && proxy.valid) <;>
    simp [MceBattery.g_object_new, mce_battery_init, hs, hq, BATTERY_HAVE_NONE]

/-! ## Recycling of the shared instance -/

/-- C17: in a registry reached from program start in which every reference to
the battery has been released, those of holders and those of pull queries in
flight, the slot is empty; the next `mce_battery_new` constructs an instance
and stores it; that instance is unpopulated: `valid` false, level 0, status
`MCE_BATTERY_UNKNOWN`, no populated flag; and its push-handler ids are zero or
ids that glib hands out during this construction, none from before. -/
theorem battery_recycled_after_last_release
    (actions : List (RegistryAction BatteryEvent mce_battery_signal))
    (proxy : MceProxy) (world : World mce_battery_signal)
    (h : (Registry.empty.run battery_kind actions).holders = 0 ∧
      (Registry.empty.run battery_kind actions).in_flight = 0) :
    (Registry.empty.run battery_kind actions).slot = none ∧
      (Registry.empty.run battery_kind actions).live = 0 ∧
      ((Registry.empty.run battery_kind actions).step battery_kind
          (RegistryAction.new proxy world)).slot = some (mce_battery_new none proxy world) ∧
      ((Registry.empty.run battery_kind actions).step battery_kind
          (RegistryAction.new proxy world)).created =
        (Registry.empty.run battery_kind actions).created + 1 ∧
      (mce_battery_new none proxy world).valid = false ∧
      (mce_battery_new none proxy world).level = 0 ∧
      (mce_battery_new none proxy world).status = MCE_BATTERY_UNKNOWN ∧
      (mce_battery_new none proxy world).priv.flags = BATTERY_HAVE_NONE ∧
      (mce_battery_new none proxy world).have_level = false ∧
      (mce_battery_new none proxy world).have_status = false ∧
      (mce_battery_new none proxy world).priv.battery_ind_id_LEVEL =
        (if proxy.signal.isSome then world.handler_seq + 2 else 0) ∧
      (mce_battery_new none proxy world).priv.battery_ind_id_STATUS =
        (if proxy.signal.isSome then world.handler_seq + 3 else 0) := by
  have hinv := registry_run_invariant battery_kind battery_kind_lawful actions
    Registry.empty (registry_empty_invariant battery_kind)
  have hslot : (Registry.empty.run battery_kind actions).slot = none := by
    have hb := hinv.1
    unfold Registry.balanced at hb
    cases hs : (Registry.empty.run battery_kind actions).slot with
    | none => rfl
    | some inst =>
      rw [hs] at hb
      omega
  obtain ⟨n1, n2⟩ := registry_new_slot battery_kind battery_kind_lawful
    (Registry.empty.run battery_kind actions) proxy world
  rw [hslot] at n1 n2
  have hlive := registry_live battery_kind battery_kind_lawful actions
  rw [hslot] at hlive
  have hl : flag_set BATTERY_HAVE_NONE BATTERY_HAVE_LEVEL = false := by decide
  have hst : flag_set BATTERY_HAVE_NONE BATTERY_HAVE_STATUS = false := by decide
  refine ⟨hslot, hlive, n1, n2, ?_, ?_, ?_, ?_, ?_, ?_, ?_, ?_⟩
  · rw [fresh_battery_nf]
  · rw [fresh_battery_nf]
  · rw [fresh_battery_nf]
  · rw [fresh_battery_nf]
  · rw [fresh_battery_nf]; exact hl
  · rw [fresh_battery_nf]; exact hst
  · rw [fresh_battery_nf]
  · rw [fresh_battery_nf]

/-- Witness for C17: a battery is constructed for the connected sample proxy,
its two pull queries complete, and its only holder releases it; the registry
has then finalized one instance and holds none. -/
theorem battery_recycled_after_last_release_witness :
    ((Registry.empty.run battery_kind
        [RegistryAction.new proxy_up ⟨[], 0⟩,
          RegistryAction.dispatch (BatteryEvent.level_query_done (some 50)),
          RegistryAction.dispatch (BatteryEvent.status_query_done none),
          RegistryAction.unref]).holders = 0 ∧
      (Registry.empty.run battery_kind
        [RegistryAction.new proxy_up ⟨[], 0⟩,
          RegistryAction.dispatch (BatteryEvent.level_query_done (some 50)),
          RegistryAction.dispatch (BatteryEvent.status_query_done none),
          RegistryAction.unref]).in_flight = 0) ∧
    (Registry.empty.run battery_kind
        [RegistryAction.new proxy_up ⟨[], 0⟩,
          RegistryAction.dispatch (BatteryEvent.level_query_done (some 50)),
          RegistryAction.dispatch (BatteryEvent.status_query_done none),
          RegistryAction.unref]).freed = 1 ∧
    (Registry.empty.run battery_kind
        [RegistryAction.new proxy_up ⟨[], 0⟩,
          RegistryAction.dispatch (BatteryEvent.level_query_done (some 50)),
          RegistryAction.dispatch (BatteryEvent.status_query_done none),
          RegistryAction.unref]).slot = none :=
  ⟨by decide, by decide,
    (battery_recycled_after_last_release
      [RegistryAction.new proxy_up ⟨[], 0⟩,
        RegistryAction.dispatch (BatteryEvent.level_query_done (some 50)),
        RegistryAction.dispatch (BatteryEvent.status_query_done none),
        RegistryAction.unref] proxy_down ⟨[], 7⟩ (by decide)).1⟩

/-! ## Construction and readiness evaluation -/

/-- What the construction of a charger submits and attaches. -/
theorem fresh_charger_effects (proxy : MceProxy) (world : World mce_charger_signal) :
    trace_queries (mce_charger_new none proxy world).world.trace =
        trace_queries world.trace +
          (if (proxy.request.isSome && proxy.valid) = true then 1 else 0) ∧
      trace_connects (mce_charger_new none proxy world).world.trace MCE_CHARGER_STATE_SIG =
        trace_connects world.trace MCE_CHARGER_STATE_SIG +
          (if proxy.signal.isSome = true then 1 else 0) := by
  obtain ⟨-, q⟩ := charger_query_refs (MceCharger.g_object_new proxy world)
  obtain ⟨c, -, -⟩ := charger_query_ids (MceCharger.g_object_new proxy world)
  simp only [mce_charger_new, q, c]
  simp [MceCharger.g_object_new, mce_charger_init, trace_queries, trace_connects,
    List.filter_append]

/-- What the construction of an inactivity monitor submits and attaches. -/
theorem fresh_inactivity_effects (proxy : MceProxy) (world : World mce_inactivity_signal) :
    trace_queries (mce_inactivity_new none proxy world).world.trace =
        trace_queries world.trace +
          (if (proxy.request.isSome && proxy.valid) = true then 1 else 0) ∧
      trace_connects (mce_inactivity_new none proxy world).world.trace MCE_INACTIVITY_SIG =
        trace_connects world.trace MCE_INACTIVITY_SIG +
          (if proxy.signal.isSome = true then 1 else 0) := by
  obtain ⟨-, q⟩ := inactivity_query_refs (MceInactivity.g_object_new proxy world)
  obtain ⟨c, -, -⟩ := inactivity_query_ids (MceInactivity.g_object_new proxy world)
  simp only [mce_inactivity_new, q, c]
  simp [MceInactivity.g_object_new, mce_inactivity_init, trace_queries, trace_connects,
    List.filter_append]

/-- What the construction of a battery submits and attaches. -/
theorem fresh_battery_effects (proxy : MceProxy) (world : World mce_battery_signal) :
    trace_queries (mce_battery_new none proxy world).world.trace =
        trace_queries world.trace +
          (if (proxy.request.isSome && proxy.valid) = true then 2 else 0) ∧
      trace_connects (mce_battery_new none proxy world).world.trace "battery-level-ind" =
        trace_connects world.trace "battery-level-ind" +
          (if proxy.signal.isSome = true then 1 else 0) ∧
      trace_connects (mce_battery_new none proxy world).world.trace "battery-status-ind" =
        trace_connects world.trace "battery-status-ind" +
          (if proxy.signal.isSome = true then 1 else 0) := by
  obtain ⟨-, q⟩ := query_refs (MceBattery.g_object_new proxy world)
  obtain ⟨⟨c1, -⟩, ⟨c2, -⟩, -⟩ := query_ids (MceBattery.g_object_new proxy world)
  simp only [mce_battery_new, q, c1, c2]
  simp [MceBattery.g_object_new, mce_battery_init, trace_queries, trace_connects,
    List.filter_append]

/-- C18, counterexample to the claim as stated: `mce_battery_new` called while
the populated sample battery is in the slot, with the proxy connected and both
sources available, leaves the effect log as it was and submits no query, while
a readiness evaluation of that battery would submit two. -/
theorem second_construction_runs_no_evaluation :
    (mce_battery_new (some battery_populated) proxy_up ⟨[], 0⟩).world.trace =
        battery_populated.world.trace ∧
      trace_queries (mce_battery_new (some battery_populated) proxy_up ⟨[], 0⟩).world.trace =
        0 ∧
      trace_queries (mce_battery_query battery_populated).world.trace = 2 ∧
      mce_battery_new (some battery_populated) proxy_up ⟨[], 0⟩ ≠
        mce_battery_query battery_populated := by
  decide

/-- C18, amended: the construction that creates the shared instance
(`mce_battery_new`, `mce_charger_new`, `mce_inactivity_new` with the slot
empty) runs the readiness evaluation on the new instance, so that with a
notification source the push handlers are attached and with a request source
and a valid proxy the pull queries are submitted; a construction that finds
the instance in the slot only takes a reference: the effect log, the private state
and the cache are unchanged, so no evaluation runs. -/
theorem construction_evaluates_only_on_creation (b : MceBattery) (c : MceCharger)
    (i : MceInactivity) (proxy : MceProxy) (wb : World mce_battery_signal)
    (wc : World mce_charger_signal) (wi : World mce_inactivity_signal) :
    (mce_battery_new none proxy wb = mce_battery_query (MceBattery.g_object_new proxy wb) ∧
      mce_charger_new none proxy wc =
        mce_charger_state_query (MceCharger.g_object_new proxy wc) ∧
      mce_inactivity_new none proxy wi =
        mce_inactivity_status_query (MceInactivity.g_object_new proxy wi)) ∧
    ((trace_queries (mce_battery_new none proxy wb).world.trace =
          trace_queries wb.trace +
            (if (proxy.request.isSome && proxy.valid) = true then 2 else 0) ∧
        trace_connects (mce_battery_new none proxy wb).world.trace "battery-level-ind" =
          trace_connects wb.trace "battery-level-ind" +
            (if proxy.signal.isSome = true then 1 else 0) ∧
        trace_connects (mce_battery_new none proxy wb).world.trace "battery-status-ind" =
          trace_connects wb.trace "battery-status-ind" +
            (if proxy.signal.isSome = true then 1 else 0)) ∧
      (trace_queries (mce_charger_new none proxy wc).world.trace =
          trace_queries wc.trace +
            (if (proxy.request.isSome && proxy.valid) = true then 1 else 0) ∧
        trace_connects (mce_charger_new none proxy wc).world.trace MCE_CHARGER_STATE_SIG =
          trace_connects wc.trace MCE_CHARGER_STATE_SIG +
            (if proxy.signal.isSome = true then 1 else 0)) ∧
      (trace_queries (mce_inactivity_new none proxy wi).world.trace =
          trace_queries wi.trace +
            (if (proxy.request.isSome && proxy.valid) = true then 1 else 0) ∧
        trace_connects (mce_inactivity_new none proxy wi).world.trace MCE_INACTIVITY_SIG =
          trace_connects wi.trace MCE_INACTIVITY_SIG +
            (if proxy.signal.isSome = true then 1 else 0))) ∧
    (mce_battery_new (some b) proxy wb =
        { b with object := { ref_count := b.object.ref_count + 1 } } ∧
      mce_charger_new (some c) proxy wc =
        { c with object := { ref_count := c.object.ref_count + 1 } } ∧
      mce_inactivity_new (some i) proxy wi =
        { i with object := { ref_count := i.object.ref_count + 1 } }) ∧
    ((mce_battery_new (some b) proxy wb).world = b.world ∧
      (mce_charger_new (some c) proxy wc).world = c.world ∧
      (mce_inactivity_new (some i) proxy wi).world = i.world) :=
  ⟨⟨rfl, rfl, rfl⟩,
    ⟨fresh_battery_effects proxy wb, fresh_charger_effects proxy wc,
      fresh_inactivity_effects proxy wi⟩,
    ⟨rfl, rfl, rfl⟩, rfl, rfl, rfl⟩

/-! ## Auxiliary lemmas: validity of the charger and the inactivity monitor -/

/-- One charger callback against the changed specification: the connection
state, and `valid` as the populated flag, move in step. -/
theorem charger_step_refines (c : MceCharger) (e : ChargerEvent) (s : SpecSync)
    (hc : s.connected = c.priv.proxy.valid) (hv : c.valid = s.populated)
    (hi : s.populated = true → s.connected = true) :
    (s.step_while_connected e.sync).connected = (c.step e).priv.proxy.valid ∧
      (c.step e).valid = (s.step_while_connected e.sync).populated ∧
      ((s.step_while_connected e.sync).populated = true →
        (s.step_while_connected e.sync).connected = true) := by
  have hupd : ∀ v, (mce_charger_state_update c v).valid = (c.valid || c.priv.proxy.valid) ∧
      (mce_charger_state_update c v).priv.proxy = c.priv.proxy := by
    intro v
    rw [charger_state_update_nf]
    exact ⟨rfl, rfl⟩
  cases e with
  | state_ind v =>
    obtain ⟨a, b⟩ := hupd v
    simp only [MceCharger.step, mce_charger_state_ind, ChargerEvent.sync, SpecSync.step_while_connected, a, b, hc, hv]
    refine ⟨trivial, trivial, ?_⟩
    intro h
    cases hp : s.populated
    · simpa [hp] using h
    · rw [← hc]; exact hi hp
  | state_query_done result =>
    cases result with
    | none =>
      obtain ⟨a, -, b, -⟩ := charger_unref_only_released c
      refine ⟨?_, ?_, hi⟩
      · show s.connected = _
        rw [hc]
        exact congrArg MceProxy.valid b.symm
      · show _ = s.populated
        rw [← hv]
        exact a
    | some v =>
      obtain ⟨a, -, b, -⟩ := charger_unref_only_released (mce_charger_state_update c (some v))
      obtain ⟨a1, b1⟩ := hupd (some v)
      refine ⟨?_, ?_, ?_⟩
      · show s.connected = _
        rw [hc]
        exact congrArg MceProxy.valid (b.trans b1).symm
      · show _ = (s.populated || s.connected)
        rw [← hv, hc, ← a1]
        exact a
      · show (s.populated || s.connected) = true → s.connected = true
        intro h
        cases hp : s.populated
        · simpa [hp] using h
        · exact hi hp
  | valid_changed proxy =>
    simp only [MceCharger.step, ChargerEvent.sync, SpecSync.step_while_connected]
    rw [charger_valid_changed_nf]
    cases hp : proxy.valid
    · simp [MceCharger.set_proxy, hp]
    · simp only [if_true, Bool.true_and]
      rw [charger_query_nf]
      simp [MceCharger.set_proxy, hp, hv]

/-- A sequence of charger callbacks against the changed specification. -/
theorem charger_run_refines (events : List ChargerEvent) :
    ∀ (c : MceCharger) (s : SpecSync), s.connected = c.priv.proxy.valid →
      c.valid = s.populated → (s.populated = true → s.connected = true) →
      (c.run events).valid = (s.run_while_connected (events.map ChargerEvent.sync)).valid := by
  induction events with
  | nil =>
    intro c s hc hv hi
    show c.valid = (s.connected && s.populated)
    rw [hv]
    cases hp : s.populated
    · simp
    · simp [hi hp]
  | cons e rest ih =>
    intro c s hc hv hi
    obtain ⟨a, b, d⟩ := charger_step_refines c e s hc hv hi
    exact ih (c.step e) (s.step_while_connected e.sync) a b d

/-- The freshly constructed charger starts unpopulated and not valid. -/
theorem fresh_charger_start (proxy : MceProxy) (world : World _) :
    (mce_charger_new none proxy world).priv.proxy = proxy ∧
      (mce_charger_new none proxy world).valid = false := by
  simp only [mce_charger_new]
  rw [charger_query_nf]
  exact ⟨rfl, rfl⟩

/-- One inactivity callback against the changed specification: the connection
state, and `valid` as the populated flag, move in step. -/
theorem inactivity_step_refines (c : MceInactivity) (e : InactivityEvent) (s : SpecSync)
    (hc : s.connected = c.priv.proxy.valid) (hv : c.valid = s.populated)
    (hi : s.populated = true → s.connected = true) :
    (s.step_while_connected e.sync).connected = (c.step e).priv.proxy.valid ∧
      (c.step e).valid = (s.step_while_connected e.sync).populated ∧
      ((s.step_while_connected e.sync).populated = true →
        (s.step_while_connected e.sync).connected = true) := by
  have hupd : ∀ v, (mce_inactivity_status_update c v).valid = (c.valid || c.priv.proxy.valid) ∧
      (mce_inactivity_status_update c v).priv.proxy = c.priv.proxy := by
    intro v
    rw [inactivity_status_update_nf]
    exact ⟨rfl, rfl⟩
  cases e with
  | status_ind v =>
    obtain ⟨a, b⟩ := hupd v
    simp only [MceInactivity.step, mce_inactivity_status_ind, InactivityEvent.sync, SpecSync.step_while_connected, a, b, hc, hv]
    refine ⟨trivial, trivial, ?_⟩
    intro h
    cases hp : s.populated
    · simpa [hp] using h
    · rw [← hc]; exact hi hp
  | status_query_done result =>
    cases result with
    | none =>
      obtain ⟨a, -, b, -⟩ := inactivity_unref_only_released c
      refine ⟨?_, ?_, hi⟩
      · show s.connected = _
        rw [hc]
        exact congrArg MceProxy.valid b.symm
      · show _ = s.populated
        rw [← hv]
        exact a
    | some v =>
      obtain ⟨a, -, b, -⟩ := inactivity_unref_only_released (mce_inactivity_status_update c v)
      obtain ⟨a1, b1⟩ := hupd v
      refine ⟨?_, ?_, ?_⟩
      · show s.connected = _
        rw [hc]
        exact congrArg MceProxy.valid (b.trans b1).symm
      · show _ = (s.populated || s.connected)
        rw [← hv, hc, ← a1]
        exact a
      · show (s.populated || s.connected) = true → s.connected = true
        intro h
        cases hp : s.populated
        · simpa [hp] using h
        · exact hi hp
  | valid_changed proxy =>
    simp only [MceInactivity.step, InactivityEvent.sync, SpecSync.step_while_connected]
    rw [inactivity_valid_changed_nf]
    cases hp : proxy.valid
    · simp [MceInactivity.set_proxy, hp]
    · simp only [if_true, Bool.true_and]
      rw [inactivity_query_nf]
      simp [MceInactivity.set_proxy, hp, hv]

/-- A sequence of inactivity callbacks against the changed specification. -/
theorem inactivity_run_refines (events : List InactivityEvent) :
    ∀ (c : MceInactivity) (s : SpecSync), s.connected = c.priv.proxy.valid →
      c.valid = s.populated → (s.populated = true → s.connected = true) →
      (c.run events).valid = (s.run_while_connected (events.map InactivityEvent.sync)).valid := by
  induction events with
  | nil =>
    intro c s hc hv hi
    show c.valid = (s.connected && s.populated)
    rw [hv]
    cases hp : s.populated
    · simp
    · simp [hi hp]
  | cons e rest ih =>
    intro c s hc hv hi
    obtain ⟨a, b, d⟩ := inactivity_step_refines c e s hc hv hi
    exact ih (c.step e) (s.step_while_connected e.sync) a b d

/-- The freshly constructed inactivity starts unpopulated and not valid. -/
theorem fresh_inactivity_start (proxy : MceProxy) (world : World _) :
    (mce_inactivity_new none proxy world).priv.proxy = proxy ∧
      (mce_inactivity_new none proxy world).valid = false := by
  simp only [mce_inactivity_new]
  rw [inactivity_query_nf]
  exact ⟨rfl, rfl⟩

/-- When every value is delivered while the connection is valid, the changed
specification and the specification as worded agree. -/
theorem spec_agrees_while_connected (events : List SyncEvent) :
    ∀ s : SpecSync, deliveries_while_connected s.connected events = true →
      s.run_while_connected events = s.run events := by
  induction events with
  | nil => intro s _; rfl
  | cons e rest ih =>
    intro s h
    cases e with
    | delivered =>
      simp only [deliveries_while_connected, Bool.and_eq_true] at h
      have hs : s.step_while_connected SyncEvent.delivered = s.step SyncEvent.delivered := by
        simp [SpecSync.step_while_connected, SpecSync.step, h.1]
      show (s.step_while_connected SyncEvent.delivered).run_while_connected rest =
        (s.step SyncEvent.delivered).run rest
      rw [hs]
      exact ih _ h.2
    | failed => exact ih s h
    | connection c => exact ih _ h

/-! ## Validity of the charger and the inactivity monitor against the specification -/

/-- C19, counterexample to the claim as stated: a charger, and an inactivity
monitor, constructed while the proxy is not valid receive a value by push and
then see the proxy become valid; the specification as worded has the property
populated and the connection valid, yet `valid` is false. -/
theorem value_delivered_while_disconnected_is_forgotten :
    (((mce_charger_new none proxy_down ⟨[], 0⟩).run
          [ChargerEvent.state_ind (some "on"), ChargerEvent.valid_changed proxy_up]).valid =
          false ∧
        ((mce_charger_new none proxy_down ⟨[], 0⟩).run
          [ChargerEvent.state_ind (some "on"), ChargerEvent.valid_changed proxy_up]).state =
          MCE_CHARGER_STATE.MCE_CHARGER_ON ∧
        (SpecSync.run { connected := proxy_down.valid, populated := false }
          ([ChargerEvent.state_ind (some "on"), ChargerEvent.valid_changed proxy_up].map
            ChargerEvent.sync)).valid = true) ∧
      (((mce_inactivity_new none proxy_down ⟨[], 0⟩).run
          [InactivityEvent.status_ind 1, InactivityEvent.valid_changed proxy_up]).valid =
          false ∧
        (SpecSync.run { connected := proxy_down.valid, populated := false }
          ([InactivityEvent.status_ind 1, InactivityEvent.valid_changed proxy_up].map
            InactivityEvent.sync)).valid = true) := by
  decide

/-- C19, amended: for the charger and for the inactivity monitor, after every
sequence of callbacks that follows construction (hence after every event of
it), `valid` equals connection valid and populated, where `populated` becomes
true at a push or successful pull delivery that arrives while the connection is
valid, and is cleared when the connection becomes unusable; a value delivered
while the connection is not valid does not populate. -/
theorem single_property_validity_refines (proxy : MceProxy)
    (wc : World mce_charger_signal) (wi : World mce_inactivity_signal)
    (ec : List ChargerEvent) (ei : List InactivityEvent) :
    ((mce_charger_new none proxy wc).run ec).valid =
        (SpecSync.run_while_connected { connected := proxy.valid, populated := false }
          (ec.map ChargerEvent.sync)).valid ∧
      ((mce_inactivity_new none proxy wi).run ei).valid =
        (SpecSync.run_while_connected { connected := proxy.valid, populated := false }
          (ei.map InactivityEvent.sync)).valid := by
  obtain ⟨a, b⟩ := fresh_charger_start proxy wc
  obtain ⟨a1, b1⟩ := fresh_inactivity_start proxy wi
  constructor
  · apply charger_run_refines
    · rw [a]
    · rw [b]
    · intro h; exact Bool.noConfusion h
  · apply inactivity_run_refines
    · rw [a1]
    · rw [b1]
    · intro h; exact Bool.noConfusion h

/-! ## Charger state: decoding -/

/-- C20: `mce_charger_state_update` caches `MCE_CHARGER_ON` for the wire string
"on", `MCE_CHARGER_OFF` for "off" and `MCE_CHARGER_UNKNOWN` for every other
string, "unknown" and NULL included; it has no error result and always goes on
to the validity step; it emits state-changed once if the decoded state differs
from the cached one and not at all otherwise; afterwards the cached state is
the decoded one.  The whole effect of the call is spelled out by the last
equation: besides the two emissions there is only the report of the debug
assertion of the fallback branch for strings other than "unknown". -/
theorem mce_charger_state_update_decodes (self : MceCharger) (value : Option String) :
    (MCE_CHARGER_STATE_ON = "on" ∧ MCE_CHARGER_STATE_OFF = "off" ∧
      (mce_charger_state_update self (some MCE_CHARGER_STATE_ON)).state =
        MCE_CHARGER_STATE.MCE_CHARGER_ON ∧
      (mce_charger_state_update self (some MCE_CHARGER_STATE_OFF)).state =
        MCE_CHARGER_STATE.MCE_CHARGER_OFF ∧
      (mce_charger_state_update self (some "unknown")).state =
        MCE_CHARGER_STATE.MCE_CHARGER_UNKNOWN ∧
      (mce_charger_state_update self none).state = MCE_CHARGER_STATE.MCE_CHARGER_UNKNOWN) ∧
    (mce_charger_state_update self value).state =
      (if value = some "on" then MCE_CHARGER_STATE.MCE_CHARGER_ON
        else if value = some "off" then MCE_CHARGER_STATE.MCE_CHARGER_OFF
        else MCE_CHARGER_STATE.MCE_CHARGER_UNKNOWN) ∧
    (mce_charger_state_update self value).emissions mce_charger_signal.SIGNAL_STATE_CHANGED =
      self.emissions mce_charger_signal.SIGNAL_STATE_CHANGED +
        (if (mce_charger_state_update self value).state ≠ self.state then 1 else 0) ∧
    (mce_charger_state_update self value).valid = (self.valid || self.priv.proxy.valid) ∧
    (mce_charger_state_update self value).world.trace =
      self.world.trace ++
        (if charger_state_known value then [] else [Effect.gassert_failed]) ++
        (if self.state = (mce_charger_state_update self value).state then []
          else [Effect.emit mce_charger_signal.SIGNAL_STATE_CHANGED]) ++
        (if (self.priv.proxy.valid && !self.valid) = true
          then [Effect.emit mce_charger_signal.SIGNAL_VALID_CHANGED] else []) := by
  have hs : ∀ v, (mce_charger_state_update self v).state = charger_state_of_wire v := by
    intro v
    rw [charger_state_update_nf]
  obtain ⟨e1, -⟩ := charger_state_update_emissions self value
  refine ⟨⟨rfl, rfl, ?_, ?_, ?_, ?_⟩, ?_, ?_, ?_, ?_⟩
  · rw [hs]; decide
  · rw [hs]; decide
  · rw [hs]; decide
  · rw [hs]; decide
  · rw [hs]; rfl
  · rw [e1, hs]
  · rw [charger_state_update_nf]
  · rw [hs, charger_state_update_nf]

/-! ## Auxiliary lemmas: the level along a run -/

theorem clamp_level_le (level : Int) : clamp_level level ≤ 100 := by
  unfold clamp_level
  split_ifs <;> omega

theorem step_level_le (s : MceBattery) (e : BatteryEvent) (h : s.level ≤ 100) :
    (s.step e).level ≤ 100 := by
  cases e with
  | level_ind level =>
    simp only [MceBattery.step, mce_battery_level_ind]
    rw [(level_update_emissions s level).2]
    exact clamp_level_le level
  | status_ind status =>
    simp only [MceBattery.step, mce_battery_status_ind]
    rw [status_update_nf]
    exact h
  | level_query_done result =>
    cases result with
    | none =>
      simp only [MceBattery.step, mce_battery_level_query_done, mce_battery_unref, Option.getD]
      rw [(unref_fields s).2.1]
      exact h
    | some level =>
      simp only [MceBattery.step, mce_battery_level_query_done, mce_battery_unref, Option.getD]
      rw [(unref_fields _).2.1, (level_update_emissions s level).2]
      exact clamp_level_le level
  | status_query_done result =>
    cases result with
    | none =>
      simp only [MceBattery.step, mce_battery_status_query_done, mce_battery_unref, Option.getD]
      rw [(unref_fields s).2.1]
      exact h
    | some status =>
      simp only [MceBattery.step, mce_battery_status_query_done, mce_battery_unref, Option.getD]
      rw [(unref_fields _).2.1, status_update_nf]
      exact h
  | valid_changed proxy =>
    rw [(step_valid_changed s proxy).2.2.2.2.2.2.2.1]
    exact h

theorem run_level_le (events : List BatteryEvent) :
    ∀ s : MceBattery, s.level ≤ 100 → (s.run events).level ≤ 100 := by
  induction events with
  | nil => intro s h; exact h
  | cons e rest ih =>
    intro s h
    exact ih (s.step e) (step_level_le s e h)

/-! ## The level range -/

/-- C21: in every state reached from a freshly constructed battery by any
sequence of callbacks (level and status deliveries by push or pull with any
values, failed pulls, connection changes followed by the valid-changed
handler), whatever the proxy and the history of the world at construction, the
readable `level` is at most 100; being a `guint` it is at least 0. -/
theorem battery_level_range_invariant (proxy : MceProxy) (world : World mce_battery_signal)
    (events : List BatteryEvent) :
    0 ≤ ((mce_battery_new none proxy world).run events).level ∧
      ((mce_battery_new none proxy world).run events).level ≤ 100 := by
  refine ⟨Nat.zero_le _, run_level_le events _ ?_⟩
  rw [fresh_battery_nf]
  exact Nat.zero_le 100

/-! ## Auxiliary lemmas: validity, connection and deliveries of the single-property monitors -/

theorem populated_delivered_since_loss (events : List SyncEvent) :
    ∀ (s : SpecSync) (got : Bool), (s.populated = true → got = true) →
      (s.run_while_connected events).populated = true →
      events.foldl
        (fun got e =>
          match e with
          | SyncEvent.delivered => true
          | SyncEvent.failed => got
          | SyncEvent.connection connected => connected && got)
        got = true := by
  induction events with
  | nil => intro s got h hp; exact h hp
  | cons e rest ih =>
    intro s got h hp
    simp only [List.foldl_cons]
    refine ih (s.step_while_connected e) _ ?_ hp
    cases e with
    | delivered => intro _; rfl
    | failed => exact h
    | connection connected =>
      simp only [SpecSync.step_while_connected, Bool.and_eq_true]
      exact fun hh => ⟨hh.1, h hh.2⟩

theorem charger_run_relates (events : List ChargerEvent) :
    ∀ (c : MceCharger) (s : SpecSync), s.connected = c.priv.proxy.valid →
      c.valid = s.populated → (s.populated = true → s.connected = true) →
      (s.run_while_connected (events.map ChargerEvent.sync)).connected =
          (c.run events).priv.proxy.valid ∧
        (c.run events).valid =
          (s.run_while_connected (events.map ChargerEvent.sync)).populated ∧
        ((s.run_while_connected (events.map ChargerEvent.sync)).populated = true →
          (s.run_while_connected (events.map ChargerEvent.sync)).connected = true) := by
  induction events with
  | nil => intro c s hc hv hi; exact ⟨hc, hv, hi⟩
  | cons e rest ih =>
    intro c s hc hv hi
    obtain ⟨h1, h2, h3⟩ := charger_step_refines c e s hc hv hi
    exact ih (c.step e) (s.step_while_connected e.sync) h1 h2 h3

theorem inactivity_run_relates (events : List InactivityEvent) :
    ∀ (c : MceInactivity) (s : SpecSync), s.connected = c.priv.proxy.valid →
      c.valid = s.populated → (s.populated = true → s.connected = true) →
      (s.run_while_connected (events.map InactivityEvent.sync)).connected =
          (c.run events).priv.proxy.valid ∧
        (c.run events).valid =
          (s.run_while_connected (events.map InactivityEvent.sync)).populated ∧
        ((s.run_while_connected (events.map InactivityEvent.sync)).populated = true →
          (s.run_while_connected (events.map InactivityEvent.sync)).connected = true) := by
  induction events with
  | nil => intro c s hc hv hi; exact ⟨hc, hv, hi⟩
  | cons e rest ih =>
    intro c s hc hv hi
    obtain ⟨h1, h2, h3⟩ := inactivity_step_refines c e s hc hv hi
    exact ih (c.step e) (s.step_while_connected e.sync) h1 h2 h3

theorem charger_valid_cases (proxy : MceProxy) (world : World mce_charger_signal)
    (events : List ChargerEvent) :
    ((mce_charger_new none proxy world).run events).valid = false ∨
      (((mce_charger_new none proxy world).run events).priv.proxy.valid = true ∧
        delivered_since_loss (events.map ChargerEvent.sync) = true) := by
  obtain ⟨hp, hv⟩ := fresh_charger_start proxy world
  obtain ⟨h1, h2, h3⟩ := charger_run_relates events (mce_charger_new none proxy world)
    ⟨proxy.valid, false⟩ (by rw [hp]) (by rw [hv]) (fun h => Bool.noConfusion h)
  cases hval : ((mce_charger_new none proxy world).run events).valid with
  | false => exact Or.inl rfl
  | true =>
    right
    rw [hval] at h2
    refine ⟨?_, ?_⟩
    · rw [← h1]; exact h3 h2.symm
    · exact populated_delivered_since_loss _ ⟨proxy.valid, false⟩ false
        (fun h => Bool.noConfusion h) h2.symm

theorem inactivity_valid_cases (proxy : MceProxy) (world : World mce_inactivity_signal)
    (events : List InactivityEvent) :
    ((mce_inactivity_new none proxy world).run events).valid = false ∨
      (((mce_inactivity_new none proxy world).run events).priv.proxy.valid = true ∧
        delivered_since_loss (events.map InactivityEvent.sync) = true) := by
  obtain ⟨hp, hv⟩ := fresh_inactivity_start proxy world
  obtain ⟨h1, h2, h3⟩ := inactivity_run_relates events (mce_inactivity_new none proxy world)
    ⟨proxy.valid, false⟩ (by rw [hp]) (by rw [hv]) (fun h => Bool.noConfusion h)
  cases hval : ((mce_inactivity_new none proxy world).run events).valid with
  | false => exact Or.inl rfl
  | true =>
    right
    rw [hval] at h2
    refine ⟨?_, ?_⟩
    · rw [← h1]; exact h3 h2.symm
    · exact populated_delivered_since_loss _ ⟨proxy.valid, false⟩ false
        (fun h => Bool.noConfusion h) h2.symm

/-! ## Validity of the single-property monitors -/

/-- C22: for the charger and for the inactivity monitor, in every state
reached from a fresh one by any sequence of callbacks (each connection change
followed by the valid-changed handler), either `valid` is false, or the
connection is valid and a value was delivered after the connection last
became unusable. An update leaves `valid` as it was when the connection is
not valid: afterwards `valid` is true exactly if it was true before or the
connection is valid. -/
theorem valid_implies_connection_and_delivery (proxy : MceProxy)
    (charger_world : World mce_charger_signal) (charger_events : List ChargerEvent)
    (inactivity_world : World mce_inactivity_signal)
    (inactivity_events : List InactivityEvent)
    (c : MceCharger) (value : Option String) (i : MceInactivity) (status : Int) :
    (((mce_charger_new none proxy charger_world).run charger_events).valid = false ∨
      (((mce_charger_new none proxy charger_world).run charger_events).priv.proxy.valid = true ∧
        delivered_since_loss (charger_events.map ChargerEvent.sync) = true)) ∧
    (((mce_inactivity_new none proxy inactivity_world).run inactivity_events).valid = false ∨
      (((mce_inactivity_new none proxy inactivity_world).run
            inactivity_events).priv.proxy.valid = true ∧
        delivered_since_loss (inactivity_events.map InactivityEvent.sync) = true)) ∧
    (mce_charger_state_update c value).valid = (c.valid || c.priv.proxy.valid) ∧
    (mce_charger_state_update c value).priv.proxy = c.priv.proxy ∧
    (mce_inactivity_status_update i status).valid = (i.valid || i.priv.proxy.valid) ∧
    (mce_inactivity_status_update i status).priv.proxy = i.priv.proxy := by
  refine ⟨charger_valid_cases proxy charger_world charger_events,
    inactivity_valid_cases proxy inactivity_world inactivity_events, ?_, ?_, ?_, ?_⟩
  · rw [charger_state_update_nf]
  · rw [charger_state_update_nf]
  · rw [inactivity_status_update_nf]
  · rw [inactivity_status_update_nf]

/-! ## Auxiliary lemmas: deliveries of the default values -/

theorem level_update_flags (s : MceBattery) (level : Int) :
    (mce_battery_level_update s level).priv.flags = s.priv.flags ||| BATTERY_HAVE_LEVEL ∧
      (mce_battery_level_update s level).status = s.status ∧
      (mce_battery_level_update s level).emissions SIGNAL_STATUS_CHANGED =
        s.emissions SIGNAL_STATUS_CHANGED := by
  rw [level_update_nf]
  refine ⟨rfl, rfl, ?_⟩
  simp only [emissions_def, List.count_append]
  split_ifs <;> simp [List.count_cons]

theorem status_update_flags (s : MceBattery) (status : Option String) :
    (mce_battery_status_update s status).priv.flags = s.priv.flags ||| BATTERY_HAVE_STATUS ∧
      (mce_battery_status_update s status).level = s.level ∧
      (mce_battery_status_update s status).emissions SIGNAL_LEVEL_CHANGED =
        s.emissions SIGNAL_LEVEL_CHANGED := by
  rw [status_update_nf]
  refine ⟨rfl, rfl, ?_⟩
  simp only [emissions_def, List.count_append]
  split_ifs <;> simp [List.count_cons]

theorem fresh_connected_fields (signal : Option ComNokiaMceSignal)
    (request : Option ComNokiaMceRequest) (world : World mce_battery_signal) :
    (battery_fresh_connected signal request world).valid = false ∧
      (battery_fresh_connected signal request world).level = 0 ∧
      (battery_fresh_connected signal request world).status = MCE_BATTERY_UNKNOWN ∧
      (battery_fresh_connected signal request world).priv.flags = BATTERY_HAVE_NONE ∧
      (battery_fresh_connected signal request world).priv.proxy.valid = true := by
  unfold battery_fresh_connected
  rw [fresh_battery_nf]
  exact ⟨rfl, rfl, rfl, rfl, rfl⟩

theorem default_deliveries (s : MceBattery) (hv : s.valid = false) (hl : s.level = 0)
    (hs : s.status = MCE_BATTERY_UNKNOWN) (hf : s.priv.flags = BATTERY_HAVE_NONE)
    (hp : s.priv.proxy.valid = true) :
    (mce_battery_level_update s 0).valid = false ∧
      (mce_battery_level_update s 0).emissions SIGNAL_VALID_CHANGED =
        s.emissions SIGNAL_VALID_CHANGED ∧
      (mce_battery_status_update (mce_battery_level_update s 0)
        (some MCE_BATTERY_STATUS_UNKNOWN)).valid = true ∧
      (mce_battery_status_update (mce_battery_level_update s 0)
        (some MCE_BATTERY_STATUS_UNKNOWN)).emissions SIGNAL_VALID_CHANGED =
          s.emissions SIGNAL_VALID_CHANGED + 1 ∧
      (mce_battery_status_update (mce_battery_level_update s 0)
        (some MCE_BATTERY_STATUS_UNKNOWN)).emissions SIGNAL_LEVEL_CHANGED =
          s.emissions SIGNAL_LEVEL_CHANGED ∧
      (mce_battery_status_update (mce_battery_level_update s 0)
        (some MCE_BATTERY_STATUS_UNKNOWN)).emissions SIGNAL_STATUS_CHANGED =
          s.emissions SIGNAL_STATUS_CHANGED ∧
      (mce_battery_status_update (mce_battery_level_update s 0)
        (some MCE_BATTERY_STATUS_UNKNOWN)).assert_failures = s.assert_failures := by
  obtain ⟨⟨rc⟩, ⟨proxy, flags, pvid, idl, ids⟩, valid, level, status, ⟨trace, seq⟩⟩ := s
  simp only at hv hl hs hf hp
  subst hv hl hs hf
  have c0 : clamp_level 0 = 0 := by decide
  have w0 : battery_status_of_wire (some MCE_BATTERY_STATUS_UNKNOWN) = MCE_BATTERY_UNKNOWN := by
    decide
  have k0 : battery_status_known (some MCE_BATTERY_STATUS_UNKNOWN) = true := by decide
  have f1 : (BATTERY_HAVE_NONE ||| BATTERY_HAVE_LEVEL) &&& BATTERY_HAVE_ALL ≠ BATTERY_HAVE_ALL := by
    decide
  have f2 : (BATTERY_HAVE_NONE ||| BATTERY_HAVE_LEVEL ||| BATTERY_HAVE_STATUS) &&&
      BATTERY_HAVE_ALL = BATTERY_HAVE_ALL := by decide
  rw [status_update_nf, level_update_nf]
  simp [emissions_def, MceBattery.assert_failures, c0, w0, k0, f1, f2, hp,
    List.count_append, List.count_cons]

/-! ## Deliveries of unchanged values -/

/-- C23: a delivery populates its property whether or not the value changed.
`mce_battery_level_update` always sets `BATTERY_HAVE_LEVEL` and
`mce_battery_status_update` always sets `BATTERY_HAVE_STATUS`, while the
property-changed notification is emitted only when the decoded value differs
from the cached one. On a fresh battery whose connection is valid, delivering
level 0 and then status "unknown" (the defaults) leaves valid false after the
first and true after the second, with exactly one valid-changed notification,
no level-changed or status-changed notification and no failed assertion. -/
theorem delivery_populates_even_when_unchanged (s : MceBattery) (level : Int)
    (status : Option String) (signal : Option ComNokiaMceSignal)
    (request : Option ComNokiaMceRequest) (world : World mce_battery_signal) :
    (mce_battery_level_update s level).priv.flags = s.priv.flags ||| BATTERY_HAVE_LEVEL ∧
    (mce_battery_level_update s level).have_level = true ∧
    (mce_battery_level_update s level).emissions SIGNAL_LEVEL_CHANGED =
      s.emissions SIGNAL_LEVEL_CHANGED + (if clamp_level level ≠ s.level then 1 else 0) ∧
    (mce_battery_status_update s status).priv.flags = s.priv.flags ||| BATTERY_HAVE_STATUS ∧
    (mce_battery_status_update s status).have_status = true ∧
    (mce_battery_status_update s status).emissions SIGNAL_STATUS_CHANGED =
      s.emissions SIGNAL_STATUS_CHANGED +
        (if battery_status_of_wire status ≠ s.status then 1 else 0) ∧
    (battery_fresh_connected signal request world).valid = false ∧
    (battery_fresh_connected signal request world).level = 0 ∧
    (battery_fresh_connected signal request world).status = MCE_BATTERY_UNKNOWN ∧
    ((battery_fresh_connected signal request world).run
      [BatteryEvent.level_ind 0]).valid = false ∧
    ((battery_fresh_connected signal request world).run
      [BatteryEvent.level_ind 0, BatteryEvent.status_ind (some "unknown")]).valid = true ∧
    ((battery_fresh_connected signal request world).run
      [BatteryEvent.level_ind 0, BatteryEvent.status_ind (some "unknown")]).emissions
        SIGNAL_VALID_CHANGED =
      (battery_fresh_connected signal request world).emissions SIGNAL_VALID_CHANGED + 1 ∧
    ((battery_fresh_connected signal request world).run
      [BatteryEvent.level_ind 0, BatteryEvent.status_ind (some "unknown")]).emissions
        SIGNAL_LEVEL_CHANGED =
      (battery_fresh_connected signal request world).emissions SIGNAL_LEVEL_CHANGED ∧
    ((battery_fresh_connected signal request world).run
      [BatteryEvent.level_ind 0, BatteryEvent.status_ind (some "unknown")]).emissions
        SIGNAL_STATUS_CHANGED =
      (battery_fresh_connected signal request world).emissions SIGNAL_STATUS_CHANGED ∧
    ((battery_fresh_connected signal request world).run
      [BatteryEvent.level_ind 0, BatteryEvent.status_ind (some "unknown")]).assert_failures =
      (battery_fresh_connected signal request world).assert_failures := by
  obtain ⟨hv, hl, hs, hf, hp⟩ := fresh_connected_fields signal request world
  obtain ⟨d1, _, d3, d4, d5, d6, d7⟩ :=
    default_deliveries (battery_fresh_connected signal request world) hv hl hs hf hp
  exact ⟨(level_update_flags s level).1, (level_update_core s level).2.1,
    (level_update_emissions s level).1, (status_update_flags s status).1,
    (status_update_core s status).2.2.1, (status_update_emissions s status).1,
    hv, hl, hs, d1, d3, d4, d5, d6, d7⟩

/-! ## Inactivity status: change notification -/

/-- C24, as stated, fails: with the status 1 cached, delivering 2 emits
status-changed, although both values are true as booleans. -/
theorem inactivity_true_values_compared_as_integers :
    (mce_inactivity_status_update inactivity_initial 1).status = 1 ∧
      gboolean_truth 2 = gboolean_truth 1 ∧
      (mce_inactivity_status_update (mce_inactivity_status_update inactivity_initial 1)
          2).emissions mce_inactivity_signal.SIGNAL_STATUS_CHANGED =
        (mce_inactivity_status_update inactivity_initial 1).emissions
          mce_inactivity_signal.SIGNAL_STATUS_CHANGED + 1 := by
  decide

/-- C24, amended: `mce_inactivity_status_update` stores the delivered status
and emits status-changed exactly when the delivered status differs from the
cached one as an integer; when both are one of the values 0 and 1 that glib
stores for a truth value, that is exactly when their truth values differ. -/
theorem mce_inactivity_status_update_emits_iff_integer_differs (i : MceInactivity)
    (status : Int) (cached delivered : Bool) :
    (mce_inactivity_status_update i status).status = status ∧
      (mce_inactivity_status_update i status).emissions
          mce_inactivity_signal.SIGNAL_STATUS_CHANGED =
        i.emissions mce_inactivity_signal.SIGNAL_STATUS_CHANGED +
          (if status ≠ i.status then 1 else 0) ∧
      (mce_inactivity_status_update { i with status := gboolean_of cached }
          (gboolean_of delivered)).emissions mce_inactivity_signal.SIGNAL_STATUS_CHANGED =
        i.emissions mce_inactivity_signal.SIGNAL_STATUS_CHANGED +
          (if gboolean_truth (gboolean_of delivered) ≠ gboolean_truth (gboolean_of cached)
            then 1 else 0) := by
  refine ⟨(inactivity_status_update_emissions i status).2,
    (inactivity_status_update_emissions i status).1, ?_⟩
  rw [(inactivity_status_update_emissions _ _).1]
  cases cached <;> cases delivered <;> simp [gboolean_of, gboolean_truth, MceInactivity.emissions]

/-! ## Auxiliary lemmas: what the handlers are handed -/

theorem check_valid_observed_nf (o : Observed MceBattery mce_battery_signal) :
    mce_battery_check_valid_observed o =
      { self := mce_battery_check_valid o.self,
        seen := o.seen ++
          (if o.self.derived_valid = o.self.valid then []
            else [(SIGNAL_VALID_CHANGED, { o.self with valid := o.self.derived_valid })]) } := by
  obtain ⟨s, seen⟩ := o
  by_cases h : s.derived_valid = s.valid
  · simp only [MceBattery.derived_valid] at h
    simp [mce_battery_check_valid_observed, mce_battery_check_valid,
      MceBattery.derived_valid, h]
  · simp only [MceBattery.derived_valid] at h
    simp [mce_battery_check_valid_observed, mce_battery_check_valid,
      MceBattery.derived_valid, MceBattery.g_signal_emit_observed, h]

theorem level_update_observed_nf (s : MceBattery) (level : Int) :
    (mce_battery_level_update_observed ⟨s, []⟩ level).self = mce_battery_level_update s level ∧
      (mce_battery_level_update_observed ⟨s, []⟩ level).views MceBattery.readable =
        (if s.level = clamp_level level then []
          else [(SIGNAL_LEVEL_CHANGED, (s.valid, clamp_level level, s.status))]) ++
        (if (mce_battery_level_update s level).valid = s.valid then []
          else [(SIGNAL_VALID_CHANGED,
            ((mce_battery_level_update s level).valid, clamp_level level, s.status))]) := by
  have hv : (mce_battery_level_update s level).valid = (s.priv.proxy.valid &&
      decide (((s.priv.flags ||| BATTERY_HAVE_LEVEL) &&& BATTERY_HAVE_ALL) =
        BATTERY_HAVE_ALL)) := by rw [level_update_nf]
  rw [hv, level_update_eq]
  unfold mce_battery_level_update_observed
  simp only [new_level_eq, check_valid_observed_nf, Observed.views]
  by_cases h : s.level = clamp_level level <;>
    by_cases k : (s.priv.proxy.valid &&
      decide (((s.priv.flags ||| BATTERY_HAVE_LEVEL) &&& BATTERY_HAVE_ALL) =
        BATTERY_HAVE_ALL)) = s.valid <;>
    simp [h, k, MceBattery.g_signal_emit_observed, MceBattery.derived_valid,
      MceBattery.readable, MceBattery.g_signal_emit, World.log]

theorem status_update_observed_nf (s : MceBattery) (status : Option String) :
    (mce_battery_status_update_observed ⟨s, []⟩ status).self =
        mce_battery_status_update s status ∧
      (mce_battery_status_update_observed ⟨s, []⟩ status).views MceBattery.readable =
        (if s.status = battery_status_of_wire status then []
          else [(SIGNAL_STATUS_CHANGED, (s.valid, s.level, battery_status_of_wire status))]) ++
        (if (mce_battery_status_update s status).valid = s.valid then []
          else [(SIGNAL_VALID_CHANGED,
            ((mce_battery_status_update s status).valid, s.level,
              battery_status_of_wire status))]) := by
  have hv : (mce_battery_status_update s status).valid = (s.priv.proxy.valid &&
      decide (((s.priv.flags ||| BATTERY_HAVE_STATUS) &&& BATTERY_HAVE_ALL) =
        BATTERY_HAVE_ALL)) := by rw [status_update_nf]
  rw [hv, status_update_eq]
  unfold mce_battery_status_update_observed
  simp only [status_decode_eq, check_valid_observed_nf, Observed.views]
  by_cases h : s.status = battery_status_of_wire status <;>
    by_cases k : (s.priv.proxy.valid &&
      decide (((s.priv.flags ||| BATTERY_HAVE_STATUS) &&& BATTERY_HAVE_ALL) =
        BATTERY_HAVE_ALL)) = s.valid <;>
    by_cases g : battery_status_known status = true <;>
    simp [h, k, g, MceBattery.g_signal_emit_observed, MceBattery.derived_valid,
      MceBattery.readable, MceBattery.g_signal_emit, World.log]

theorem charger_update_observed_nf (s : MceCharger) (value : Option String) :
    (mce_charger_state_update_observed ⟨s, []⟩ value).self =
        mce_charger_state_update s value ∧
      (mce_charger_state_update_observed ⟨s, []⟩ value).views MceCharger.readable =
        (if s.state = charger_state_of_wire value then []
          else [(mce_charger_signal.SIGNAL_STATE_CHANGED,
            (s.valid, charger_state_of_wire value))]) ++
        (if (s.priv.proxy.valid && !s.valid) = true
          then [(mce_charger_signal.SIGNAL_VALID_CHANGED, (true, charger_state_of_wire value))]
          else []) := by
  unfold mce_charger_state_update_observed mce_charger_state_update
  simp only [charger_decode_eq, Observed.views]
  obtain ⟨⟨rc⟩, ⟨proxy, pvid, id⟩, valid, state, ⟨trace, seq⟩⟩ := s
  by_cases h1 : state = charger_state_of_wire value <;>
    by_cases h2 : charger_state_known value = true <;>
    cases hv : valid <;> cases hp : proxy.valid <;>
    simp [h1, h2, hv, hp, MceCharger.g_signal_emit, World.log,
      MceCharger.g_signal_emit_observed, MceCharger.readable]

theorem inactivity_update_observed_nf (s : MceInactivity) (status : Int) :
    (mce_inactivity_status_update_observed ⟨s, []⟩ status).self =
        mce_inactivity_status_update s status ∧
      (mce_inactivity_status_update_observed ⟨s, []⟩ status).views MceInactivity.readable =
        (if status = s.status then []
          else [(mce_inactivity_signal.SIGNAL_STATUS_CHANGED, (s.valid, status))]) ++
        (if (s.priv.proxy.valid && !s.valid) = true
          then [(mce_inactivity_signal.SIGNAL_VALID_CHANGED, (true, status))]
          else []) := by
  unfold mce_inactivity_status_update_observed mce_inactivity_status_update
  simp only [Observed.views]
  obtain ⟨⟨rc⟩, ⟨proxy, pvid, id⟩, valid, st, ⟨trace, seq⟩⟩ := s
  by_cases h1 : status = st <;>
    cases hv : valid <;> cases hp : proxy.valid <;>
    simp [h1, hv, hp, MceInactivity.g_signal_emit, World.log,
      MceInactivity.g_signal_emit_observed, MceInactivity.readable]

/-! ## Notification order within one delivery -/

/-- C25: in `mce_battery_level_update`, `mce_battery_status_update`,
`mce_charger_state_update` and `mce_inactivity_status_update`, run with the
log of what the handlers are handed (the logging changes nothing of the
result), the property-changed notification, if any, comes before the
valid-changed notification, if any, and there are no others; the handlers of
both find the delivered value in the cache, the handlers of property-changed
find `valid` as it was before the delivery, and the handlers of valid-changed
find the new `valid`. So on a fresh connected battery that has its status,
the handlers of level-changed find the new level 50 while `valid` is still
false, and the handlers of valid-changed then find `valid` true with that
level. -/
theorem notification_order_within_delivery (b : MceBattery) (level : Int)
    (status : Option String) (c : MceCharger) (value : Option String) (i : MceInactivity)
    (inactive : Int) :
    ((mce_battery_level_update_observed ⟨b, []⟩ level).self = mce_battery_level_update b level ∧
      (mce_battery_level_update_observed ⟨b, []⟩ level).views MceBattery.readable =
        (if b.level = clamp_level level then []
          else [(SIGNAL_LEVEL_CHANGED, (b.valid, clamp_level level, b.status))]) ++
        (if (mce_battery_level_update b level).valid = b.valid then []
          else [(SIGNAL_VALID_CHANGED,
            ((mce_battery_level_update b level).valid, clamp_level level, b.status))])) ∧
    ((mce_battery_status_update_observed ⟨b, []⟩ status).self =
        mce_battery_status_update b status ∧
      (mce_battery_status_update_observed ⟨b, []⟩ status).views MceBattery.readable =
        (if b.status = battery_status_of_wire status then []
          else [(SIGNAL_STATUS_CHANGED, (b.valid, b.level, battery_status_of_wire status))]) ++
        (if (mce_battery_status_update b status).valid = b.valid then []
          else [(SIGNAL_VALID_CHANGED,
            ((mce_battery_status_update b status).valid, b.level,
              battery_status_of_wire status))])) ∧
    ((mce_charger_state_update_observed ⟨c, []⟩ value).self =
        mce_charger_state_update c value ∧
      (mce_charger_state_update_observed ⟨c, []⟩ value).views MceCharger.readable =
        (if c.state = charger_state_of_wire value then []
          else [(mce_charger_signal.SIGNAL_STATE_CHANGED,
            (c.valid, charger_state_of_wire value))]) ++
        (if (c.priv.proxy.valid && !c.valid) = true
          then [(mce_charger_signal.SIGNAL_VALID_CHANGED, (true, charger_state_of_wire value))]
          else [])) ∧
    ((mce_inactivity_status_update_observed ⟨i, []⟩ inactive).self =
        mce_inactivity_status_update i inactive ∧
      (mce_inactivity_status_update_observed ⟨i, []⟩ inactive).views MceInactivity.readable =
        (if inactive = i.status then []
          else [(mce_inactivity_signal.SIGNAL_STATUS_CHANGED, (i.valid, inactive))]) ++
        (if (i.priv.proxy.valid && !i.valid) = true
          then [(mce_inactivity_signal.SIGNAL_VALID_CHANGED, (true, inactive))]
          else [])) ∧
    (mce_battery_level_update_observed
        ⟨mce_battery_status_update (battery_fresh_connected none none ⟨[], 0⟩) (some "ok"), []⟩
        50).views MceBattery.readable =
      [(SIGNAL_LEVEL_CHANGED, (false, 50, MCE_BATTERY_OK)),
       (SIGNAL_VALID_CHANGED, (true, 50, MCE_BATTERY_OK))] := by
  exact ⟨level_update_observed_nf b level, status_update_observed_nf b status,
    charger_update_observed_nf c value, inactivity_update_observed_nf i inactive, by decide⟩

/-! ## Auxiliary lemmas: the validity rule along a run -/

theorem step_valid_derived (s : MceBattery) (e : BatteryEvent)
    (h : s.valid = s.derived_valid) : (s.step e).valid = (s.step e).derived_valid := by
  have unref : ∀ t : MceBattery, t.valid = t.derived_valid →
      t.g_object_unref.valid = t.g_object_unref.derived_valid := by
    intro t ht
    obtain ⟨u1, _, _, u4, u5⟩ := unref_fields t
    rw [u1, ht]
    simp only [MceBattery.derived_valid, u4, u5]
  have lev : ∀ level, (mce_battery_level_update s level).valid =
      (mce_battery_level_update s level).derived_valid := by
    intro level
    obtain ⟨c1, c2, c3, c4, _⟩ := level_update_core s level
    rw [derived_valid_eq, c1, c2, c3, c4, Bool.true_and]
  have sta : ∀ status, (mce_battery_status_update s status).valid =
      (mce_battery_status_update s status).derived_valid := by
    intro status
    obtain ⟨c1, c2, c3, c4, _⟩ := status_update_core s status
    rw [derived_valid_eq, c1, c2, c3, c4, Bool.and_true]
  cases e with
  | level_ind level => exact lev level
  | status_ind status => exact sta status
  | level_query_done result =>
    cases result with
    | none => exact unref s h
    | some level => exact unref _ (lev level)
  | status_query_done result =>
    cases result with
    | none => exact unref s h
    | some status => exact unref _ (sta status)
  | valid_changed proxy =>
    obtain ⟨v1, v2, v3, v4, _⟩ := step_valid_changed s proxy
    rw [derived_valid_eq, v1, v2, v3, v4]
    cases proxy.valid <;> simp

theorem run_valid_derived (events : List BatteryEvent) :
    ∀ s : MceBattery, s.valid = s.derived_valid →
      (s.run events).valid = (s.run events).derived_valid := by
  induction events with
  | nil => intro s h; exact h
  | cons e rest ih =>
    intro s h
    exact ih (s.step e) (step_valid_derived s e h)

theorem fresh_valid_derived (proxy : MceProxy) (world : World mce_battery_signal) :
    (mce_battery_new none proxy world).valid =
      (mce_battery_new none proxy world).derived_valid := by
  rw [fresh_battery_nf]
  have : (BATTERY_HAVE_NONE &&& BATTERY_HAVE_ALL = BATTERY_HAVE_ALL) = False := by
    simp only [eq_iff_iff, iff_false]; decide
  simp [MceBattery.derived_valid, this]

/-! ## Auxiliary lemmas: deliveries for different properties -/

theorem level_status_commute (b : MceBattery) (level : Int) (status : Option String) :
    (mce_battery_status_update (mce_battery_level_update b level) status).level =
        (mce_battery_level_update (mce_battery_status_update b status) level).level ∧
      (mce_battery_status_update (mce_battery_level_update b level) status).status =
        (mce_battery_level_update (mce_battery_status_update b status) level).status ∧
      (mce_battery_status_update (mce_battery_level_update b level) status).priv.flags =
        (mce_battery_level_update (mce_battery_status_update b status) level).priv.flags ∧
      (mce_battery_status_update (mce_battery_level_update b level) status).valid =
        (mce_battery_level_update (mce_battery_status_update b status) level).valid ∧
      (mce_battery_status_update (mce_battery_level_update b level) status).emissions
          SIGNAL_LEVEL_CHANGED =
        (mce_battery_level_update (mce_battery_status_update b status) level).emissions
          SIGNAL_LEVEL_CHANGED ∧
      (mce_battery_status_update (mce_battery_level_update b level) status).emissions
          SIGNAL_STATUS_CHANGED =
        (mce_battery_level_update (mce_battery_status_update b status) level).emissions
          SIGNAL_STATUS_CHANGED := by
  obtain ⟨l1, l2, l3⟩ := level_update_flags b level
  obtain ⟨s1, s2, s3⟩ := status_update_flags b status
  obtain ⟨l1', l2', l3'⟩ := level_update_flags (mce_battery_status_update b status) level
  obtain ⟨s1', s2', s3'⟩ := status_update_flags (mce_battery_level_update b level) status
  obtain ⟨le, ll⟩ := level_update_emissions b level
  obtain ⟨se, ss⟩ := status_update_emissions b status
  obtain ⟨le', ll'⟩ := level_update_emissions (mce_battery_status_update b status) level
  obtain ⟨se', ss'⟩ := status_update_emissions (mce_battery_level_update b level) status
  obtain ⟨c1, c2, _, _, _⟩ := level_update_core b level
  obtain ⟨d1, _, d3, _, _⟩ := status_update_core b status
  obtain ⟨c1', _, _, c4', _⟩ := level_update_core (mce_battery_status_update b status) level
  obtain ⟨d1', _, _, d4', _⟩ := status_update_core (mce_battery_level_update b level) status
  refine ⟨?_, ?_, ?_, ?_, ?_, ?_⟩
  · rw [s2', ll, ll']
  · rw [ss', l2', ss]
  · rw [s1', l1, l1', s1, Nat.lor_assoc, Nat.lor_assoc,
      Nat.lor_comm BATTERY_HAVE_LEVEL BATTERY_HAVE_STATUS]
  · rw [d4', c4', c1, c2, d1, d3]
  · rw [s3', le, le', s3, s2]
  · rw [se', l3', se, l3, l2]

theorem level_status_commute_valid_changed (b : MceBattery) (level : Int)
    (status : Option String) (h : b.valid = b.derived_valid) :
    (mce_battery_status_update (mce_battery_level_update b level) status).emissions
        SIGNAL_VALID_CHANGED =
      (mce_battery_level_update (mce_battery_status_update b status) level).emissions
        SIGNAL_VALID_CHANGED := by
  obtain ⟨c1, c2, c3, c4, c5⟩ := level_update_core b level
  obtain ⟨d1, d2, d3, d4, d5⟩ := status_update_core b status
  obtain ⟨_, _, _, _, c5'⟩ := level_update_core (mce_battery_status_update b status) level
  obtain ⟨_, _, _, _, d5'⟩ := status_update_core (mce_battery_level_update b level) status
  rw [d5', c5', c5, d5, c1, c2, c4, d1, d3, d4, h, derived_valid_eq]
  cases b.priv.proxy.valid <;> cases b.have_level <;> cases b.have_status <;> simp

/-! ## Deliveries for different properties commute -/

/-- C26: for every battery record, level and status string, delivering the
level and then the status yields the same level, status, populated flags and
valid as the reverse order, with the same number of level-changed and
status-changed notifications; in every state reached from a freshly
constructed battery by any sequence of callbacks the number of valid-changed
notifications is the same too. `mce_battery_level_update` never modifies
status or `BATTERY_HAVE_STATUS`, and `mce_battery_status_update` never
modifies level or `BATTERY_HAVE_LEVEL`. -/
theorem battery_deliveries_commute (b : MceBattery) (level : Int) (status : Option String)
    (proxy : MceProxy) (world : World mce_battery_signal) (events : List BatteryEvent) :
    (mce_battery_status_update (mce_battery_level_update b level) status).level =
        (mce_battery_level_update (mce_battery_status_update b status) level).level ∧
      (mce_battery_status_update (mce_battery_level_update b level) status).status =
        (mce_battery_level_update (mce_battery_status_update b status) level).status ∧
      (mce_battery_status_update (mce_battery_level_update b level) status).priv.flags =
        (mce_battery_level_update (mce_battery_status_update b status) level).priv.flags ∧
      (mce_battery_status_update (mce_battery_level_update b level) status).valid =
        (mce_battery_level_update (mce_battery_status_update b status) level).valid ∧
      (mce_battery_status_update (mce_battery_level_update b level) status).emissions
          SIGNAL_LEVEL_CHANGED =
        (mce_battery_level_update (mce_battery_status_update b status) level).emissions
          SIGNAL_LEVEL_CHANGED ∧
      (mce_battery_status_update (mce_battery_level_update b level) status).emissions
          SIGNAL_STATUS_CHANGED =
        (mce_battery_level_update (mce_battery_status_update b status) level).emissions
          SIGNAL_STATUS_CHANGED ∧
      (mce_battery_status_update
          (mce_battery_level_update ((mce_battery_new none proxy world).run events) level)
          status).emissions SIGNAL_VALID_CHANGED =
        (mce_battery_level_update
          (mce_battery_status_update ((mce_battery_new none proxy world).run events) status)
          level).emissions SIGNAL_VALID_CHANGED ∧
      (mce_battery_level_update b level).status = b.status ∧
      (mce_battery_level_update b level).have_status = b.have_status ∧
      (mce_battery_status_update b status).level = b.level ∧
      (mce_battery_status_update b status).have_level = b.have_level := by
  obtain ⟨h1, h2, h3, h4, h5, h6⟩ := level_status_commute b level status
  exact ⟨h1, h2, h3, h4, h5, h6,
    level_status_commute_valid_changed _ level status
      (run_valid_derived events _ (fresh_valid_derived proxy world)),
    (level_update_flags b level).2.1, (level_update_core b level).2.2.1,
    (status_update_flags b status).2.1, (status_update_core b status).2.1⟩

/-! ## Null tolerance of the public API -/

/-- C27: with pointers as `Option` and handler ids as naturals, every
`add_*_changed_handler` of the battery, the charger and the inactivity monitor
returns 0 and leaves the object as it is when the object or the callback is
absent, and otherwise returns the id that `g_signal_connect` hands out for the
registration on the object, which is not 0; `remove_handler` does nothing
when the object is absent or the id is 0 and disconnects otherwise; `ref` of
an absent object returns absent and `unref` of an absent object does nothing. -/
theorem public_api_null_tolerance (b : MceBattery) (c : MceCharger) (i : MceInactivity)
    (self_b : Option MceBattery) (self_c : Option MceCharger)
    (self_i : Option MceInactivity) (fn : Option GCallback) (f : GCallback)
    (arg id : Nat) :
    (mce_battery_add_valid_changed_handler none fn arg = (0, none) ∧
      mce_battery_add_valid_changed_handler self_b none arg = (0, self_b) ∧
      mce_battery_add_valid_changed_handler (some b) (some f) arg =
        (b.world.handler_seq + 1,
          some (b.g_signal_connect_self "mce-battery-valid-changed" f arg).2) ∧
      mce_battery_add_level_changed_handler none fn arg = (0, none) ∧
      mce_battery_add_level_changed_handler self_b none arg = (0, self_b) ∧
      mce_battery_add_level_changed_handler (some b) (some f) arg =
        (b.world.handler_seq + 1,
          some (b.g_signal_connect_self "mce-battery-level-changed" f arg).2) ∧
      mce_battery_add_status_changed_handler none fn arg = (0, none) ∧
      mce_battery_add_status_changed_handler self_b none arg = (0, self_b) ∧
      mce_battery_add_status_changed_handler (some b) (some f) arg =
        (b.world.handler_seq + 1,
          some (b.g_signal_connect_self "mce-battery-status-changed" f arg).2) ∧
      (b.g_signal_connect_self "mce-battery-valid-changed" f arg).2.world.trace =
        b.world.trace ++
          [Effect.handler_connect "mce-battery-valid-changed" f arg (b.world.handler_seq + 1)] ∧
      mce_battery_remove_handler none id = none ∧
      mce_battery_remove_handler self_b 0 = self_b ∧
      mce_battery_remove_handler (some b) (id + 1) =
        some (b.g_signal_handler_disconnect (id + 1)) ∧
      mce_battery_ref none = none ∧
      mce_battery_unref none = none) ∧
    (mce_charger_add_valid_changed_handler none fn arg = (0, none) ∧
      mce_charger_add_valid_changed_handler self_c none arg = (0, self_c) ∧
      mce_charger_add_valid_changed_handler (some c) (some f) arg =
        (c.world.handler_seq + 1,
          some (c.g_signal_connect_self "mce-charger-valid-changed" f arg).2) ∧
      mce_charger_add_state_changed_handler none fn arg = (0, none) ∧
      mce_charger_add_state_changed_handler self_c none arg = (0, self_c) ∧
      mce_charger_add_state_changed_handler (some c) (some f) arg =
        (c.world.handler_seq + 1,
          some (c.g_signal_connect_self "mce-charger-state-changed" f arg).2) ∧
      (c.g_signal_connect_self "mce-charger-valid-changed" f arg).2.world.trace =
        c.world.trace ++
          [Effect.handler_connect "mce-charger-valid-changed" f arg (c.world.handler_seq + 1)] ∧
      mce_charger_remove_handler none id = none ∧
      mce_charger_remove_handler self_c 0 = self_c ∧
      mce_charger_remove_handler (some c) (id + 1) =
        some (c.g_signal_handler_disconnect (id + 1)) ∧
      mce_charger_ref none = none ∧
      mce_charger_unref none = none) ∧
    (mce_inactivity_add_valid_changed_handler none fn arg = (0, none) ∧
      mce_inactivity_add_valid_changed_handler self_i none arg = (0, self_i) ∧
      mce_inactivity_add_valid_changed_handler (some i) (some f) arg =
        (i.world.handler_seq + 1,
          some (i.g_signal_connect_self "mce-inactivity-valid-changed" f arg).2) ∧
      mce_inactivity_add_status_changed_handler none fn arg = (0, none) ∧
      mce_inactivity_add_status_changed_handler self_i none arg = (0, self_i) ∧
      mce_inactivity_add_status_changed_handler (some i) (some f) arg =
        (i.world.handler_seq + 1,
          some (i.g_signal_connect_self "mce-inactivity-mode-changed" f arg).2) ∧
      (i.g_signal_connect_self "mce-inactivity-valid-changed" f arg).2.world.trace =
        i.world.trace ++
          [Effect.handler_connect "mce-inactivity-valid-changed" f arg
            (i.world.handler_seq + 1)] ∧
      mce_inactivity_remove_handler none id = none ∧
      mce_inactivity_remove_handler self_i 0 = self_i ∧
      mce_inactivity_remove_handler (some i) (id + 1) =
        some (i.g_signal_handler_disconnect (id + 1)) ∧
      mce_inactivity_ref none = none ∧
      mce_inactivity_unref none = none) := by
  refine ⟨⟨?_, ?_, rfl, ?_, ?_, rfl, ?_, ?_, rfl, rfl, rfl, ?_, rfl, rfl, rfl⟩,
    ⟨?_, ?_, rfl, ?_, ?_, rfl, rfl, rfl, ?_, rfl, rfl, rfl⟩,
    ⟨?_, ?_, rfl, ?_, ?_, rfl, rfl, rfl, ?_, rfl, rfl, rfl⟩⟩
  all_goals first
    | (cases fn <;> rfl)
    | (cases self_b <;> rfl)
    | (cases self_c <;> rfl)
    | (cases self_i <;> rfl)

end MceGlib
